import Mathlib

/-!
# VoiceChatBot: the session and dialogue-turn engine and the conversation controller

A shallow embedding of `src/server.js`, `src/config.js` and the controller of
`src/public/client.js`.

* JavaScript strings are sequences of UTF-16 code units (`JsString`), so that
  `length`, `substring` and `+` are `List.length`, `List.take` and `++`.
* `Date` values are their millisecond timestamps (`Int`).
* The `Map` `chatSessions` is an association list in insertion order.
* Calls that leave the program (the `franc` detector, `toLowerCase`, the clock,
  `Math.random`, the completion service) are inputs of the handlers.
* Code that may throw lives in `Except JsError`; `try`/`catch` is `Except.tryCatch`.
* A handler of the client maps the globals to their next values and to the list of
  calls it makes (log lines, recognizer, synthesizer, timers, requests); the part of a
  handler after an `await` is a handler of its own.
-/

namespace VoiceChatBot

/-! ## Strings -/

/-- A JavaScript string: its sequence of UTF-16 code units. -/
abbrev JsString := List Nat

/-- The UTF-16 code units of one Unicode scalar value. -/
def codeUnits (c : Char) : List Nat :=
  if c.toNat < 65536 then [c.toNat]
  else [55296 + (c.toNat - 65536) / 1024, 56320 + (c.toNat - 65536) % 1024]

/-- The JavaScript string written by a source literal. -/
def utf16 (s : String) : JsString :=
  (s.toList.map codeUnits).flatten

/-- JavaScript truthiness of a value that is a string or `undefined`. -/
def truthy : Option JsString → Bool
  | none => false
  | some s => !s.isEmpty

/-- The method `s.includes(needle)`. -/
def includes (s needle : JsString) : Bool :=
  s.tails.any (fun t => needle.isPrefixOf t)

/-- A thrown JavaScript error, with the properties the handlers read:
`error.status`, `error.message` and, per entry of `error.errorDetails`,
the pair (`d['@type']`, `d.retryDelay`). -/
structure JsError where
  status : Option Nat
  message : JsString
  errorDetails : Option (List (Option JsString × Option JsString))
  deriving DecidableEq, Repr

/-! ## Language detection (`server.js`, lines 36-71) -/

/-- The object `languageMap` of `detectLanguage`: franc code to language code.
The detector yields ISO 639-3 codes or `und`, none of which names a property
inherited from `Object.prototype`, so the lookup is on own properties. -/
def languageMap : List (JsString × JsString) :=
  [ (utf16 "eng", utf16 "en"), (utf16 "spa", utf16 "es"),
    (utf16 "fra", utf16 "fr"), (utf16 "deu", utf16 "de"),
    (utf16 "hin", utf16 "hi"), (utf16 "cmn", utf16 "zh"),
    (utf16 "jpn", utf16 "ja"), (utf16 "kor", utf16 "ko") ]

/-- Property lookup `obj[key]` on an object literal with string keys. -/
def lookup {β : Type} (obj : List (JsString × β)) (key : JsString) : Option β :=
  match obj with
  | [] => none
  | (k, v) :: rest => if k = key then some v else lookup rest key

/-- The function `detectLanguage(text)`; `franc` is the call
`franc(text, { minLength: 3 })`, which returns a code or throws. -/
def detectLanguage (franc : JsString → Except JsError JsString) (text : JsString) :
    Except JsError JsString :=
  Except.tryCatch
    (do
      let detected ← franc text
      let mappedLanguage := (lookup languageMap detected).getD detected
      pure (if mappedLanguage ≠ utf16 "und" then mappedLanguage else utf16 "en"))
    (fun _ => pure (utf16 "en"))

/-- The language codes listed as `languageSupport` by `/api/status`; they are
also the keys of `languagePrompts`. -/
def languageSupport : List JsString :=
  [utf16 "en", utf16 "es", utf16 "fr", utf16 "de", utf16 "hi", utf16 "zh", utf16 "ja", utf16 "ko"]


/-- The object `languagePrompts`: the system prompt of each supported language. -/
def languagePrompts : List (JsString × JsString) :=
  [
    (utf16 "en",
      utf16 "You are Rev, a helpful AI assistant for Revolt Motors, an electric vehicle company. You help customers with information about electric vehicles, charging, maintenance, and general EV-related questions. Be knowledgeable, friendly, and professional. Keep responses concise (under 50 words) for natural conversation flow. Always identify yourself as Rev. Respond conversationally and naturally."),
    (utf16 "es",
      utf16 "Eres Rev, un asistente de IA útil para Revolt Motors, una empresa de vehículos eléctricos. Ayudas a los clientes con información sobre vehículos eléctricos, carga, mantenimiento y preguntas generales relacionadas con vehículos eléctricos. Sé conocedor, amigable y profesional. Mantén las respuestas concisas (menos de 50 palabras) para un flujo de conversación natural. Siempre identifícate como Rev. Responde de manera conversacional y natural."),
    (utf16 "fr",
      utf16 "Vous êtes Rev, un assistant IA utile pour Revolt Motors, une entreprise de véhicules électriques. Vous aidez les clients avec des informations sur les véhicules électriques, la recharge, la maintenance et les questions générales liées aux véhicules électriques. Soyez compétent, amical et professionnel. Gardez les réponses concises (moins de 50 mots) pour un flux de conversation naturel. Identifiez-vous toujours comme Rev. Répondez de manière conversationnelle et naturelle."),
    (utf16 "de",
      utf16 "Sie sind Rev, ein hilfreicher KI-Assistent für Revolt Motors, ein Elektrofahrzeugunternehmen. Sie helfen Kunden mit Informationen über Elektrofahrzeuge, Ladung, Wartung und allgemeine EV-bezogene Fragen. Seien Sie sachkundig, freundlich und professionell. Halten Sie Antworten prägnant (unter 50 Wörtern) für einen natürlichen Gesprächsfluss. Identifizieren Sie sich immer als Rev. Antworten Sie gesprächsweise und natürlich."),
    (utf16 "hi",
      utf16 "आप रेव हैं, रेवोल्ट मोटर्स के लिए एक सहायक AI सहायक, एक इलेक्ट्रिक वाहन कंपनी। आप ग्राहकों को इलेक्ट्रिक वाहनों, चार्जिंग, रखरखाव और सामान्य EV-संबंधित प्रश्नों के बारे में जानकारी प्रदान करते हैं। जानकार, मित्रवत और पेशेवर बनें। प्राकृतिक बातचीत के लिए प्रतिक्रियाओं को संक्षिप्त रखें (50 शब्दों से कम)। हमेशा खुद को रेव के रूप में पहचानें। बातचीत और स्वाभाविक रूप से जवाब दें।"),
    (utf16 "zh",
      utf16 "您是Rev，Revolt Motors（一家电动汽车公司）的有用AI助手。您帮助客户了解电动汽车、充电、维护和一般电动汽车相关问题。要知识渊博、友好和专业。保持回答简洁（少于50个单词）以实现自然对话流程。始终将自己识别为Rev。以对话和自然的方式回应。"),
    (utf16 "ja",
      utf16 "あなたはRevです。電気自動車会社のRevolt Motorsの役立つAIアシスタントです。電気自動車、充電、メンテナンス、一般的なEV関連の質問について顧客をサポートします。知識豊富で、親しみやすく、プロフェッショナルでいてください。自然な会話の流れのために回答を簡潔に保ってください（50語未満）。常に自分をRevとして識別してください。会話的で自然に応答してください。"),
    (utf16 "ko",
      utf16 "당신은 전기 자동차 회사인 Revolt Motors의 유용한 AI 어시스턴트인 Rev입니다. 전기 자동차, 충전, 유지보수 및 일반적인 EV 관련 질문에 대한 정보로 고객을 돕습니다. 지식이 풍부하고 친근하며 전문적이 되세요. 자연스러운 대화 흐름을 위해 답변을 간결하게 유지하세요 (50단어 미만). 항상 자신을 Rev로 식별하세요. 대화적이고 자연스럽게 응답하세요.") ]

/-- The object `welcomeMessage` of the `/api/chat/start` handler. -/
def welcomeMessage : List (JsString × JsString) :=
  [
    (utf16 "en",
      utf16 "Hello! I'm Rev, your Revolt Motors AI assistant. I'm here to help with all things electric vehicles. How can I assist you today?"),
    (utf16 "es",
      utf16 "¡Hola! Soy Rev, tu asistente de IA de Revolt Motors. Estoy aquí para ayudar con todo lo relacionado con vehículos eléctricos. ¿Cómo puedo ayudarte hoy?"),
    (utf16 "fr",
      utf16 "Bonjour ! Je suis Rev, votre assistant IA Revolt Motors. Je suis ici pour vous aider avec tout ce qui concerne les véhicules électriques. Comment puis-je vous aider aujourd'hui ?"),
    (utf16 "de",
      utf16 "Hallo! Ich bin Rev, Ihr Revolt Motors KI-Assistent. Ich bin hier, um bei allem zu helfen, was mit Elektrofahrzeugen zu tun hat. Wie kann ich Ihnen heute helfen?"),
    (utf16 "hi",
      utf16 "नमस्ते! मैं रेव हूं, आपका रेवोल्ट मोटर्स AI सहायक। मैं इलेक्ट्रिक वाहनों से संबंधित सभी चीजों में मदद करने के लिए यहां हूं। मैं आज आपकी कैसे मदद कर सकता हूं?"),
    (utf16 "zh",
      utf16 "你好！我是Rev，您的Revolt Motors AI助手。我在这里帮助您处理所有与电动汽车相关的事情。我今天如何帮助您？"),
    (utf16 "ja",
      utf16 "こんにちは！私はRevです。Revolt MotorsのAIアシスタントです。電気自動車に関するすべてのことをお手伝いします。今日はどのようにお手伝いできますか？"),
    (utf16 "ko",
      utf16 "안녕하세요! 저는 Rev입니다. Revolt Motors AI 어시스턴트입니다. 전기 자동차와 관련된 모든 것을 도와드리기 위해 여기 있습니다. 오늘 어떻게 도와드릴까요?") ]

/-- The system prompt written out in the fallback branch of `/api/chat/start`. -/
def fallbackSystemPrompt : JsString :=
  utf16 "You are Rev, a helpful AI assistant for Revolt Motors, an electric vehicle company. You help customers with information about electric vehicles, charging, maintenance, and general EV-related questions. Be knowledgeable, friendly, and professional. Keep responses concise (under 50 words) for natural conversation flow. Always identify yourself as Rev. Respond conversationally and naturally and support multiple languages."

/-- The welcome reply written out in the fallback branch of `/api/chat/start`. -/
def fallbackWelcome : JsString :=
  utf16 "Hello! I'm Rev, your Revolt Motors AI assistant. I'm here to help with all things electric vehicles. How can I assist you today?"

/-! ## Configuration (`config.js`) -/

/-- One entry of the object `config` of `config.js`. -/
structure Config where
  primaryModel : JsString
  fallbackModel : JsString
  description : JsString
  deriving DecidableEq, Repr

/-- The keys of the object `config`: the values `NODE_ENV` selects from. -/
inductive Environment where
  | production
  | development
  | testing
  deriving DecidableEq, Repr

/-- The object `config` of `config.js` (exported as `allConfigs`). -/
def allConfigs : Environment → Config
  | .production =>
    { primaryModel := utf16 "gemini-2.0-flash-001"
      fallbackModel := utf16 "gemini-2.0-flash-exp"
      description := utf16 "Production config with available models" }
  | .development =>
    { primaryModel := utf16 "gemini-2.0-flash-001"
      fallbackModel := utf16 "gemini-2.0-flash-exp"
      description := utf16 "Development config with available models" }
  | .testing =>
    { primaryModel := utf16 "gemini-2.0-flash-exp"
      fallbackModel := utf16 "gemini-2.0-flash-001"
      description := utf16 "Testing config with available models" }

/-- The export of `config.js`: `process.env.NODE_ENV || 'production'` selects
the entry; `none` is an unset `NODE_ENV`. -/
def config (nodeEnv : Option Environment) : Config :=
  allConfigs (nodeEnv.getD .production)

/-! ## Sessions and the session store -/

/-- The `role` of a history entry: the strings `"user"` and `"model"`. -/
inductive Role where
  | user
  | model
  deriving DecidableEq, Repr

/-- A history entry `{ role, parts: [{ text }] }`. -/
structure Content where
  role : Role
  text : JsString
  deriving DecidableEq, Repr

/-- The object `chatSession`: `{ model, history }`. -/
structure ChatSession where
  model : JsString
  history : List Content
  deriving DecidableEq, Repr

/-- A value of the map `chatSessions`. -/
structure Session where
  chatSession : ChatSession
  modelUsed : JsString
  isFallback : Bool
  createdAt : Int
  lastActivity : Int
  messageCount : Nat
  deriving DecidableEq, Repr

/-- The map `chatSessions`: its entries in insertion order. -/
abbrev Store := List (JsString × Session)

/-- The keys of a JavaScript `Map` are distinct. -/
def Store.WF (m : Store) : Prop :=
  (m.map Prod.fst).Nodup

instance (m : Store) : Decidable (Store.WF m) :=
  inferInstanceAs (Decidable (m.map Prod.fst).Nodup)

/-- The method `chatSessions.get(key)`. -/
def Store.get (m : Store) (key : JsString) : Option Session :=
  lookup m key

/-- The method `chatSessions.has(key)`. -/
def Store.has (m : Store) (key : JsString) : Bool :=
  (Store.get m key).isSome

/-- The method `chatSessions.set(key, value)`: an existing key keeps its place. -/
def Store.set (m : Store) (key : JsString) (value : Session) : Store :=
  if Store.has m key then m.map (fun e => if e.1 = key then (key, value) else e)
  else m ++ [(key, value)]

/-- The method `chatSessions.delete(key)`. -/
def Store.delete (m : Store) (key : JsString) : Store :=
  m.filter (fun e => e.1 ≠ key)

/-! ## HTTP replies -/

/-- The JSON bodies the handlers send. -/
inductive Body where
  | started (sessionId model : JsString) (isFallback : Bool) (message : JsString)
  | reply (response messageType model : JsString) (isFallback : Bool) (responseTime : Int)
  | ended (message : JsString)
  | failure (error : JsString) (details retryAfter suggestion : Option JsString)
  deriving DecidableEq, Repr

/-- A reply: `res.status(status).json(body)`; `res.json(body)` has status 200. -/
structure HttpResponse where
  status : Nat
  body : Body
  deriving DecidableEq, Repr

/-! ## `POST /api/chat/start` (`server.js`, lines 98-193) -/

/-- What the start handler reads from outside: the clock, `Math.random`, and
whether building the primary or the fallback `chatSession` throws. -/
structure StartEnv where
  idNow : Int
  rnd : JsString
  primaryFails : Bool
  fallbackFails : Bool
  createdAt : Int
  lastActivity : Int

/-- The seed history of the primary branch: system prompt and welcome reply for
`initialLanguage = 'en'`. -/
def primaryHistory : List Content :=
  [ { role := .user, text := (lookup languagePrompts (utf16 "en")).getD [] },
    { role := .model, text := (lookup welcomeMessage (utf16 "en")).getD [] } ]

/-- The seed history of the fallback branch. -/
def fallbackHistory : List Content :=
  [ { role := .user, text := fallbackSystemPrompt },
    { role := .model, text := fallbackWelcome } ]

/-- The session id of a start request: `req.body.sessionId` when truthy, else
the generated id; `rnd` is `Math.random().toString(36).substr(2, 9)`. -/
def startSessionId (env : StartEnv) (bodySessionId : Option JsString) : JsString :=
  if truthy bodySessionId then bodySessionId.getD []
  else utf16 "session_" ++ utf16 (toString env.idNow) ++ utf16 "_" ++ env.rnd

/-- The handler of `POST /api/chat/start`. -/
def startTurn (cfg : Config) (env : StartEnv) (bodySessionId : Option JsString)
    (store : Store) : Store × HttpResponse :=
  let sessionId := startSessionId env bodySessionId
  let built : Option (ChatSession × JsString × Bool) :=
    if !env.primaryFails then
      some ({ model := cfg.primaryModel, history := primaryHistory },
        utf16 "gemini-1.5-flash", false)
    else if !env.fallbackFails then
      some ({ model := cfg.fallbackModel, history := fallbackHistory },
        cfg.fallbackModel, true)
    else none
  match built with
  | none =>
    (store,
      { status := 500
        body := .failure (utf16 "Failed to start chat session")
          (some (utf16 "All AI models are currently unavailable")) none none })
  | some (chatSession, modelUsed, isFallback) =>
    (Store.set store sessionId
        { chatSession := chatSession
          modelUsed := modelUsed
          isFallback := isFallback
          createdAt := env.createdAt
          lastActivity := env.lastActivity
          messageCount := 0 },
      { status := 200
        body := .started sessionId modelUsed isFallback
          (utf16 "Chat session started successfully") })

/-! ## `POST /api/chat/message` (`server.js`, lines 195-340) -/

/-- The keywords of the thank-you branch, in source order. -/
def gratitudeWords : List JsString :=
  [ utf16 "thank", utf16 "thanks", utf16 "gracias", utf16 "merci", utf16 "danke",
    utf16 "धन्यवाद", utf16 "谢谢", utf16 "ありがとう", utf16 "감사합니다" ]

/-- The keywords of the goodbye branch, in source order. -/
def farewellWords : List JsString :=
  [ utf16 "bye", utf16 "goodbye", utf16 "adiós", utf16 "au revoir",
    utf16 "auf wiedersehen", utf16 "अलविदा", utf16 "再见", utf16 "さようなら", utf16 "안녕히" ]

/-- The prompt chosen by message count and keywords (lines 226-244);
`toLowerCase` is the platform's `String.prototype.toLowerCase`. -/
def optimizePrompt (toLowerCase : JsString → JsString) (messageCount : Nat)
    (message : JsString) : JsString :=
  if messageCount = 1 then
    utf16 "User says: \"" ++ message ++
      utf16 "\". This is their first message. Respond warmly and ask how you can help with electric vehicles."
  else if gratitudeWords.any (fun w => includes (toLowerCase message) w) then
    utf16 "User says: \"" ++ message ++
      utf16 "\". They're thanking you. Respond warmly and offer to help with anything else."
  else if farewellWords.any (fun w => includes (toLowerCase message) w) then
    utf16 "User says: \"" ++ message ++
      utf16 "\". They're saying goodbye. Respond warmly and invite them back anytime."
  else message

/-- The value of `languageCode` (line 220): the detected language when it is a
key of `languagePrompts`, else `en`. -/
def languageCodeOf (detectedLanguage : JsString) : JsString :=
  if (lookup languagePrompts detectedLanguage).isSome then detectedLanguage else utf16 "en"

/-- The prompt with its language context (line 247). -/
def withLanguageContext (languageCode optimizedPrompt : JsString) : JsString :=
  (lookup languagePrompts languageCode).getD [] ++ utf16 "\n\nUser message (" ++ languageCode ++
    utf16 "): " ++ optimizedPrompt ++
    utf16 "\n\nRespond in the same language as the user's message."

/-- The arguments `model` and `contents` of a `genAI.models.generateContent`
call; `generationConfig` and `safetySettings` are the same constants in every
call. -/
structure CompletionRequest where
  model : JsString
  contents : List Content
  deriving DecidableEq, Repr

/-- The platform functions the message handler calls. -/
structure Platform where
  franc : JsString → Except JsError JsString
  toLowerCase : JsString → JsString

/-- What one message request reads from outside: the clock at line 215, the
outcome of the awaited completion call (`response.text`, or the error thrown)
and the clock at line 306. -/
structure MessageEnv where
  now : Int
  completion : Except JsError JsString
  respondedAt : Int

/-- The body of a message request; a field is `none` when absent. -/
structure MessageBody where
  sessionId : Option JsString
  message : Option JsString
  messageType : Option JsString

/-- The effect of one message request: the store afterwards, the reply, and
the completion calls made. -/
structure Outcome where
  store : Store
  response : HttpResponse
  calls : List CompletionRequest

/-- The text sent to the client (lines 296-298). -/
def finalResponse (text : JsString) : JsString :=
  let maxLength := 200
  if text.length > maxLength then text.take maxLength ++ utf16 "..." else text

/-- The `retryAfter` hint of the 429 reply (line 317). -/
def retryAfter (error : JsError) : JsString :=
  let found := error.errorDetails.bind (fun ds =>
    ds.find? (fun d => match d.1 with
      | some t => includes t (utf16 "RetryInfo")
      | none => false))
  let retryDelay := found.bind (fun d => d.2)
  if truthy retryDelay then retryDelay.getD [] else utf16 "60s"

/-- The reply of the inner `catch` (lines 309-331). -/
def completionFailure (error : JsError) : HttpResponse :=
  if error.status = some 429 then
    { status := 429
      body := .failure (utf16 "Rate limit exceeded")
        (some (utf16 "Too many requests. Please wait a moment and try again."))
        (some (retryAfter error)) none }
  else if includes error.message (utf16 "quota") || includes error.message (utf16 "Quota") then
    { status := 429
      body := .failure (utf16 "API quota exceeded")
        (some (utf16 "Daily/monthly quota limit reached. Please try again later or upgrade your plan."))
        none
        (some (utf16 "Consider using a different API key or upgrading your Gemini API plan")) }
  else
    { status := 500
      body := .failure (utf16 "Failed to get AI response") (some error.message) none none }

/-- The handler of `POST /api/chat/message`. -/
def submitUtterance (P : Platform) (env : MessageEnv) (body : MessageBody)
    (store : Store) : Outcome :=
  if !truthy body.sessionId || !truthy body.message then
    { store := store
      response :=
        { status := 400
          body := .failure (utf16 "Missing required fields")
            (some (utf16 "sessionId and message are required")) none none }
      calls := [] }
  else
    let sessionId := body.sessionId.getD []
    let message := body.message.getD []
    let messageType := body.messageType.getD (utf16 "voice")
    match Store.get store sessionId with
    | none =>
      { store := store
        response :=
          { status := 404
            body := .failure (utf16 "Session not found")
              (some (utf16 "Chat session has expired or does not exist")) none none }
        calls := [] }
    | some session =>
      let session := { session with lastActivity := env.now, messageCount := session.messageCount + 1 }
      match detectLanguage P.franc message with
      | .error e =>
        { store := Store.set store sessionId session
          response :=
            { status := 500
              body := .failure (utf16 "Internal server error") (some e.message) none none }
          calls := [] }
      | .ok detectedLanguage =>
        let languageCode := languageCodeOf detectedLanguage
        let optimizedPrompt :=
          withLanguageContext languageCode (optimizePrompt P.toLowerCase session.messageCount message)
        let pushed := session.chatSession.history ++ [{ role := .user, text := optimizedPrompt }]
        let request : CompletionRequest := { model := session.chatSession.model, contents := pushed }
        match env.completion with
        | .ok text =>
          let history := pushed ++ [{ role := .model, text := text }]
          { store := Store.set store sessionId
              { session with chatSession := { session.chatSession with history := history } }
            response :=
              { status := 200
                body := .reply (finalResponse text) messageType session.modelUsed
                  session.isFallback (env.respondedAt - session.lastActivity) }
            calls := [request] }
        | .error error =>
          { store := Store.set store sessionId
              { session with chatSession := { session.chatSession with history := pushed } }
            response := completionFailure error
            calls := [request] }

/-! ## The branches of the prompt shaping (`server.js`, lines 226-244) -/

/-- The branch the message handler takes when it shapes the prompt. -/
inductive UtteranceKind where
  | firstMessage
  | gratitude
  | farewell
  | other
  deriving DecidableEq, Repr

/-- The branch of lines 227-244 taken for `message` when the incremented count is
`messageCount`: the conditions of `optimizePrompt`, in source order. -/
def classifyUtterance (toLowerCase : JsString → JsString) (messageCount : Nat)
    (message : JsString) : UtteranceKind :=
  if messageCount = 1 then .firstMessage
  else if gratitudeWords.any (fun w => includes (toLowerCase message) w) then .gratitude
  else if farewellWords.any (fun w => includes (toLowerCase message) w) then .farewell
  else .other

/-- The assignment to `optimizedPrompt` made in each branch of lines 227-244. -/
def promptFor (kind : UtteranceKind) (message : JsString) : JsString :=
  match kind with
  | .firstMessage =>
    utf16 "User says: \"" ++ message ++
      utf16 "\". This is their first message. Respond warmly and ask how you can help with electric vehicles."
  | .gratitude =>
    utf16 "User says: \"" ++ message ++
      utf16 "\". They're thanking you. Respond warmly and offer to help with anything else."
  | .farewell =>
    utf16 "User says: \"" ++ message ++
      utf16 "\". They're saying goodbye. Respond warmly and invite them back anytime."
  | .other => message

/-- The gratitude keywords as the specification lists them. -/
def referenceGratitudeWords : List JsString :=
  [ utf16 "thank", utf16 "gracias", utf16 "merci", utf16 "danke",
    utf16 "धन्यवाद", utf16 "谢谢", utf16 "ありがとう", utf16 "감사합니다" ]

/-- The farewell keywords as the specification lists them. -/
def referenceFarewellWords : List JsString :=
  [ utf16 "bye", utf16 "adiós", utf16 "au revoir", utf16 "auf wiedersehen",
    utf16 "अलविदा", utf16 "再见", utf16 "さようなら", utf16 "안녕히" ]

/-- The reference classification, in the specification's words: first-message when
the count after the increment is 1; otherwise gratitude when the lower-cased message
contains a gratitude keyword; otherwise farewell when it contains a farewell keyword;
otherwise other. -/
def referenceClassification (toLowerCase : JsString → JsString) (messageCount : Nat)
    (message : JsString) : UtteranceKind :=
  if messageCount = 1 then .firstMessage
  else if ∃ w ∈ referenceGratitudeWords, includes (toLowerCase message) w = true then .gratitude
  else if ∃ w ∈ referenceFarewellWords, includes (toLowerCase message) w = true then .farewell
  else .other

/-! ## `DELETE /api/chat/session/:sessionId` (`server.js`, lines 342-365) -/

/-- The handler of `DELETE /api/chat/session/:sessionId`. -/
def endTurn (sessionId : JsString) (store : Store) : Store × HttpResponse :=
  if Store.has store sessionId then
    (Store.delete store sessionId,
      { status := 200, body := .ended (utf16 "Session ended successfully") })
  else
    (store, { status := 404, body := .failure (utf16 "Session not found") none none none })

/-! ## The expiry sweep (`server.js`, lines 453-464) -/

/-- The callback of the `setInterval` sweep, run at clock value `now`: every
entry whose `lastActivity` is before `oneHourAgo` is deleted by key. -/
def sweepExpired (now : Int) (store : Store) : Store :=
  let oneHourAgo := now - 60 * 60 * 1000
  store.foldl
    (fun acc e => if e.2.lastActivity < oneHourAgo then Store.delete acc e.1 else acc)
    store

/-! ## The message handler around its `await`

The handler of `POST /api/chat/message` awaits the completion call between the push of the
user entry (line 251) and the push of the model entry (line 290), and no lock is held on
the session: while one request awaits, the handler of another request can run. After the
lookup of line 206 the handler reads and writes only the session object it found, so what
its two parts do to that object does not depend on the map `chatSessions`: a start, a
delete or a sweep in between changes the map, not the object. -/

/-- The message handler from the lookup of the session to its `await` (lines 214-257), on
the session object `session` it found: the object afterwards and the completion call made,
or the error thrown before the call. -/
def beginUtterance (P : Platform) (now : Int) (message : JsString) (session : Session) :
    Session × Except JsError CompletionRequest :=
  let session := { session with lastActivity := now, messageCount := session.messageCount + 1 }
  match detectLanguage P.franc message with
  | .error e => (session, .error e)
  | .ok detectedLanguage =>
    let languageCode := languageCodeOf detectedLanguage
    let optimizedPrompt :=
      withLanguageContext languageCode (optimizePrompt P.toLowerCase session.messageCount message)
    let pushed := session.chatSession.history ++ [{ role := .user, text := optimizedPrompt }]
    ({ session with chatSession := { session.chatSession with history := pushed } },
      .ok { model := session.chatSession.model, contents := pushed })

/-- The message handler after its `await` (lines 288-331), on the session object as it is
when the completion call settles: `completion` is `response.text` or the error thrown,
`respondedAt` the clock at line 306, `messageType` the field of the request. -/
def afterCompletion (completion : Except JsError JsString) (respondedAt : Int)
    (messageType : JsString) (session : Session) : Session × HttpResponse :=
  match completion with
  | .ok text =>
    ({ session with
        chatSession :=
          { session.chatSession with
            history := session.chatSession.history ++ [{ role := .model, text := text }] } },
      { status := 200
        body := .reply (finalResponse text) messageType session.modelUsed session.isFallback
          (respondedAt - session.lastActivity) })
  | .error error => (session, completionFailure error)

/-- What happens to one session object: a message request for it reaches its `await`
(`received`, with the clock at line 215 and the message), or the completion call of a
request that awaits settles (`settled`). -/
inductive SessionEvent where
  | received (now : Int) (message : JsString)
  | settled (completion : Except JsError JsString) (respondedAt : Int) (messageType : JsString)

/-- The session object after one event, and the reply sent in it, if any. -/
def sessionStep (P : Platform) (session : Session) : SessionEvent → Session × Option HttpResponse
  | .received now message =>
    match (beginUtterance P now message session).2 with
    | .ok _ => ((beginUtterance P now message session).1, none)
    | .error e =>
      ((beginUtterance P now message session).1,
        some { status := 500
               body := .failure (utf16 "Internal server error") (some e.message) none none })
  | .settled completion respondedAt messageType =>
    ((afterCompletion completion respondedAt messageType session).1,
      some (afterCompletion completion respondedAt messageType session).2)

/-- The session object after a sequence of events, in the order they happen. -/
def sessionRun (P : Platform) (session : Session) (events : List SessionEvent) : Session :=
  events.foldl (fun s e => (sessionStep P s e).1) session

/-- The replies sent along a sequence of events, in order. -/
def sessionReplies (P : Platform) (session : Session) : List SessionEvent → List HttpResponse
  | [] => []
  | e :: rest =>
    (sessionStep P session e).2.toList ++ sessionReplies P (sessionStep P session e).1 rest

/-- The events can happen in this order when `pending` requests await their completion
call: a call settles only while a request awaits it. Language detection never throws, so
every request received reaches its `await`. -/
def deliverable (pending : Nat) : List SessionEvent → Bool
  | [] => true
  | .received _ _ :: rest => deliverable (pending + 1) rest
  | .settled _ _ _ :: rest => decide (0 < pending) && deliverable (pending - 1) rest

/-- The requests are handled one after the other: each request received is settled before
the next is received (the last may still await). -/
def serialized : List SessionEvent → Bool
  | [] => true
  | [.received _ _] => true
  | .received _ _ :: .settled _ _ _ :: rest => serialized rest
  | _ => false

/-- The completion service replies in this event, when it is the settling of a call. -/
def SessionEvent.completionReplies : SessionEvent → Prop
  | .settled completion _ _ => ∃ text, completion = .ok text
  | .received _ _ => True

/-- Whether the event is a request received. -/
def SessionEvent.isReceived : SessionEvent → Bool
  | .received _ _ => true
  | .settled _ _ _ => false

/-- Whether the event is a completion call that settles with a reply. -/
def SessionEvent.isReply : SessionEvent → Bool
  | .settled (.ok _) _ _ => true
  | _ => false

/-- The number of entries of a history that have the given role. -/
def countRole (role : Role) (history : List Content) : Nat :=
  history.countP (fun c => decide (c.role = role))

/-- One exchange in which the completion service returns `reply`. -/
structure Turn where
  now : Int
  respondedAt : Int
  message : JsString
  messageType : Option JsString
  reply : JsString

/-- The events of the turns handled one after the other: each turn is received and its
completion call settles with the reply before the next turn is received. -/
def turnEvents : List Turn → List SessionEvent
  | [] => []
  | t :: ts =>
    .received t.now t.message ::
      .settled (.ok t.reply) t.respondedAt (t.messageType.getD (utf16 "voice")) ::
      turnEvents ts

/-- The value of `detectedLanguage` in the message handler. -/
def detectedLanguageOf (P : Platform) (message : JsString) : JsString :=
  match detectLanguage P.franc message with
  | .ok detected => detected
  | .error _ => utf16 "en"

/-- The user entry pushed for `message` when the incremented count is
`messageCount`. -/
def userEntry (P : Platform) (messageCount : Nat) (message : JsString) : Content :=
  { role := .user
    text := withLanguageContext (languageCodeOf (detectedLanguageOf P message))
      (optimizePrompt P.toLowerCase messageCount message) }

/-- The entries pushed by successive turns on a session whose message count
was `count` before them: per turn a user entry, then the reply. -/
def turnEntries (P : Platform) : Nat → List Turn → List Content
  | _, [] => []
  | count, t :: ts =>
    userEntry P (count + 1) t.message :: { role := .model, text := t.reply } ::
      turnEntries P (count + 1) ts

/-- The seed history a start request stores. -/
def seedHistory (env : StartEnv) : List Content :=
  if !env.primaryFails then primaryHistory else fallbackHistory

/-- The first entry of a history has role `user`. -/
def startsWithUser (history : List Content) : Prop :=
  history.head?.map Content.role = some Role.user

/-- The last entry of a history has role `model`. -/
def endsWithModel (history : List Content) : Prop :=
  history.getLast?.map Content.role = some Role.model

/-- No two adjacent entries have the same role. -/
def alternates (history : List Content) : Prop :=
  List.Chain' (fun a b => a.role ≠ b.role) history

/-- No two adjacent entries both have role `model`. -/
def noAdjacentModel (history : List Content) : Prop :=
  List.Chain' (fun a b => ¬ (a.role = Role.model ∧ b.role = Role.model)) history

instance (history : List Content) : Decidable (startsWithUser history) :=
  inferInstanceAs (Decidable (history.head?.map Content.role = some Role.user))

instance (history : List Content) : Decidable (alternates history) := by
  unfold alternates
  infer_instance

instance (history : List Content) : Decidable (noAdjacentModel history) := by
  unfold noAdjacentModel
  infer_instance

/-- The shape of a history between requests handled one after the other: it starts with a
user entry and has no two adjacent model entries; and when `strict` holds, which needs
every completion call to reply, it alternates and ends with a model entry. -/
def historyShape (strict : Bool) (history : List Content) : Prop :=
  startsWithUser history ∧ noAdjacentModel history ∧
    (strict = true → alternates history ∧ endsWithModel history)

/-- The shape of a history kept under every order of events, with `pending` requests
awaiting their completion call: it starts with a user entry, none of its initial segments
has more model entries than user entries, and the user entries outnumber the model entries
by at least the requests that await. -/
def balanced (pending : Nat) (history : List Content) : Prop :=
  startsWithUser history ∧
    (∀ k, countRole .model (history.take k) ≤ countRole .user (history.take k)) ∧
    countRole .model history + pending ≤ countRole .user history

/-! ## The conversation controller (`public/client.js`)

The globals of `client.js` are the fields of `ClientState`; the specification calls
`isRecording` recordingActive, `continuousMode` continuousModeActive, `isAISpeaking`
aiSpeaking, `currentUtterance` currentUtteranceHandle, `lastSpeechTime`
lastSpeechTimestamp, `networkRetryDelay` currentBackoffMs and `lastInterruptionTime`
lastInterruptionTimestamp. Each handler maps the state to the next state and the list of
calls it makes to the outside (`ClientEffect`), in order. Updates of the page (button,
status line) and `console` output are not recorded; `recognitionTimeout` is never
assigned a timer and is left out. -/

/-- White space and line terminators, the code units `String.prototype.trim` strips. -/
def isWhiteSpace (u : Nat) : Bool :=
  u = 9 || u = 10 || u = 11 || u = 12 || u = 13 || u = 32 || u = 160 || u = 5760 ||
    (8192 ≤ u && u ≤ 8202) || u = 8232 || u = 8233 || u = 8239 || u = 8287 || u = 12288 ||
    u = 65279

/-- The method `s.trim()`. -/
def trim (s : JsString) : JsString :=
  ((s.dropWhile isWhiteSpace).reverse.dropWhile isWhiteSpace).reverse

/-- The test of a character class given as a range, `/[lo-hi]/.test(text)`. -/
def hasUnitIn (text : JsString) (lo hi : Nat) : Bool :=
  text.any (fun u => lo ≤ u && u ≤ hi)

/-- The test of a character class given by its members, `/[...]/.test(text)`. -/
def hasUnitOf (text members : JsString) : Bool :=
  text.any (fun u => members.contains u)

/-- The function `detectLanguageFromText(text)` (lines 40-50). -/
def detectLanguageFromText (text : JsString) : JsString :=
  if hasUnitIn text 0x0900 0x097F then utf16 "hi"
  else if hasUnitIn text 0x4E00 0x9FFF then utf16 "zh"
  else if hasUnitIn text 0x3040 0x309F || hasUnitIn text 0x30A0 0x30FF then utf16 "ja"
  else if hasUnitIn text 0xAC00 0xD7AF then utf16 "ko"
  else if hasUnitOf text (utf16 "àáâãäåæçèéêëìíîïðñòóôõöøùúûüýþÿ") then utf16 "fr"
  else if hasUnitOf text (utf16 "äöüß") then utf16 "de"
  else if hasUnitOf text (utf16 "ñáéíóúü") then utf16 "es"
  else utf16 "en"

/-- A `SpeechSynthesisVoice`; `isDefault` is its property `default`. -/
structure Voice where
  name : JsString
  lang : JsString
  isDefault : Bool
  localService : Bool
  deriving DecidableEq, Repr

/-- The function `getVoiceForLanguage(languageCode)` (lines 53-76); `voices` is
`speechSynthesis.getVoices()`, and `none` is the `undefined` of `voices[0]` on an empty
list. -/
def getVoiceForLanguage (voices : List Voice) (languageCode : JsString) : Option Voice :=
  let general : Option Voice :=
    match voices.find? (fun v => languageCode.isPrefixOf v.lang) with
    | some voice => some voice
    | none =>
      match voices.find? (fun v => (utf16 "en").isPrefixOf v.lang) with
      | some englishVoice => some englishVoice
      | none => voices.head?
  if languageCode = utf16 "en" then
    match voices.find? (fun v => v.isDefault && (utf16 "en").isPrefixOf v.lang) with
    | some defaultVoice => some defaultVoice
    | none =>
      match voices.find? (fun v => (utf16 "en").isPrefixOf v.lang) with
      | some englishVoice => some englishVoice
      | none => general
  else general

/-- A `SpeechSynthesisUtterance` as the controller builds it: its text and the voice
set on it (`utterance.lang` is the language of that voice); rate 0.9, pitch 1.0 and
volume 0.8 are the same in every utterance. -/
structure Utterance where
  text : JsString
  voice : Option Voice
  deriving DecidableEq, Repr

/-- The globals of `client.js` (lines 7-22); `recognition` and `synthesis` tell whether
the objects exist, `recognitionLang` is `recognition.lang`. -/
structure ClientState where
  sessionId : Option JsString
  isConnected : Bool
  recognition : Bool
  recognitionLang : JsString
  synthesis : Bool
  isRecording : Bool
  retryCount : Nat
  isStartingRecognition : Bool
  networkRetryDelay : Nat
  continuousMode : Bool
  lastSpeechTime : Int
  currentUtterance : Option Utterance
  isAISpeaking : Bool
  lastInterruptionTime : Int
  deriving DecidableEq, Repr

/-- The constant `maxRetries`. -/
def maxRetries : Nat := 3

/-- The callbacks the controller passes to `setTimeout`: `restartIfActive` is
`if (continuousMode && isRecording) startRecognitionSafely()`, `restart` is
`startRecognitionSafely()`, and `retryStart` is the callback of lines 493-498. -/
inductive TimerCallback where
  | restartIfActive
  | restart
  | retryStart
  deriving DecidableEq, Repr

/-- The calls a handler makes to the outside. -/
inductive ClientEffect where
  | logMessage (message type : JsString)
  | synthesisCancel
  | synthesisSpeak (utterance : Utterance)
  | recognitionStart
  | recognitionStop
  | setTimeout (callback : TimerCallback) (delay : Nat)
  | fetchHealth
  | startChatSession
  | sendMessage (message messageType : JsString)
  | getUserMedia
  deriving DecidableEq, Repr

/-- The function `stopAISpeech()` (lines 124-131). -/
def stopAISpeech (s : ClientState) : ClientState × List ClientEffect :=
  if s.synthesis && s.isAISpeaking then
    ({ s with isAISpeaking := false, currentUtterance := none },
      [.synthesisCancel, .logMessage (utf16 "🔇 AI interrupted") (utf16 "info")])
  else (s, [])

/-- The function `stopVoiceRecording()` (lines 510-543); an error thrown by
`recognition.stop()` is caught and changes nothing. -/
def stopVoiceRecording (s : ClientState) : ClientState × List ClientEffect :=
  if s.isRecording then
    let s1 := { s with isRecording := false, continuousMode := false, retryCount := 0,
                       networkRetryDelay := 1000 }
    let s2 := if s1.recognition && s1.isStartingRecognition then
      { s1 with isStartingRecognition := false } else s1
    let stopped : List ClientEffect := if s2.recognition then [.recognitionStop] else []
    let r := stopAISpeech s2
    (r.1, stopped ++ r.2 ++ [.logMessage (utf16 "🔇 Voice input stopped.") (utf16 "info")])
  else (s, [])

/-- The function `handleRecognitionFailure()` (lines 505-508). -/
def handleRecognitionFailure (s : ClientState) : ClientState × List ClientEffect :=
  let r := stopVoiceRecording s
  (r.1, r.2 ++ [.logMessage (utf16 "💡 Tap the microphone button to try again.") (utf16 "info")])

/-- What `recognition.start()` does: it returns, throws an `InvalidStateError`, or
throws another error. -/
inductive StartOutcome where
  | started
  | invalidState
  | failed
  deriving DecidableEq, Repr

/-- The function `startRecognitionSafely()` (lines 479-503). -/
def startRecognitionSafely (s : ClientState) (outcome : StartOutcome) :
    ClientState × List ClientEffect :=
  if s.isStartingRecognition || !s.recognition || !s.isRecording then (s, [])
  else
    let s1 := { s with isStartingRecognition := true }
    match outcome with
    | .started => (s1, [.recognitionStart])
    | .invalidState =>
      ({ s1 with isStartingRecognition := false },
        [.recognitionStart, .setTimeout .retryStart 100])
    | .failed =>
      let r := handleRecognitionFailure { s1 with isStartingRecognition := false }
      (r.1, .recognitionStart :: r.2)

/-- The callback of a timer when it fires. -/
def timerFired (s : ClientState) (callback : TimerCallback) (outcome : StartOutcome) :
    ClientState × List ClientEffect :=
  match callback with
  | .restartIfActive =>
    if s.continuousMode && s.isRecording then startRecognitionSafely s outcome else (s, [])
  | .restart => startRecognitionSafely s outcome
  | .retryStart =>
    let s1 := { s with isStartingRecognition := false }
    if s1.continuousMode && s1.isRecording then startRecognitionSafely s1 outcome else (s1, [])

/-- The object `languageMap` of `updateRecognitionLanguage`. -/
def recognitionLanguageMap : List (JsString × JsString) :=
  [ (utf16 "en", utf16 "en-US"), (utf16 "es", utf16 "es-ES"), (utf16 "fr", utf16 "fr-FR"),
    (utf16 "de", utf16 "de-DE"), (utf16 "hi", utf16 "hi-IN"), (utf16 "zh", utf16 "zh-CN"),
    (utf16 "ja", utf16 "ja-JP"), (utf16 "ko", utf16 "ko-KR") ]

/-- The method `toUpperCase` on the two-letter codes `detectLanguageFromText` returns:
the letters a-z are raised. -/
def toUpperCaseCode (code : JsString) : JsString :=
  code.map (fun u => if 97 ≤ u ∧ u ≤ 122 then u - 32 else u)

/-- The function `updateRecognitionLanguage(languageCode)` (lines 81-100). -/
def updateRecognitionLanguage (s : ClientState) (languageCode : JsString) :
    ClientState × List ClientEffect :=
  if !s.recognition then (s, [])
  else
    let newLang := (lookup recognitionLanguageMap languageCode).getD (utf16 "en-US")
    if s.recognitionLang ≠ newLang then
      ({ s with recognitionLang := newLang },
        [.logMessage (utf16 "🌍 Switched to " ++ toUpperCaseCode languageCode ++
          utf16 " recognition") (utf16 "info")])
    else (s, [])

/-- One entry of `event.results`: `transcript` is `event.results[i][0].transcript`. -/
structure SpeechResult where
  transcript : JsString
  isFinal : Bool
  deriving DecidableEq, Repr

/-- The event passed to `recognition.onresult`. -/
structure ResultEvent where
  resultIndex : Nat
  results : List SpeechResult
  deriving DecidableEq, Repr

/-- The results the loop of lines 271-279 visits. -/
def ResultEvent.visited (event : ResultEvent) : List SpeechResult :=
  event.results.drop event.resultIndex

/-- The value of `finalTranscript` after the loop. -/
def ResultEvent.finalTranscript (event : ResultEvent) : JsString :=
  ((event.visited.filter (fun r => r.isFinal)).map (fun r => r.transcript)).flatten

/-- The value of `interimTranscript` after the loop. -/
def ResultEvent.interimTranscript (event : ResultEvent) : JsString :=
  ((event.visited.filter (fun r => !r.isFinal)).map (fun r => r.transcript)).flatten

/-- The value of `hasInterimResults` after the loop. -/
def ResultEvent.hasInterimResults (event : ResultEvent) : Bool :=
  event.visited.any (fun r => !r.isFinal)

/-- What `recognition.onresult` reads from outside before its `await`: the two
`Date.now()` of the interruption check (lines 283 and 285), the one of line 293, and
`navigator.onLine` as `sendMessage` reads it. -/
structure ResultEnv where
  checkedAt : Int
  interruptedAt : Int
  spokenAt : Int
  online : Bool

/-- The `catch` of lines 377-390, for an error with message `message`. -/
def sendFailed (s : ClientState) (message : JsString) : ClientState × List ClientEffect :=
  let logs : List ClientEffect :=
    if includes message (utf16 "Rate limit") || includes message (utf16 "quota") then
      [ .logMessage (utf16 "⚠️ API limit reached: " ++ message) (utf16 "error"),
        .logMessage (utf16 "💡 Please wait a moment and try again, or upgrade your API plan.")
          (utf16 "info") ]
    else [.logMessage (utf16 "❌ Error: " ++ message) (utf16 "error")]
  (s, logs ++ (if s.continuousMode && s.isRecording then [.setTimeout .restart 1000] else []))

/-- The interruption check of `recognition.onresult` (lines 281-289). -/
def checkInterruption (s : ClientState) (event : ResultEvent) (env : ResultEnv) :
    ClientState × List ClientEffect :=
  if event.hasInterimResults && s.isAISpeaking && decide ((trim event.interimTranscript).length > 2) then
    let timeSinceLastInterruption := env.checkedAt - s.lastInterruptionTime
    if timeSinceLastInterruption > 1000 then
      let r := stopAISpeech { s with lastInterruptionTime := env.interruptedAt }
      (r.1, r.2 ++
        [.logMessage (utf16 "🎤 Interruption detected - listening to you...") (utf16 "info")])
    else (s, [])
  else (s, [])

/-- The handler `recognition.onresult` up to its `await` (lines 265-309). A `sendMessage`
that throws before its request (no session, or offline) is caught at once by the `catch`
of line 377; a thrown `recognition.stop()` is caught and changes nothing. -/
def recognitionOnResult (s : ClientState) (event : ResultEvent) (env : ResultEnv) :
    ClientState × List ClientEffect :=
  let r1 := checkInterruption s event env
  if (trim event.finalTranscript).isEmpty then r1
  else
    let s2 := { r1.1 with lastSpeechTime := env.spokenAt }
    let said : List ClientEffect :=
      [.logMessage (utf16 "🎤 You: " ++ trim event.finalTranscript) (utf16 "user")]
    let r3 := updateRecognitionLanguage s2 (detectLanguageFromText event.finalTranscript)
    let sync := r1.2 ++ said ++ r3.2 ++ [.recognitionStop]
    if !truthy r3.1.sessionId then
      let r4 := sendFailed r3.1 (utf16 "No active session")
      (r4.1, sync ++ r4.2)
    else if !env.online then
      let r4 := sendFailed r3.1 (utf16 "No internet connection. Please check your network.")
      (r4.1, sync ++ r4.2)
    else (r3.1, sync ++ [.sendMessage (trim event.finalTranscript) (utf16 "voice")])

/-- The handler `utterance.onend` (lines 341-352). -/
def utteranceOnEnd (s : ClientState) : ClientState × List ClientEffect :=
  let s1 := { s with isAISpeaking := false, currentUtterance := none }
  (s1, .logMessage (utf16 "✅ AI finished speaking") (utf16 "info") ::
    (if s1.continuousMode && s1.isRecording then [.setTimeout .restart 300] else []))

/-- The handler `utterance.onerror` (lines 354-365). -/
def utteranceOnError (s : ClientState) : ClientState × List ClientEffect :=
  let s1 := { s with isAISpeaking := false, currentUtterance := none }
  (s1, if s1.continuousMode && s1.isRecording then [.setTimeout .restart 300] else [])

/-- The handler `utterance.onstart` (lines 337-339). -/
def utteranceOnStart (s : ClientState) : ClientState × List ClientEffect :=
  (s, [.logMessage (utf16 "🔊 AI speaking...") (utf16 "info")])

/-- The rest of `recognition.onresult` once `sendMessage` has settled (lines 310-390):
`outcome` is the reply text, or the message of the error thrown; `voices` is
`speechSynthesis.getVoices()`. -/
def afterSendMessage (s : ClientState) (outcome : Except JsString JsString)
    (voices : List Voice) : ClientState × List ClientEffect :=
  match outcome with
  | .error message => sendFailed s message
  | .ok response =>
    let replied : List ClientEffect := [.logMessage (utf16 "⚡ Rev: " ++ response) (utf16 "ai")]
    if s.synthesis then
      let voice := getVoiceForLanguage voices (detectLanguageFromText response)
      let utterance : Utterance := { text := response, voice := voice }
      let voiceLog : List ClientEffect :=
        match voice with
        | some v =>
          [.logMessage (utf16 "🔊 Using voice: " ++ v.name ++ utf16 " (" ++ v.lang ++ utf16 ")")
            (utf16 "info")]
        | none => []
      ({ s with isAISpeaking := true, currentUtterance := some utterance },
        replied ++ voiceLog ++ [.synthesisSpeak utterance])
    else
      (s, replied ++
        (if s.continuousMode && s.isRecording then [.setTimeout .restart 1000] else []))

/-- The handler `recognition.onerror` (lines 394-440) for `event.error = error`. -/
def recognitionOnError (s : ClientState) (error : JsString) : ClientState × List ClientEffect :=
  if error = utf16 "aborted" then (s, [])
  else if error = utf16 "network" then
    let s1 := { s with retryCount := s.retryCount + 1 }
    if s1.retryCount ≤ maxRetries then
      ({ s1 with networkRetryDelay := min (s1.networkRetryDelay * 2) 8000 },
        [ .logMessage (utf16 "🔄 Network error, retrying... (" ++ utf16 (toString s1.retryCount) ++
            utf16 "/" ++ utf16 (toString maxRetries) ++ utf16 ")") (utf16 "info"),
          .setTimeout .restartIfActive s1.networkRetryDelay ])
    else
      let r := handleRecognitionFailure s1
      (r.1, .logMessage (utf16 "❌ Speech recognition failed after multiple retries.")
        (utf16 "error") :: r.2)
  else if error = utf16 "no-speech" then
    (s, if s.continuousMode && s.isRecording then [.setTimeout .restart 100] else [])
  else if error = utf16 "audio-capture" then
    let r := handleRecognitionFailure s
    (r.1, .logMessage
      (utf16 "❌ Microphone not detected. Please check your microphone and permissions.")
      (utf16 "error") :: r.2)
  else if error = utf16 "not-allowed" then
    let r := handleRecognitionFailure s
    (r.1, .logMessage
      (utf16 "❌ Microphone access denied. Please allow microphone permissions in your browser.")
      (utf16 "error") :: r.2)
  else if error = utf16 "service-not-allowed" then
    let r := handleRecognitionFailure s
    (r.1, .logMessage
      (utf16 "❌ Speech recognition service not allowed. Please check your browser settings.")
      (utf16 "error") :: r.2)
  else
    (s, .logMessage (utf16 "❌ Speech recognition error: " ++ error) (utf16 "error") ::
      (if s.continuousMode && s.isRecording then [.setTimeout .restart 1000] else []))

/-- The handler `recognition.onend` (lines 442-460); `now` is its `Date.now()`. -/
def recognitionOnEnd (s : ClientState) (now : Int) : ClientState × List ClientEffect :=
  if s.continuousMode && s.isRecording then
    let timeSinceLastSpeech := now - s.lastSpeechTime
    if timeSinceLastSpeech > 30000 then
      let r := stopVoiceRecording s
      (r.1, .logMessage (utf16 "💤 Going to sleep due to inactivity. Tap to wake up.")
        (utf16 "info") :: r.2)
    else (s, [.setTimeout .restartIfActive 100])
  else (s, [])

/-- The handler `recognition.onstart` (lines 462-465). -/
def recognitionOnStart (s : ClientState) : ClientState × List ClientEffect :=
  ({ s with isStartingRecognition := false },
    [.logMessage (utf16 "🎤 Listening...") (utf16 "info")])

/-- The click handler of the voice button up to its first `await` (lines 561-583);
`online` is `navigator.onLine`. -/
def voiceButtonClick (s : ClientState) (online : Bool) : ClientState × List ClientEffect :=
  if s.isRecording then stopVoiceRecording s
  else if !s.recognition then
    (s, [.logMessage (utf16 "❌ Speech recognition not available.") (utf16 "error")])
  else if !online then
    (s, [.logMessage
      (utf16 "❌ No internet connection. Voice recognition requires an internet connection.")
      (utf16 "error")])
  else (s, [.fetchHealth])

/-- The click handler once the health probe has settled (lines 584-600 and 630-633);
`healthy` tells whether it answered with an ok status. -/
def afterHealthCheck (s : ClientState) (healthy : Bool) : ClientState × List ClientEffect :=
  if !healthy then
    (s, [ .logMessage
            (utf16 "❌ Cannot connect to server. Please make sure the server is running.")
            (utf16 "error"),
          .logMessage
            (utf16 "💡 Run \"npm start\" in the revolt-voice directory to start the server.")
            (utf16 "info") ])
  else if !s.isConnected then
    (s, [.logMessage (utf16 "Connecting to Rev...") (utf16 "info"), .startChatSession])
  else (s, [.getUserMedia])

/-- The fields of a successful start reply the client keeps. -/
structure StartReply where
  sessionId : JsString
  model : JsString
  isFallback : Bool
  deriving DecidableEq, Repr

/-- The click handler once `startChatSession` has settled (lines 161-171 and 602-629):
`outcome` is the reply, or the message of the error thrown. -/
def afterStartChatSession (s : ClientState) (outcome : Except JsString StartReply) :
    ClientState × List ClientEffect :=
  match outcome with
  | .ok result =>
    ({ s with sessionId := some result.sessionId, isConnected := true },
      [ .logMessage
          (if result.isFallback then
            utf16 "✅ Connected! (Using " ++ result.model ++ utf16 " model - fallback)"
          else utf16 "✅ Connected! (Using " ++ result.model ++ utf16 " model)")
          (utf16 "info"),
        .logMessage
          (utf16 "🌍 Multi-language support enabled - speak in any supported language!")
          (utf16 "info"),
        .getUserMedia ])
  | .error message =>
    (s, .logMessage (utf16 "❌ Failed to connect: " ++ message) (utf16 "error") ::
      (if includes message (utf16 "network") || includes message (utf16 "connection") then
        [.logMessage (utf16 "💡 Please check your internet connection and try again.")
          (utf16 "info")]
      else if includes message (utf16 "500") || includes message (utf16 "Internal") then
        [ .logMessage
            (utf16 "💡 Server error. Please check if GEMINI_API_KEY is set in .env file.")
            (utf16 "info"),
          .logMessage
            (utf16 "💡 Create a .env file with: GEMINI_API_KEY=your_api_key_here")
            (utf16 "info") ]
      else []))

/-- The `then` of `startVoiceInteraction` (lines 639-655): the microphone is granted at
clock value `now`. -/
def microphoneGranted (s : ClientState) (now : Int) (outcome : StartOutcome) :
    ClientState × List ClientEffect :=
  let s1 := { s with isRecording := true, continuousMode := true, retryCount := 0,
                     networkRetryDelay := 1000, lastSpeechTime := now }
  let r := startRecognitionSafely s1 outcome
  (r.1, .logMessage (utf16 "🎤 Start speaking... (You can interrupt the AI anytime)")
    (utf16 "info") :: r.2)

/-- The `catch` of `startVoiceInteraction` (lines 656-670) for an error with the given
name and message. -/
def microphoneDenied (s : ClientState) (name message : JsString) :
    ClientState × List ClientEffect :=
  (s, [.logMessage
    (if name = utf16 "NotAllowedError" then
      utf16 "❌ Microphone access denied. Please allow microphone permissions and try again."
    else if name = utf16 "NotFoundError" then
      utf16 "❌ No microphone found. Please connect a microphone and try again."
    else utf16 "❌ Microphone error: " ++ message)
    (utf16 "error")])

/-- The state after `initializeSpeechAPI()` on the initial values of the globals. -/
def initialClientState (hasRecognition hasSynthesis : Bool) : ClientState :=
  { sessionId := none
    isConnected := false
    recognition := hasRecognition
    recognitionLang := utf16 "en-US"
    synthesis := hasSynthesis
    isRecording := false
    retryCount := 0
    isStartingRecognition := false
    networkRetryDelay := 1000
    continuousMode := false
    lastSpeechTime := 0
    currentUtterance := none
    isAISpeaking := false
    lastInterruptionTime := 0 }

/-- What the browser delivers to the controller: each constructor is one handler, or
the part of a handler between two `await`s, with what it reads from outside. -/
inductive ClientEvent where
  | click (online : Bool)
  | healthChecked (healthy : Bool)
  | chatSessionSettled (outcome : Except JsString StartReply)
  | microphoneGranted (now : Int) (outcome : StartOutcome)
  | microphoneDenied (name message : JsString)
  | result (event : ResultEvent) (env : ResultEnv)
  | messageSettled (outcome : Except JsString JsString) (voices : List Voice)
  | utteranceStart
  | utteranceEnd
  | utteranceError
  | recognitionError (error : JsString)
  | recognitionEnd (now : Int)
  | recognitionStart
  | timer (callback : TimerCallback) (outcome : StartOutcome)

/-- The handler of one event. -/
def clientStep (s : ClientState) : ClientEvent → ClientState × List ClientEffect
  | .click online => voiceButtonClick s online
  | .healthChecked healthy => afterHealthCheck s healthy
  | .chatSessionSettled outcome => afterStartChatSession s outcome
  | .microphoneGranted now outcome => microphoneGranted s now outcome
  | .microphoneDenied name message => microphoneDenied s name message
  | .result event env => recognitionOnResult s event env
  | .messageSettled outcome voices => afterSendMessage s outcome voices
  | .utteranceStart => utteranceOnStart s
  | .utteranceEnd => utteranceOnEnd s
  | .utteranceError => utteranceOnError s
  | .recognitionError error => recognitionOnError s error
  | .recognitionEnd now => recognitionOnEnd s now
  | .recognitionStart => recognitionOnStart s
  | .timer callback outcome => timerFired s callback outcome

/-- The state after a sequence of events, handled one after the other. -/
def clientRun (s : ClientState) (events : List ClientEvent) : ClientState :=
  events.foldl (fun st e => (clientStep st e).1) s

/-- The effects of a sequence of events, one list per event. -/
def clientTrace (s : ClientState) : List ClientEvent → List (List ClientEffect)
  | [] => []
  | e :: rest => (clientStep s e).2 :: clientTrace (clientStep s e).1 rest

/-- Whether the browser can deliver an event in state `s`. The parts of the click handler
after its first `await` run only when the click passed the guard `if (!recognition)`; the
handlers of the recognizer, and what follows the `await` of `recognition.onresult`, need
the recognizer they are installed on; the handlers of an utterance need the synthesizer
that speaks it. `recognition` and `synthesis` are assigned once, on page load. -/
def ClientEvent.enabled (s : ClientState) : ClientEvent → Bool
  | .click _ => true
  | .healthChecked _ => s.recognition
  | .chatSessionSettled _ => s.recognition
  | .microphoneGranted _ _ => s.recognition
  | .microphoneDenied _ _ => s.recognition
  | .result _ _ => s.recognition
  | .messageSettled _ _ => s.recognition
  | .utteranceStart => s.synthesis
  | .utteranceEnd => s.synthesis
  | .utteranceError => s.synthesis
  | .recognitionError _ => s.recognition
  | .recognitionEnd _ => s.recognition
  | .recognitionStart => s.recognition
  | .timer _ _ => true

/-- Every event of the sequence can be delivered in the state it meets. -/
def admissible (s : ClientState) : List ClientEvent → Bool
  | [] => true
  | e :: rest => e.enabled s && admissible (clientStep s e).1 rest

/-- The recognizer, the synthesizer and the recording fields of `s2` are those of
`s1`. -/
def sessionKept (s1 s2 : ClientState) : Prop :=
  s2.recognition = s1.recognition ∧ s2.synthesis = s1.synthesis ∧
    s2.isRecording = s1.isRecording ∧ s2.continuousMode = s1.continuousMode ∧
    s2.retryCount = s1.retryCount ∧ s2.networkRetryDelay = s1.networkRetryDelay

/-- The state `s2` is `s1` after its recording was stopped: the recording flags are
cleared and the retry counter and delay are back at 0 and 1000. -/
def sessionStopped (s1 s2 : ClientState) : Prop :=
  s2.recognition = s1.recognition ∧ s2.synthesis = s1.synthesis ∧
    s1.isRecording = true ∧ s2.isRecording = false ∧ s2.continuousMode = false ∧
    s2.retryCount = 0 ∧ s2.networkRetryDelay = 1000

/-- The speaking flag and the utterance handle of `s2` are those of `s1`. -/
def speechKept (s1 s2 : ClientState) : Prop :=
  s2.isAISpeaking = s1.isAISpeaking ∧ s2.currentUtterance = s1.currentUtterance

/-- The speaking flag of `s` is cleared and it holds no utterance. -/
def speechCleared (s : ClientState) : Prop :=
  s.isAISpeaking = false ∧ s.currentUtterance = none

/-- The retry delay that belongs to a retry count: 1000, 2000, 4000, then 8000. -/
def delayOfCount (retryCount : Nat) : Nat :=
  min (1000 * 2 ^ retryCount) 8000

/-- The queue of the speech synthesizer after the calls of one handler, as the Web Speech
API defines `speak` and `cancel`: `synthesis.speak(u)` appends `u` to the queue, spoken in
order, and `synthesis.cancel()` removes every utterance from it. -/
def queueAfterEffects (queue : List Utterance) : List ClientEffect → List Utterance
  | [] => queue
  | .synthesisSpeak utterance :: rest => queueAfterEffects (queue ++ [utterance]) rest
  | .synthesisCancel :: rest => queueAfterEffects [] rest
  | _ :: rest => queueAfterEffects queue rest

/-- The queue of the speech synthesizer after a sequence of events from state `s` and
queue `queue`: the end or error event of an utterance is delivered when the utterance at
the head leaves the queue, and each handler then makes its calls. -/
def synthesisQueue (s : ClientState) (queue : List Utterance) :
    List ClientEvent → List Utterance
  | [] => queue
  | e :: rest =>
    let left : List Utterance :=
      match e with
      | .utteranceEnd => queue.tail
      | .utteranceError => queue.tail
      | _ => queue
    synthesisQueue (clientStep s e).1 (queueAfterEffects left (clientStep s e).2) rest

/-! ## Sample inputs -/

/-- A platform for the worked examples: the detector answers `eng`, and
`toLowerCase` lowers the letters A-Z. -/
def samplePlatform : Platform :=
  { franc := fun _ => .ok (utf16 "eng")
    toLowerCase := fun s => s.map (fun u => if 65 ≤ u ∧ u ≤ 90 then u + 32 else u) }

/-- A start request environment in which the primary branch succeeds. -/
def sampleStartEnv : StartEnv :=
  { idNow := 1700000000000, rnd := utf16 "k3x9q2m1z", primaryFails := false,
    fallbackFails := false, createdAt := 1700000000000, lastActivity := 1700000000000 }

/-- A message request environment in which the completion service replies. -/
def sampleMessageEnv : MessageEnv :=
  { now := 1700000001000, completion := .ok (utf16 "Hi, I am Rev."), respondedAt := 1700000001500 }

/-- A message request environment in which the completion service fails. -/
def failingMessageEnv : MessageEnv :=
  { now := 1700000002000
    completion := .error { status := some 503, message := utf16 "unavailable", errorDetails := none }
    respondedAt := 1700000002500 }

/-- The store after one start request with session id `s1` on an empty store. -/
def sampleStore : Store :=
  (startTurn (config none) sampleStartEnv (some (utf16 "s1")) []).1

/-- A freshly started primary session whose last activity is at `lastActivity`. -/
def sampleSession (lastActivity : Int) : Session :=
  { chatSession := { model := (config none).primaryModel, history := primaryHistory }
    modelUsed := utf16 "gemini-1.5-flash"
    isFallback := false
    createdAt := 0
    lastActivity := lastActivity
    messageCount := 0 }

/-- A store with a session last active at 0 ms and one last active at 1 ms. -/
def twoSessionStore : Store :=
  [(utf16 "old", sampleSession 0), (utf16 "fresh", sampleSession 1)]

/-- The session object stored by the start request of the worked examples. -/
def freshSession : Session :=
  { chatSession := { model := (config none).primaryModel, history := primaryHistory }
    modelUsed := utf16 "gemini-1.5-flash"
    isFallback := false
    createdAt := 1700000000000
    lastActivity := 1700000000000
    messageCount := 0 }

/-- A request whose completion call fails, then a request whose call replies, one after
the other. -/
def failThenReplyEvents : List SessionEvent :=
  [ .received 1700000002000 (utf16 "Hello"),
    .settled (.error { status := some 503, message := utf16 "unavailable", errorDetails := none })
      1700000002500 (utf16 "voice"),
    .received 1700000003000 (utf16 "Hello"),
    .settled (.ok (utf16 "Hi, I am Rev.")) 1700000003500 (utf16 "voice") ]

/-- Two requests that overlap: the second is received while the first awaits its
completion call, and both calls reply. -/
def overlappingEvents : List SessionEvent :=
  [ .received 1700000001000 (utf16 "Hello"),
    .received 1700000001200 (utf16 "Thank you"),
    .settled (.ok (utf16 "Hi, I am Rev.")) 1700000001500 (utf16 "voice"),
    .settled (.ok (utf16 "You are welcome.")) 1700000001700 (utf16 "voice") ]

/-- Two turns on one session. -/
def sampleTurns : List Turn :=
  [ { now := 1700000001000, respondedAt := 1700000001500, message := utf16 "Hello",
      messageType := none, reply := utf16 "Hi, I am Rev." },
    { now := 1700000003000, respondedAt := 1700000003500, message := utf16 "Thank you",
      messageType := some (utf16 "text"), reply := utf16 "You are welcome." } ]

/-- The sample store after one message `Hello` on session `s1` whose completion
replies. -/
def storeAfterHello : Store :=
  (submitUtterance samplePlatform sampleMessageEnv
    { sessionId := some (utf16 "s1"), message := some (utf16 "Hello"), messageType := none }
    sampleStore).store

/-- A message request environment in which the completion service fails with upstream
status 429. -/
def rateLimitedMessageEnv : MessageEnv :=
  { now := 1700000002000
    completion := .error
      { status := some 429, message := utf16 "Too Many Requests", errorDetails := none }
    respondedAt := 1700000002500 }

/-- The voices of the worked examples. -/
def sampleVoices : List Voice :=
  [{ name := utf16 "Samantha", lang := utf16 "en-US", isDefault := true, localService := true }]

/-- The events that bring the controller to listening: a tap while online, a healthy
probe, a started session `s1`, a granted microphone at 1000 ms, and the start event of the
recognizer. -/
def listeningEvents : List ClientEvent :=
  [ .click true, .healthChecked true,
    .chatSessionSettled
      (.ok { sessionId := utf16 "s1", model := utf16 "gemini-1.5-flash", isFallback := false }),
    .microphoneGranted 1000 .started, .recognitionStart ]

/-- The listening state: recording, in continuous mode, with no retry counted. -/
def listeningState : ClientState :=
  clientRun (initialClientState true true) listeningEvents

/-- The events that bring the controller to speaking: listening, then the final
transcript `Hello` and its reply. -/
def speakingEvents : List ClientEvent :=
  listeningEvents ++
    [ .result { resultIndex := 0, results := [{ transcript := utf16 "Hello", isFinal := true }] }
        { checkedAt := 900, interruptedAt := 900, spokenAt := 900, online := true },
      .messageSettled (.ok (utf16 "Hi, I am Rev.")) sampleVoices ]

/-- The speaking state: the reply is being synthesized, last interruption at 0 ms. -/
def speakingState : ClientState :=
  clientRun (initialClientState true true) speakingEvents

/-- A result event with the single interim transcript `hello`. -/
def interimHello : ResultEvent :=
  { resultIndex := 0, results := [{ transcript := utf16 "hello", isFinal := false }] }

/-- The clock 1050 ms after the last interruption at 0 ms: 50 ms past the cooldown. -/
def afterCooldown : ResultEnv :=
  { checkedAt := 1050, interruptedAt := 1050, spokenAt := 1050, online := true }

/-- The clock 1000 ms after the last interruption at 0 ms: still within the cooldown. -/
def withinCooldown : ResultEnv :=
  { checkedAt := 1000, interruptedAt := 1000, spokenAt := 1000, online := true }

/-- The recognizer error `network`, `n` times in a row. -/
def networkErrors (n : Nat) : List ClientEvent :=
  List.replicate n (.recognitionError (utf16 "network"))

/-- The events after which one retry has been counted and the recognizer runs again: from
listening, a `network` error, the end event that follows it, and the restart timer whose
`recognition.start()` returns. -/
def retriedOnceEvents : List ClientEvent :=
  listeningEvents ++
    [ .recognitionError (utf16 "network"), .recognitionEnd 2000,
      .timer .restartIfActive .started ]

/-- The state with one retry counted, before the start event of the restarted
recognizer. -/
def retriedOnceState : ClientState :=
  clientRun (initialClientState true true) retriedOnceEvents

/-- A result event with the single final transcript `Hello`. -/
def finalHello : ResultEvent :=
  { resultIndex := 0, results := [{ transcript := utf16 "Hello", isFinal := true }] }

/-- The events of a stop while a request is in flight: from listening, the final
transcript `Hello` is sent, and the user taps the button before the reply arrives. -/
def stoppedInFlightEvents : List ClientEvent :=
  listeningEvents ++
    [ .result finalHello { checkedAt := 1500, interruptedAt := 1500, spokenAt := 1500, online := true },
      .click true ]

/-- The state after the stop, with the request still in flight. -/
def stoppedInFlightState : ClientState :=
  clientRun (initialClientState true true) stoppedInFlightEvents

/-- The events that leave a request in flight while recording: from listening, the final
transcript `Hello` is sent. -/
def inFlightEvents : List ClientEvent :=
  listeningEvents ++
    [ .result finalHello { checkedAt := 1500, interruptedAt := 1500, spokenAt := 1500, online := true } ]

/-- The state with a request in flight, still recording. -/
def inFlightState : ClientState :=
  clientRun (initialClientState true true) inFlightEvents

/-- A result event with the single final transcript `Thank you`. -/
def finalThanks : ResultEvent :=
  { resultIndex := 0, results := [{ transcript := utf16 "Thank you", isFinal := true }] }

/-- The events that leave a second reply playing with the speaking flag clear: from
listening, `Hello` is sent and its reply is spoken; while it is spoken the recognizer is
restarted and `Thank you` is sent, whose reply is passed to `synthesis.speak` behind the
first; then the first utterance ends and the second starts. -/
def queuedReplyEvents : List ClientEvent :=
  listeningEvents ++
    [ .result finalHello { checkedAt := 1500, interruptedAt := 1500, spokenAt := 1500, online := true },
      .recognitionEnd 1600,
      .messageSettled (.ok (utf16 "Hi, I am Rev.")) sampleVoices,
      .utteranceStart,
      .timer .restartIfActive .started,
      .recognitionStart,
      .result finalThanks { checkedAt := 2500, interruptedAt := 2500, spokenAt := 2500, online := true },
      .recognitionEnd 2600,
      .messageSettled (.ok (utf16 "You are welcome.")) sampleVoices,
      .utteranceEnd,
      .utteranceStart ]

/-- The state in which the second reply plays with the speaking flag clear. -/
def queuedReplyState : ClientState :=
  clientRun (initialClientState true true) queuedReplyEvents

/-- Two Spanish voices, the second of which is the default voice. -/
def spanishVoices : List Voice :=
  [ { name := utf16 "Monica", lang := utf16 "es-ES", isDefault := false, localService := true },
    { name := utf16 "Paulina", lang := utf16 "es-MX", isDefault := true, localService := true } ]

/-- The Spanish phrase of `test-language-detection.js`. -/
def holaComoEstas : JsString := utf16 "Hola, ¿cómo estás?"

/-- The voice selection in the words of the amended claim C29: for the tag `en` a default
voice whose language starts with `en`; otherwise the first voice whose language starts with
the tag; otherwise the first English voice; otherwise the first voice. -/
def voicePreference (voices : List Voice) (languageCode : JsString) : Option Voice :=
  ((if languageCode = utf16 "en" then
      voices.find? (fun v => v.isDefault && (utf16 "en").isPrefixOf v.lang)
    else none) <|>
    voices.find? (fun v => languageCode.isPrefixOf v.lang) <|>
    voices.find? (fun v => (utf16 "en").isPrefixOf v.lang) <|>
    voices.head?)

/-! ## Lemmas on the store -/

theorem lookup_eq_none_iff {β : Type} (m : List (JsString × β)) (key : JsString) :
    lookup m key = none ↔ key ∉ m.map Prod.fst := by
  induction m with
  | nil => simp [lookup]
  | cons e rest ih =>
    obtain ⟨k, v⟩ := e
    by_cases h : k = key
    · simp [lookup, h]
    · have h2 : ¬ key = k := fun h3 => h h3.symm
      simp [lookup, h, h2, ih]

theorem lookup_mem {β : Type} (m : List (JsString × β)) (key : JsString) (v : β)
    (h : lookup m key = some v) : (key, v) ∈ m := by
  induction m with
  | nil => simp [lookup] at h
  | cons e rest ih =>
    obtain ⟨k, w⟩ := e
    by_cases hk : k = key
    · simp [lookup, hk] at h
      simp [hk, h]
    · simp [lookup, hk] at h
      exact List.mem_cons_of_mem _ (ih h)

theorem lookup_of_mem_nodup {β : Type} (m : List (JsString × β)) (key : JsString) (v : β)
    (hwf : (m.map Prod.fst).Nodup) (h : (key, v) ∈ m) : lookup m key = some v := by
  induction m with
  | nil => simp at h
  | cons e rest ih =>
    obtain ⟨k, w⟩ := e
    simp only [List.map_cons, List.nodup_cons] at hwf
    rcases List.mem_cons.mp h with h1 | h1
    · injection h1 with h2 h3
      simp [lookup, h2, h3]
    · have hk : k ≠ key := by
        intro hk
        apply hwf.1
        rw [hk]
        exact List.mem_map_of_mem Prod.fst h1
      simp [lookup, hk, ih hwf.2 h1]

theorem Store.get_eq_none_iff (m : Store) (key : JsString) :
    Store.get m key = none ↔ key ∉ m.map Prod.fst :=
  lookup_eq_none_iff m key

theorem Store.mem_of_get (m : Store) (key : JsString) (s : Session)
    (h : Store.get m key = some s) : (key, s) ∈ m :=
  lookup_mem m key s h

theorem Store.mem_set (m : Store) (key : JsString) (v : Session) (x : JsString × Session)
    (h : x ∈ Store.set m key v) : x ∈ m ∨ x = (key, v) := by
  unfold Store.set at h
  split at h
  · rw [List.mem_map] at h
    obtain ⟨e, he, hx⟩ := h
    by_cases hk : e.1 = key
    · simp [hk] at hx
      exact Or.inr hx.symm
    · simp [hk] at hx
      exact Or.inl (hx ▸ he)
  · simpa using h

theorem Store.mem_delete (m : Store) (key : JsString) (x : JsString × Session)
    (h : x ∈ Store.delete m key) : x ∈ m :=
  (List.mem_filter.mp h).1

theorem Store.keys_set_of_has (m : Store) (key : JsString) (v : Session) :
    (m.map (fun e => if e.1 = key then (key, v) else e)).map Prod.fst = m.map Prod.fst := by
  induction m with
  | nil => rfl
  | cons e rest ih =>
    by_cases hk : e.1 = key
    · simp [hk] at ih ⊢
      exact ih
    · simp [hk] at ih ⊢
      exact ih

theorem Store.wf_set (m : Store) (key : JsString) (v : Session) (h : Store.WF m) :
    Store.WF (Store.set m key v) := by
  unfold Store.set
  split
  · unfold Store.WF
    rw [Store.keys_set_of_has]
    exact h
  · rename_i hhas
    have hnone : Store.get m key = none := by
      simpa [Store.has] using hhas
    have hnot := (Store.get_eq_none_iff m key).mp hnone
    unfold Store.WF at h ⊢
    rw [List.map_append, List.nodup_append]
    refine ⟨h, by simp, ?_⟩
    intro a ha hb
    simp at hb
    exact hnot (hb ▸ ha)

theorem Store.wf_filter (m : Store) (p : JsString × Session → Bool) (h : Store.WF m) :
    Store.WF (m.filter p) := by
  unfold Store.WF at h ⊢
  exact List.Nodup.sublist ((List.filter_sublist m).map Prod.fst) h

theorem Store.get_map_set (m : Store) (key : JsString) (v : Session)
    (h : Store.has m key = true) :
    Store.get (m.map (fun e => if e.1 = key then (key, v) else e)) key = some v := by
  induction m with
  | nil => simp [Store.has, Store.get, lookup] at h
  | cons e rest ih =>
    obtain ⟨k, w⟩ := e
    by_cases hk : k = key
    · subst hk
      rw [List.map_cons]
      simp only [if_true]
      simp [Store.get, lookup]
    · have hrest : Store.has rest key = true := by
        simpa [Store.has, Store.get, lookup, hk] using h
      have h1 := ih hrest
      rw [List.map_cons]
      simp only [if_neg hk]
      simpa [Store.get, lookup, hk] using h1

theorem Store.get_append_new (m : Store) (key : JsString) (v : Session)
    (h : Store.get m key = none) : Store.get (m ++ [(key, v)]) key = some v := by
  induction m with
  | nil => simp [Store.get, lookup]
  | cons e rest ih =>
    obtain ⟨k, w⟩ := e
    by_cases hk : k = key
    · simp [Store.get, lookup, hk] at h
    · have hrest : Store.get rest key = none := by
        simpa [Store.get, lookup, hk] using h
      have h1 := ih hrest
      simpa [Store.get, lookup, hk] using h1

theorem Store.get_set_self (m : Store) (key : JsString) (v : Session) :
    Store.get (Store.set m key v) key = some v := by
  unfold Store.set
  split
  · rename_i hhas
    exact Store.get_map_set m key v hhas
  · rename_i hhas
    apply Store.get_append_new
    simpa [Store.has] using hhas

theorem detectLanguage_ok (franc : JsString → Except JsError JsString) (text : JsString) :
    ∃ tag, detectLanguage franc text = .ok tag := by
  unfold detectLanguage
  cases h : franc text with
  | error e => exact ⟨_, rfl⟩
  | ok c => exact ⟨_, rfl⟩

theorem languageCodeOf_mem (detectedLanguage : JsString) :
    languageCodeOf detectedLanguage ∈ languageSupport := by
  unfold languageCodeOf
  split
  · rename_i h
    rw [Option.isSome_iff_exists] at h
    obtain ⟨v, hv⟩ := h
    have hm := lookup_mem languagePrompts detectedLanguage v hv
    simp only [languagePrompts, List.mem_cons, Prod.mk.injEq, List.mem_nil_iff, or_false] at hm
    rcases hm with h | h | h | h | h | h | h | h <;> rw [h.1] <;> simp [languageSupport]
  · simp [languageSupport]

theorem languageMap_values (detected mapped : JsString)
    (h : lookup languageMap detected = some mapped) :
    mapped ∈ languageSupport ∧ mapped ≠ utf16 "und" := by
  have hm := lookup_mem languageMap detected mapped h
  simp only [languageMap, List.mem_cons, Prod.mk.injEq, List.mem_nil_iff, or_false] at hm
  rcases hm with h | h | h | h | h | h | h | h <;> rw [h.2] <;>
    exact ⟨by simp [languageSupport], by decide⟩

/-! ## Lemmas on the message handler -/

theorem truthy_some_of_ne_nil (s : JsString) (h : s ≠ []) : truthy (some s) = true := by
  cases s with
  | nil => exact absurd rfl h
  | cons a l => rfl

/-- The outcome of a message request on a stored session when the completion
service replies. -/
theorem submitUtterance_ok (P : Platform) (env : MessageEnv) (store : Store)
    (sessionId message : JsString) (messageType : Option JsString) (session : Session)
    (text : JsString) (hid : sessionId ≠ []) (hmsg : message ≠ [])
    (hget : Store.get store sessionId = some session) (hc : env.completion = .ok text) :
    submitUtterance P env
        { sessionId := some sessionId, message := some message, messageType := messageType }
        store =
      { store := Store.set store sessionId
          { session with
            lastActivity := env.now
            messageCount := session.messageCount + 1
            chatSession :=
              { session.chatSession with
                history := session.chatSession.history ++
                  [userEntry P (session.messageCount + 1) message,
                    { role := .model, text := text }] } }
        response :=
          { status := 200
            body := .reply (finalResponse text) (messageType.getD (utf16 "voice"))
              session.modelUsed session.isFallback (env.respondedAt - env.now) }
        calls :=
          [{ model := session.chatSession.model
             contents := session.chatSession.history ++
               [userEntry P (session.messageCount + 1) message] }] } := by
  obtain ⟨d, hd⟩ := detectLanguage_ok P.franc message
  simp [submitUtterance, truthy_some_of_ne_nil _ hid, truthy_some_of_ne_nil _ hmsg, hget, hd, hc,
    userEntry, detectedLanguageOf]

/-- The outcome of a message request on a stored session when the completion
service fails. -/
theorem submitUtterance_failed (P : Platform) (env : MessageEnv) (store : Store)
    (sessionId message : JsString) (messageType : Option JsString) (session : Session)
    (error : JsError) (hid : sessionId ≠ []) (hmsg : message ≠ [])
    (hget : Store.get store sessionId = some session) (hc : env.completion = .error error) :
    submitUtterance P env
        { sessionId := some sessionId, message := some message, messageType := messageType }
        store =
      { store := Store.set store sessionId
          { session with
            lastActivity := env.now
            messageCount := session.messageCount + 1
            chatSession :=
              { session.chatSession with
                history := session.chatSession.history ++
                  [userEntry P (session.messageCount + 1) message] } }
        response := completionFailure error
        calls :=
          [{ model := session.chatSession.model
             contents := session.chatSession.history ++
               [userEntry P (session.messageCount + 1) message] }] } := by
  obtain ⟨d, hd⟩ := detectLanguage_ok P.franc message
  simp [submitUtterance, truthy_some_of_ne_nil _ hid, truthy_some_of_ne_nil _ hmsg, hget, hd, hc,
    userEntry, detectedLanguageOf]

theorem finalResponse_length_le (text : JsString) : (finalResponse text).length ≤ 203 := by
  unfold finalResponse
  by_cases h : text.length > 200
  · have h3 : (utf16 "...").length = 3 := by decide
    simp only [h, if_true, List.length_append, List.length_take, h3]
    omega
  · simp only [h, if_false]
    omega

theorem completionFailure_body (error : JsError) :
    ∃ e d r u, (completionFailure error).body = .failure e d r u := by
  unfold completionFailure
  split
  · exact ⟨_, _, _, _, rfl⟩
  · split
    · exact ⟨_, _, _, _, rfl⟩
    · exact ⟨_, _, _, _, rfl⟩

/-- A message request either is refused before the session is touched (400 or 404),
or names a stored session with a non-empty id and message. -/
theorem submitUtterance_cases (P : Platform) (env : MessageEnv) (body : MessageBody)
    (store : Store) :
    ((submitUtterance P env body store).store = store ∧
      (submitUtterance P env body store).calls = [] ∧
      ∃ e d, (submitUtterance P env body store).response.body = .failure e d none none) ∨
    ∃ sessionId message session,
      body = { sessionId := some sessionId, message := some message,
               messageType := body.messageType } ∧
      sessionId ≠ [] ∧ message ≠ [] ∧ Store.get store sessionId = some session := by
  obtain ⟨sid, msg, mt⟩ := body
  cases sid with
  | none => exact Or.inl (by simp [submitUtterance, truthy])
  | some sessionId =>
    cases msg with
    | none => exact Or.inl (by simp [submitUtterance, truthy])
    | some message =>
      by_cases hid : sessionId = []
      · exact Or.inl (by simp [submitUtterance, truthy, hid])
      · by_cases hmsg : message = []
        · exact Or.inl (by simp [submitUtterance, truthy, hmsg])
        · cases hget : Store.get store sessionId with
          | none =>
            refine Or.inl ?_
            simp [submitUtterance, truthy_some_of_ne_nil _ hid, truthy_some_of_ne_nil _ hmsg, hget]
          | some session => exact Or.inr ⟨sessionId, message, session, rfl, hid, hmsg, hget⟩

/-! ## Lemmas on the sweep -/

theorem lookup_filter {β : Type} (m : List (JsString × β)) (p : JsString × β → Bool)
    (hwf : (m.map Prod.fst).Nodup) (key : JsString) :
    lookup (m.filter p) key =
      (lookup m key).bind (fun v => if p (key, v) then some v else none) := by
  induction m with
  | nil => simp [lookup]
  | cons e rest ih =>
    obtain ⟨k, v⟩ := e
    simp only [List.map_cons, List.nodup_cons] at hwf
    have ih2 := ih hwf.2
    by_cases hk : k = key
    · subst hk
      have hnone : lookup rest k = none := (lookup_eq_none_iff rest k).mpr hwf.1
      by_cases hp : p (k, v) = true
      · simp [List.filter, hp, lookup]
      · simp only [Bool.not_eq_true] at hp
        simp [List.filter, hp, lookup, ih2, hnone]
    · by_cases hp : p (k, v) = true
      · simp [List.filter, hp, lookup, hk, ih2]
      · simp only [Bool.not_eq_true] at hp
        simp [List.filter, hp, lookup, hk, ih2]

theorem sweep_foldl (oneHourAgo : Int) (l acc : Store) :
    l.foldl (fun acc e => if e.2.lastActivity < oneHourAgo then Store.delete acc e.1 else acc) acc =
      acc.filter (fun x => l.all (fun e => !decide (e.2.lastActivity < oneHourAgo) || decide (x.1 ≠ e.1))) := by
  induction l generalizing acc with
  | nil => simp
  | cons e rest ih =>
    rw [List.foldl_cons, ih]
    by_cases hexp : e.2.lastActivity < oneHourAgo
    · simp only [hexp, if_true, Store.delete, List.filter_filter]
      apply List.filter_congr
      intro x _
      simp [hexp, Bool.and_comm]
    · simp only [hexp, if_false]
      apply List.filter_congr
      intro x _
      simp [hexp]

/-- The sweep keeps exactly the entries whose key no expired entry carries. -/
theorem sweepExpired_eq_filter_keys (now : Int) (store : Store) :
    sweepExpired now store =
      store.filter (fun x =>
        store.all (fun e => !decide (e.2.lastActivity < now - 3600000) || decide (x.1 ≠ e.1))) := by
  have h : (60 * 60 * 1000 : Int) = 3600000 := by norm_num
  simp only [sweepExpired, h]
  exact sweep_foldl (now - 3600000) store store

theorem Store.entry_unique (m : Store) (hwf : Store.WF m) (x e : JsString × Session)
    (hx : x ∈ m) (he : e ∈ m) (hk : x.1 = e.1) : x = e := by
  have h1 := lookup_of_mem_nodup m x.1 x.2 hwf hx
  have h2 := lookup_of_mem_nodup m e.1 e.2 hwf he
  rw [hk] at h1
  rw [h1] at h2
  injection h2 with h3
  exact Prod.ext hk h3

/-- On a store with distinct keys the sweep keeps exactly the entries that are not
expired. -/
theorem sweepExpired_eq_filter (now : Int) (store : Store) (hwf : Store.WF store) :
    sweepExpired now store =
      store.filter (fun x => !decide (x.2.lastActivity < now - 3600000)) := by
  rw [sweepExpired_eq_filter_keys]
  apply List.filter_congr
  intro x hx
  by_cases hexp : x.2.lastActivity < now - 3600000
  · have : (store.all (fun e => !decide (e.2.lastActivity < now - 3600000) || decide (x.1 ≠ e.1))) = false := by
      rw [Bool.eq_false_iff]
      intro hall
      rw [List.all_eq_true] at hall
      have := hall x hx
      simp [hexp] at this
    rw [this]
    simp [hexp]
  · have : (store.all (fun e => !decide (e.2.lastActivity < now - 3600000) || decide (x.1 ≠ e.1))) = true := by
      rw [List.all_eq_true]
      intro e he
      by_cases hexp2 : e.2.lastActivity < now - 3600000
      · have hne : x.1 ≠ e.1 := by
          intro hk
          have := Store.entry_unique store hwf x e hx he hk
          rw [this] at hexp
          exact hexp hexp2
        simp [hne]
      · simp [hexp2]
    rw [this]
    simp [hexp]

theorem sweepExpired_mem (now : Int) (store : Store) (x : JsString × Session)
    (h : x ∈ sweepExpired now store) : x ∈ store := by
  rw [sweepExpired_eq_filter_keys] at h
  exact (List.mem_filter.mp h).1

theorem sweepExpired_wf (now : Int) (store : Store) (hwf : Store.WF store) :
    Store.WF (sweepExpired now store) := by
  rw [sweepExpired_eq_filter_keys]
  exact Store.wf_filter store _ hwf

/-! ## Lemmas on runs -/

theorem startSessionId_ne_nil (env : StartEnv) (bodySessionId : Option JsString) :
    startSessionId env bodySessionId ≠ [] := by
  unfold startSessionId
  split
  · rename_i h
    cases bodySessionId with
    | none => simp [truthy] at h
    | some s =>
      cases s with
      | nil => simp [truthy] at h
      | cons a l => simp
  · have h : utf16 "session_" = 115 :: utf16 "ession_" := rfl
    rw [h]
    simp

theorem turnEntries_length (P : Platform) (count : Nat) (turns : List Turn) :
    (turnEntries P count turns).length = 2 * turns.length := by
  induction turns generalizing count with
  | nil => rfl
  | cons t ts ih =>
    simp only [turnEntries, List.length_cons, ih]
    omega

theorem turnEntries_roles (P : Platform) (count : Nat) (turns : List Turn) :
    (turnEntries P count turns).map Content.role =
      (List.replicate turns.length [Role.user, Role.model]).flatten := by
  induction turns generalizing count with
  | nil => rfl
  | cons t ts ih =>
    simp only [turnEntries, List.map_cons, ih, List.length_cons, List.replicate_succ,
      List.flatten_cons, userEntry]
    rfl

theorem seedHistory_roles (env : StartEnv) :
    (seedHistory env).map Content.role = [Role.user, Role.model] ∧
      (seedHistory env).length = 2 := by
  unfold seedHistory
  split <;> exact ⟨rfl, rfl⟩

/-- The store and session after a start request that does not fail twice. -/
theorem startTurn_stores (cfg : Config) (env : StartEnv) (bodySessionId : Option JsString)
    (store : Store) (h : env.primaryFails = false ∨ env.fallbackFails = false) :
    ∃ session,
      (startTurn cfg env bodySessionId store).1 =
        Store.set store (startSessionId env bodySessionId) session ∧
      session.chatSession.history = seedHistory env ∧ session.messageCount = 0 := by
  by_cases hp : env.primaryFails = false
  · refine ⟨{ chatSession := { model := cfg.primaryModel, history := primaryHistory }
              modelUsed := utf16 "gemini-1.5-flash"
              isFallback := false
              createdAt := env.createdAt
              lastActivity := env.lastActivity
              messageCount := 0 }, ?_, ?_, rfl⟩
    · simp [startTurn, hp]
    · simp [seedHistory, hp]
  · have hp2 : env.primaryFails = true := by simpa using hp
    have hf : env.fallbackFails = false := by
      rcases h with h | h
      · exact absurd h hp
      · exact h
    refine ⟨{ chatSession := { model := cfg.fallbackModel, history := fallbackHistory }
              modelUsed := cfg.fallbackModel
              isFallback := true
              createdAt := env.createdAt
              lastActivity := env.lastActivity
              messageCount := 0 }, ?_, ?_, rfl⟩
    · simp [startTurn, hp2, hf]
    · simp [seedHistory, hp2]

theorem historyShape_seed (strict : Bool) (env : StartEnv) :
    historyShape strict (seedHistory env) := by
  unfold seedHistory
  split
  · exact ⟨rfl, by simp [noAdjacentModel, primaryHistory],
      fun _ => ⟨by simp [alternates, primaryHistory], rfl⟩⟩
  · exact ⟨rfl, by simp [noAdjacentModel, fallbackHistory],
      fun _ => ⟨by simp [alternates, fallbackHistory], rfl⟩⟩

theorem startsWithUser_append (h l : List Content) (hs : startsWithUser h) :
    startsWithUser (h ++ l) := by
  cases h with
  | nil => simp [startsWithUser] at hs
  | cons a rest => simpa [startsWithUser] using hs

theorem historyShape_push_reply (strict : Bool) (h : List Content) (u t : JsString)
    (hs : historyShape strict h) :
    historyShape strict (h ++ [{ role := .user, text := u }, { role := .model, text := t }]) := by
  obtain ⟨h1, h2, h3⟩ := hs
  refine ⟨startsWithUser_append h _ h1, ?_, ?_⟩
  · unfold noAdjacentModel at h2 ⊢
    rw [List.chain'_append]
    refine ⟨h2, by simp [List.chain'_pair], ?_⟩
    intro x _ y hy
    simp only [List.head?_cons, Option.mem_def, Option.some.injEq] at hy
    subst hy
    simp
  · intro hstrict
    obtain ⟨ha, he⟩ := h3 hstrict
    constructor
    · unfold alternates at ha ⊢
      rw [List.chain'_append]
      refine ⟨ha, by simp [List.chain'_pair], ?_⟩
      intro x hx y hy
      simp only [List.head?_cons, Option.mem_def, Option.some.injEq] at hy
      subst hy
      simp only [Option.mem_def] at hx
      simp only [endsWithModel, hx, Option.map_some', Option.some.injEq] at he
      simp [he]
    · simp [endsWithModel]

theorem historyShape_push_user (h : List Content) (u : JsString)
    (hs : historyShape false h) :
    historyShape false (h ++ [{ role := .user, text := u }]) := by
  obtain ⟨h1, h2, _⟩ := hs
  refine ⟨startsWithUser_append h _ h1, ?_, by simp⟩
  unfold noAdjacentModel at h2 ⊢
  rw [List.chain'_append]
  refine ⟨h2, List.chain'_singleton _, ?_⟩
  intro x _ y hy
  simp only [List.head?_cons, Option.mem_def, Option.some.injEq] at hy
  subst hy
  simp

/-! ## Lemmas on the message handler around its `await` -/

/-- The first part of the message handler always reaches the completion call: it sets the
clock and the count and pushes the user entry. -/
theorem beginUtterance_spec (P : Platform) (now : Int) (message : JsString)
    (session : Session) :
    beginUtterance P now message session =
      ({ session with
          lastActivity := now
          messageCount := session.messageCount + 1
          chatSession :=
            { session.chatSession with
              history := session.chatSession.history ++
                [userEntry P (session.messageCount + 1) message] } },
        .ok { model := session.chatSession.model
              contents := session.chatSession.history ++
                [userEntry P (session.messageCount + 1) message] }) := by
  obtain ⟨d, hd⟩ := detectLanguage_ok P.franc message
  simp [beginUtterance, hd, userEntry, detectedLanguageOf]

theorem sessionStep_received (P : Platform) (now : Int) (message : JsString)
    (session : Session) :
    sessionStep P session (.received now message) =
      ({ session with
          lastActivity := now
          messageCount := session.messageCount + 1
          chatSession :=
            { session.chatSession with
              history := session.chatSession.history ++
                [userEntry P (session.messageCount + 1) message] } }, none) := by
  simp only [sessionStep, beginUtterance_spec]

theorem sessionStep_replied (P : Platform) (text : JsString) (respondedAt : Int)
    (messageType : JsString) (session : Session) :
    sessionStep P session (.settled (.ok text) respondedAt messageType) =
      ({ session with
          chatSession :=
            { session.chatSession with
              history := session.chatSession.history ++ [{ role := .model, text := text }] } },
        some { status := 200
               body := .reply (finalResponse text) messageType session.modelUsed
                 session.isFallback (respondedAt - session.lastActivity) }) := rfl

theorem sessionStep_failed (P : Platform) (error : JsError) (respondedAt : Int)
    (messageType : JsString) (session : Session) :
    sessionStep P session (.settled (.error error) respondedAt messageType) =
      (session, some (completionFailure error)) := rfl

/-- The handler of a message request on a stored session is its two parts run one after
the other on the session object, which stays in the map under its key. -/
theorem submitUtterance_parts (P : Platform) (env : MessageEnv) (store : Store)
    (sessionId message : JsString) (messageType : Option JsString) (session : Session)
    (hid : sessionId ≠ []) (hmsg : message ≠ [])
    (hget : Store.get store sessionId = some session) :
    (submitUtterance P env
        { sessionId := some sessionId, message := some message, messageType := messageType }
        store).store =
      Store.set store sessionId
        (sessionRun P session
          [ .received env.now message,
            .settled env.completion env.respondedAt (messageType.getD (utf16 "voice")) ]) ∧
    [(submitUtterance P env
        { sessionId := some sessionId, message := some message, messageType := messageType }
        store).response] =
      sessionReplies P session
        [ .received env.now message,
          .settled env.completion env.respondedAt (messageType.getD (utf16 "voice")) ] := by
  cases hc : env.completion with
  | ok text =>
    rw [submitUtterance_ok P env store sessionId message messageType session text hid hmsg hget hc]
    simp only [sessionRun, sessionReplies, List.foldl_cons, List.foldl_nil, sessionStep_received,
      sessionStep_replied, List.append_assoc, List.singleton_append, Option.toList,
      List.nil_append, List.append_nil]
    refine ⟨?_, ?_⟩ <;> trivial
  | error error =>
    rw [submitUtterance_failed P env store sessionId message messageType session error hid hmsg
      hget hc]
    simp only [sessionRun, sessionReplies, List.foldl_cons, List.foldl_nil, sessionStep_received,
      sessionStep_failed, Option.toList, List.nil_append, List.append_nil]
    refine ⟨?_, ?_⟩ <;> trivial

theorem countRole_append (role : Role) (h l : List Content) :
    countRole role (h ++ l) = countRole role h + countRole role l := by
  simp [countRole, List.countP_append]

theorem countRole_singleton (role : Role) (c : Content) :
    countRole role [c] = if c.role = role then 1 else 0 := by
  simp [countRole, List.countP_cons]

theorem balanced_push_user (pending : Nat) (h : List Content) (c : Content)
    (hc : c.role = .user) (hb : balanced pending h) : balanced (pending + 1) (h ++ [c]) := by
  obtain ⟨h1, h2, h3⟩ := hb
  have hu : countRole .user [c] = 1 := by rw [countRole_singleton, if_pos hc]
  have hm : countRole .model [c] = 0 := by
    rw [countRole_singleton, if_neg (by rw [hc]; decide)]
  refine ⟨startsWithUser_append h _ h1, ?_, ?_⟩
  · intro k
    by_cases hk : k ≤ h.length
    · rw [List.take_append_of_le_length hk]
      exact h2 k
    · rw [List.take_of_length_le (by simp only [List.length_append, List.length_singleton]; omega)]
      rw [countRole_append, countRole_append, hu, hm]
      omega
  · rw [countRole_append, countRole_append, hu, hm]
    omega

theorem balanced_push_model (pending : Nat) (h : List Content) (c : Content)
    (hc : c.role = .model) (hp : 0 < pending) (hb : balanced pending h) :
    balanced (pending - 1) (h ++ [c]) := by
  obtain ⟨h1, h2, h3⟩ := hb
  have hu : countRole .user [c] = 0 := by
    rw [countRole_singleton, if_neg (by rw [hc]; decide)]
  have hm : countRole .model [c] = 1 := by rw [countRole_singleton, if_pos hc]
  refine ⟨startsWithUser_append h _ h1, ?_, ?_⟩
  · intro k
    by_cases hk : k ≤ h.length
    · rw [List.take_append_of_le_length hk]
      exact h2 k
    · rw [List.take_of_length_le (by simp only [List.length_append, List.length_singleton]; omega)]
      rw [countRole_append, countRole_append, hu, hm]
      omega
  · rw [countRole_append, countRole_append, hu, hm]
    omega

theorem balanced_seed (env : StartEnv) : balanced 0 (seedHistory env) := by
  have hroles := (seedHistory_roles env).1
  have hcount : ∀ (role : Role) (l : List Content),
      countRole role l = (l.map Content.role).countP (fun r => decide (r = role)) := by
    intro role l
    simp [countRole, List.countP_map, Function.comp_def]
  refine ⟨(historyShape_seed false env).1, ?_, ?_⟩
  · intro k
    rw [hcount, hcount, List.map_take, hroles]
    match k with
    | 0 => decide
    | 1 => decide
    | (n + 2) =>
      simp only [List.take_succ_cons, List.take_nil]
      decide
  · rw [hcount, hcount, hroles]
    decide

/-- Under every order of events in which a call settles only while a request awaits it,
the history keeps its balance of user and model entries. -/
theorem sessionRun_balanced (P : Platform) (events : List SessionEvent) (session : Session)
    (pending : Nat) (hdel : deliverable pending events = true)
    (hb : balanced pending session.chatSession.history) :
    ∃ p, balanced p (sessionRun P session events).chatSession.history := by
  induction events generalizing session pending with
  | nil => exact ⟨pending, hb⟩
  | cons e rest ih =>
    cases e with
    | received now message =>
      simp only [deliverable] at hdel
      simp only [sessionRun, List.foldl_cons, sessionStep_received]
      exact ih _ (pending + 1) hdel (balanced_push_user pending _ _ rfl hb)
    | settled completion respondedAt messageType =>
      simp only [deliverable, Bool.and_eq_true, decide_eq_true_eq] at hdel
      cases completion with
      | ok text =>
        simp only [sessionRun, List.foldl_cons, sessionStep_replied]
        exact ih _ (pending - 1) hdel.2 (balanced_push_model pending _ _ rfl hdel.1 hb)
      | error error =>
        simp only [sessionRun, List.foldl_cons, sessionStep_failed]
        exact ih _ (pending - 1) hdel.2 ⟨hb.1, hb.2.1, by have := hb.2.2; omega⟩

/-- The numbers of user and of model entries grow by the requests received and by the
replies of the completion service, under every order of events. -/
theorem sessionRun_counts (P : Platform) (events : List SessionEvent) (session : Session) :
    countRole .user (sessionRun P session events).chatSession.history =
        countRole .user session.chatSession.history +
          events.countP SessionEvent.isReceived ∧
      countRole .model (sessionRun P session events).chatSession.history =
        countRole .model session.chatSession.history + events.countP SessionEvent.isReply ∧
      (sessionRun P session events).chatSession.history.length =
        session.chatSession.history.length + events.countP SessionEvent.isReceived +
          events.countP SessionEvent.isReply := by
  induction events generalizing session with
  | nil => simp [sessionRun]
  | cons e rest ih =>
    cases e with
    | received now message =>
      have h := ih (sessionStep P session (.received now message)).1
      simp only [sessionStep_received, countRole_append, countRole_singleton,
        List.length_append, List.length_singleton] at h
      simp only [sessionRun, List.foldl_cons, List.countP_cons, SessionEvent.isReceived,
        SessionEvent.isReply, sessionStep_received] at h ⊢
      have hu : (userEntry P (session.messageCount + 1) message).role = Role.user := rfl
      rw [hu] at h
      simp only [if_true] at h
      have hm : (Role.user = Role.model) = False := by simp
      simp only [hm, if_false] at h
      refine ⟨?_, ?_, ?_⟩
      · rw [h.1]; simp; omega
      · rw [h.2.1]; simp
      · rw [h.2.2]; simp; omega
    | settled completion respondedAt messageType =>
      cases completion with
      | ok text =>
        have h := ih (sessionStep P session (.settled (.ok text) respondedAt messageType)).1
        simp only [sessionStep_replied, countRole_append, countRole_singleton,
          List.length_append, List.length_singleton] at h
        simp only [sessionRun, List.foldl_cons, List.countP_cons, SessionEvent.isReceived,
          SessionEvent.isReply, sessionStep_replied] at h ⊢
        have hm : (Role.model = Role.user) = False := by simp
        simp only [hm, if_false, if_true] at h
        refine ⟨?_, ?_, ?_⟩
        · rw [h.1]; simp
        · rw [h.2.1]; simp; omega
        · rw [h.2.2]; simp; omega
      | error error =>
        have h := ih (sessionStep P session (.settled (.error error) respondedAt messageType)).1
        simp only [sessionRun, List.foldl_cons, List.countP_cons, SessionEvent.isReceived,
          SessionEvent.isReply, sessionStep_failed] at h ⊢
        refine ⟨?_, ?_, ?_⟩
        · rw [h.1]; simp
        · rw [h.2.1]; simp
        · rw [h.2.2]; simp

theorem historyShape_weaken (strict : Bool) (h : List Content) (hs : historyShape strict h) :
    historyShape false h :=
  ⟨hs.1, hs.2.1, by simp⟩

theorem alternates_push_user (h : List Content) (u : JsString) (ha : alternates h)
    (he : endsWithModel h) : alternates (h ++ [{ role := .user, text := u }]) := by
  unfold alternates at ha ⊢
  rw [List.chain'_append]
  refine ⟨ha, List.chain'_singleton _, ?_⟩
  intro x hx y hy
  simp only [List.head?_cons, Option.mem_def, Option.some.injEq] at hy
  subst hy
  simp only [Option.mem_def] at hx
  simp only [endsWithModel, hx, Option.map_some', Option.some.injEq] at he
  simp [he]

/-- Requests handled one after the other keep the shape of the history: it starts with a
user entry and has no two adjacent model entries, and it alternates when every completion
call replied. -/
theorem sessionRun_serialized (P : Platform) (strict : Bool) (n : Nat) :
    ∀ (events : List SessionEvent) (session : Session), events.length ≤ n →
      serialized events = true → historyShape strict session.chatSession.history →
      (strict = true → ∀ e ∈ events, e.completionReplies) →
      startsWithUser (sessionRun P session events).chatSession.history ∧
        noAdjacentModel (sessionRun P session events).chatSession.history ∧
        (strict = true → alternates (sessionRun P session events).chatSession.history) := by
  induction n using Nat.strong_induction_on with
  | _ n ih =>
    intro events session hlen hser hs hreply
    cases events with
    | nil => exact ⟨hs.1, hs.2.1, fun h => (hs.2.2 h).1⟩
    | cons e1 r1 =>
      cases e1 with
      | settled completion respondedAt messageType => simp [serialized] at hser
      | received now message =>
        cases r1 with
        | nil =>
          simp only [sessionRun, List.foldl_cons, List.foldl_nil, sessionStep_received]
          have hw := historyShape_push_user _
            (withLanguageContext (languageCodeOf (detectedLanguageOf P message))
              (optimizePrompt P.toLowerCase (session.messageCount + 1) message))
            (historyShape_weaken strict _ hs)
          refine ⟨hw.1, hw.2.1, ?_⟩
          intro hst
          exact alternates_push_user _ _ (hs.2.2 hst).1 (hs.2.2 hst).2
        | cons e2 rest =>
          cases e2 with
          | received now2 message2 => simp [serialized] at hser
          | settled completion respondedAt messageType =>
            simp only [serialized] at hser
            simp only [List.length_cons] at hlen
            cases completion with
            | ok text =>
              simp only [sessionRun, List.foldl_cons, sessionStep_received, sessionStep_replied]
              apply ih (n - 2) (by omega) rest _ (by omega) hser
              · show historyShape strict
                  ((session.chatSession.history ++
                    [userEntry P (session.messageCount + 1) message]) ++
                    [{ role := .model, text := text }])
                rw [List.append_assoc]
                exact historyShape_push_reply strict _ _ _ hs
              · intro hst e he
                exact hreply hst e (List.mem_cons_of_mem _ (List.mem_cons_of_mem _ he))
            | error error =>
              cases strict with
              | true =>
                obtain ⟨text, ht⟩ := hreply rfl
                  (.settled (.error error) respondedAt messageType)
                  (List.mem_cons_of_mem _ (List.mem_cons_self _ _))
                exact absurd ht (by simp)
              | false =>
                simp only [sessionRun, List.foldl_cons, sessionStep_received, sessionStep_failed]
                apply ih (n - 2) (by omega) rest _ (by omega) hser
                · exact historyShape_push_user _ _ hs
                · intro hst
                  exact absurd hst (by decide)

theorem serialized_turnEvents (turns : List Turn) :
    serialized (turnEvents turns) = true ∧ deliverable 0 (turnEvents turns) = true := by
  induction turns with
  | nil => exact ⟨rfl, rfl⟩
  | cons t ts ih =>
    simp only [turnEvents, serialized, deliverable]
    exact ⟨ih.1, by simpa using ih.2⟩

/-- Turns handled one after the other: each is answered 200 and appends its user entry and
its reply. -/
theorem sessionRun_turnEvents (P : Platform) (turns : List Turn) (session : Session) :
    (sessionRun P session (turnEvents turns)).chatSession.history =
        session.chatSession.history ++ turnEntries P session.messageCount turns ∧
      (sessionReplies P session (turnEvents turns)).length = turns.length ∧
      ∀ r ∈ sessionReplies P session (turnEvents turns), r.status = 200 := by
  induction turns generalizing session with
  | nil => simp [turnEvents, sessionRun, sessionReplies, turnEntries]
  | cons t ts ih =>
    have h := ih (sessionStep P (sessionStep P session (.received t.now t.message)).1
      (.settled (.ok t.reply) t.respondedAt (t.messageType.getD (utf16 "voice")))).1
    simp only [sessionStep_received, sessionStep_replied] at h
    simp only [turnEvents, sessionRun, sessionReplies, List.foldl_cons, sessionStep_received,
      sessionStep_replied, Option.toList, List.nil_append, List.singleton_append,
      List.length_cons, turnEntries] at h ⊢
    refine ⟨?_, ?_, ?_⟩
    · rw [h.1]
      simp
    · rw [h.2.1]
    · intro r hr
      rcases List.mem_cons.mp hr with hr | hr
      · rw [hr]
      · exact h.2.2 r hr

/-! ## Lemmas on start, delete and the prompt branches -/

theorem Store.get_map_set_ne (m : Store) (key other : JsString) (v : Session)
    (h : other ≠ key) :
    Store.get (m.map (fun e => if e.1 = key then (key, v) else e)) other = Store.get m other := by
  induction m with
  | nil => rfl
  | cons e rest ih =>
    obtain ⟨k, w⟩ := e
    rw [List.map_cons]
    by_cases hk : k = key
    · subst hk
      simp only [if_true]
      have hne : ¬ k = other := fun h2 => h h2.symm
      simpa [Store.get, lookup, hne] using ih
    · simp only [if_neg hk]
      by_cases hko : k = other
      · simp [Store.get, lookup, hko]
      · simpa [Store.get, lookup, hko] using ih

theorem Store.get_append_ne (m : Store) (key other : JsString) (v : Session)
    (h : other ≠ key) : Store.get (m ++ [(key, v)]) other = Store.get m other := by
  induction m with
  | nil =>
    have hne : ¬ key = other := fun h2 => h h2.symm
    simp [Store.get, lookup, hne]
  | cons e rest ih =>
    obtain ⟨k, w⟩ := e
    by_cases hko : k = other
    · simp [Store.get, lookup, hko]
    · simpa [Store.get, lookup, hko] using ih

theorem Store.get_set_ne (m : Store) (key other : JsString) (v : Session) (h : other ≠ key) :
    Store.get (Store.set m key v) other = Store.get m other := by
  unfold Store.set
  split
  · exact Store.get_map_set_ne m key other v h
  · exact Store.get_append_ne m key other v h

theorem Store.keys_set_existing (m : Store) (key : JsString) (v : Session)
    (h : Store.has m key = true) : (Store.set m key v).map Prod.fst = m.map Prod.fst := by
  unfold Store.set
  rw [if_pos h]
  exact Store.keys_set_of_has m key v

theorem Store.get_delete_self (m : Store) (key : JsString) :
    Store.get (Store.delete m key) key = none := by
  rw [Store.get_eq_none_iff]
  intro h
  obtain ⟨x, hx, hk⟩ := List.mem_map.mp h
  have := (List.mem_filter.mp hx).2
  simp [hk] at this

theorem Store.get_delete_ne (m : Store) (key other : JsString) (h : other ≠ key) :
    Store.get (Store.delete m key) other = Store.get m other := by
  induction m with
  | nil => rfl
  | cons e rest ih =>
    obtain ⟨k, w⟩ := e
    by_cases hk : k = key
    · subst hk
      have hne : ¬ k = other := fun h2 => h h2.symm
      have hd : Store.delete ((k, w) :: rest) k = Store.delete rest k := by
        simp [Store.delete, List.filter]
      rw [hd, ih]
      simp [Store.get, lookup, hne]
    · have hd : Store.delete ((k, w) :: rest) key = (k, w) :: Store.delete rest key := by
        simp [Store.delete, List.filter, hk]
      rw [hd]
      by_cases hko : k = other
      · simp [Store.get, lookup, hko]
      · simpa [Store.get, lookup, hko] using ih

theorem startSessionId_some (env : StartEnv) (sessionId : JsString) (h : sessionId ≠ []) :
    startSessionId env (some sessionId) = sessionId := by
  simp [startSessionId, truthy_some_of_ne_nil _ h]

theorem includes_of_prefix (s short long : JsString) (hp : short <+: long)
    (h : includes s long = true) : includes s short = true := by
  unfold includes at h ⊢
  rw [List.any_eq_true] at h ⊢
  obtain ⟨t, ht, hl⟩ := h
  refine ⟨t, ht, ?_⟩
  rw [List.isPrefixOf_iff_prefix] at hl ⊢
  exact hp.trans hl

theorem gratitudeWords_any (t : JsString) :
    gratitudeWords.any (fun w => includes t w) = true ↔
      ∃ w ∈ referenceGratitudeWords, includes t w = true := by
  have hp : utf16 "thank" <+: utf16 "thanks" := ⟨utf16 "s", rfl⟩
  have hsub := includes_of_prefix t _ _ hp
  simp only [gratitudeWords, referenceGratitudeWords, List.any_cons, List.any_nil, Bool.or_false,
    Bool.or_eq_true, List.mem_cons, List.mem_singleton, exists_eq_or_imp, exists_eq_left,
    List.mem_nil_iff, false_and, exists_false, or_false]
  constructor
  · rintro (h | h | h)
    · exact Or.inl h
    · exact Or.inl (hsub h)
    · exact Or.inr h
  · rintro (h | h)
    · exact Or.inl h
    · exact Or.inr (Or.inr h)

theorem farewellWords_any (t : JsString) :
    farewellWords.any (fun w => includes t w) = true ↔
      ∃ w ∈ referenceFarewellWords, includes t w = true := by
  have hb : includes t (utf16 "goodbye") = true → includes t (utf16 "bye") = true := by
    intro h
    unfold includes at h ⊢
    rw [List.any_eq_true] at h ⊢
    obtain ⟨u, hu, hl⟩ := h
    rw [List.isPrefixOf_iff_prefix] at hl
    obtain ⟨rest, hrest⟩ := hl
    have hg : utf16 "goodbye" = utf16 "good" ++ utf16 "bye" := rfl
    refine ⟨utf16 "bye" ++ rest, ?_, ?_⟩
    · rw [List.mem_tails] at hu ⊢
      refine List.IsSuffix.trans ?_ hu
      rw [← hrest, hg, List.append_assoc]
      exact List.suffix_append _ _
    · rw [List.isPrefixOf_iff_prefix]
      exact List.prefix_append _ _
  simp only [farewellWords, referenceFarewellWords, List.any_cons, List.any_nil, Bool.or_false,
    Bool.or_eq_true, List.mem_cons, List.mem_singleton, exists_eq_or_imp, exists_eq_left,
    List.mem_nil_iff, false_and, exists_false, or_false]
  constructor
  · rintro (h | h | h)
    · exact Or.inl h
    · exact Or.inl (hb h)
    · exact Or.inr h
  · rintro (h | h)
    · exact Or.inl h
    · exact Or.inr (Or.inr h)

/-- The prompt the handler builds is the assignment of the branch it takes. -/
theorem optimizePrompt_eq_promptFor (toLowerCase : JsString → JsString) (messageCount : Nat)
    (message : JsString) :
    optimizePrompt toLowerCase messageCount message =
      promptFor (classifyUtterance toLowerCase messageCount message) message := by
  unfold optimizePrompt classifyUtterance
  split
  · rfl
  · split
    · rfl
    · split
      · rfl
      · rfl

theorem classifyUtterance_eq_reference (toLowerCase : JsString → JsString) (messageCount : Nat)
    (message : JsString) :
    classifyUtterance toLowerCase messageCount message =
      referenceClassification toLowerCase messageCount message := by
  unfold classifyUtterance referenceClassification
  by_cases h1 : messageCount = 1
  · simp only [h1, if_true]
  · simp only [h1, if_false]
    by_cases hg : gratitudeWords.any (fun w => includes (toLowerCase message) w) = true
    · rw [if_pos hg, if_pos ((gratitudeWords_any _).mp hg)]
    · rw [if_neg hg, if_neg (fun h => hg ((gratitudeWords_any _).mpr h))]
      by_cases hf : farewellWords.any (fun w => includes (toLowerCase message) w) = true
      · rw [if_pos hf, if_pos ((farewellWords_any _).mp hf)]
      · rw [if_neg hf, if_neg (fun h => hf ((farewellWords_any _).mpr h))]

/-! ## Lemmas on the conversation controller -/

theorem stopAISpeech_frame (s : ClientState) :
    (stopAISpeech s).1.isRecording = s.isRecording ∧
      (stopAISpeech s).1.continuousMode = s.continuousMode ∧
      (stopAISpeech s).1.retryCount = s.retryCount ∧
      (stopAISpeech s).1.networkRetryDelay = s.networkRetryDelay ∧
      (stopAISpeech s).1.lastSpeechTime = s.lastSpeechTime ∧
      (stopAISpeech s).1.lastInterruptionTime = s.lastInterruptionTime ∧
      (stopAISpeech s).1.isStartingRecognition = s.isStartingRecognition ∧
      (stopAISpeech s).1.synthesis = s.synthesis ∧
      ClientEffect.recognitionStop ∉ (stopAISpeech s).2 := by
  unfold stopAISpeech
  split <;> simp

theorem checkInterruption_frame (s : ClientState) (event : ResultEvent) (env : ResultEnv) :
    (checkInterruption s event env).1.isRecording = s.isRecording ∧
      (checkInterruption s event env).1.continuousMode = s.continuousMode ∧
      (checkInterruption s event env).1.retryCount = s.retryCount ∧
      (checkInterruption s event env).1.networkRetryDelay = s.networkRetryDelay ∧
      (checkInterruption s event env).1.lastSpeechTime = s.lastSpeechTime ∧
      (checkInterruption s event env).1.isStartingRecognition = s.isStartingRecognition ∧
      ClientEffect.recognitionStop ∉ (checkInterruption s event env).2 := by
  by_cases ht : env.checkedAt - s.lastInterruptionTime > 1000
  · by_cases hc : (event.hasInterimResults && s.isAISpeaking &&
        decide ((trim event.interimTranscript).length > 2)) = true
    · have heq : checkInterruption s event env =
          ((stopAISpeech { s with lastInterruptionTime := env.interruptedAt }).1,
            (stopAISpeech { s with lastInterruptionTime := env.interruptedAt }).2 ++
              [.logMessage (utf16 "🎤 Interruption detected - listening to you...")
                (utf16 "info")]) := by
        unfold checkInterruption
        rw [if_pos hc]
        simp only [ht, if_true]
      have h := stopAISpeech_frame { s with lastInterruptionTime := env.interruptedAt }
      rw [heq]
      refine ⟨h.1, h.2.1, h.2.2.1, h.2.2.2.1, h.2.2.2.2.1, h.2.2.2.2.2.2.1, ?_⟩
      simp only [List.mem_append, List.mem_singleton, not_or]
      exact ⟨h.2.2.2.2.2.2.2.2, by simp⟩
    · have heq : checkInterruption s event env = (s, []) := by
        unfold checkInterruption
        rw [if_neg hc]
      rw [heq]
      simp
  · have heq : checkInterruption s event env = (s, []) := by
      unfold checkInterruption
      simp [ht]
    rw [heq]
    simp

theorem checkInterruption_within_cooldown (s : ClientState) (event : ResultEvent)
    (env : ResultEnv) (h : env.checkedAt - s.lastInterruptionTime ≤ 1000) :
    checkInterruption s event env = (s, []) := by
  unfold checkInterruption
  have h2 : ¬ env.checkedAt - s.lastInterruptionTime > 1000 := by omega
  simp [h2]

theorem checkInterruption_triggered (s : ClientState) (event : ResultEvent) (env : ResultEnv)
    (hinterim : event.hasInterimResults = true) (hspeaking : s.isAISpeaking = true)
    (hsynthesis : s.synthesis = true) (hlen : (trim event.interimTranscript).length > 2)
    (helapsed : env.checkedAt - s.lastInterruptionTime > 1000) :
    checkInterruption s event env =
      ({ s with lastInterruptionTime := env.interruptedAt, isAISpeaking := false,
                currentUtterance := none },
        [ .synthesisCancel, .logMessage (utf16 "🔇 AI interrupted") (utf16 "info"),
          .logMessage (utf16 "🎤 Interruption detected - listening to you...") (utf16 "info") ]) := by
  simp [checkInterruption, stopAISpeech, hinterim, hspeaking, hsynthesis, hlen, helapsed]

theorem updateRecognitionLanguage_frame (s : ClientState) (languageCode : JsString) :
    (updateRecognitionLanguage s languageCode).1.isAISpeaking = s.isAISpeaking ∧
      (updateRecognitionLanguage s languageCode).1.currentUtterance = s.currentUtterance ∧
      (updateRecognitionLanguage s languageCode).1.lastInterruptionTime = s.lastInterruptionTime ∧
      ∀ e ∈ (updateRecognitionLanguage s languageCode).2, ∃ m t, e = ClientEffect.logMessage m t := by
  simp only [updateRecognitionLanguage]
  split_ifs <;> simp

theorem sendFailed_frame (s : ClientState) (message : JsString) :
    (sendFailed s message).1 = s ∧
      ∀ e ∈ (sendFailed s message).2,
        (∃ m t, e = ClientEffect.logMessage m t) ∨ e = ClientEffect.setTimeout .restart 1000 := by
  unfold sendFailed
  refine ⟨rfl, ?_⟩
  intro e he
  simp only [List.mem_append] at he
  rcases he with he | he
  · split at he
    · simp only [List.mem_cons, List.mem_singleton, List.mem_nil_iff, or_false] at he
      rcases he with he | he
      · exact Or.inl ⟨_, _, he⟩
      · exact Or.inl ⟨_, _, he⟩
    · simp only [List.mem_singleton] at he
      exact Or.inl ⟨_, _, he⟩
  · split at he
    · simp only [List.mem_singleton] at he
      exact Or.inr he
    · simp at he

/-- After its interruption check, `recognition.onresult` leaves the speaking flags and
the interruption time alone and cancels no synthesis. -/
theorem recognitionOnResult_after_check (s : ClientState) (event : ResultEvent)
    (env : ResultEnv) :
    (recognitionOnResult s event env).1.isAISpeaking =
        (checkInterruption s event env).1.isAISpeaking ∧
      (recognitionOnResult s event env).1.currentUtterance =
        (checkInterruption s event env).1.currentUtterance ∧
      (recognitionOnResult s event env).1.lastInterruptionTime =
        (checkInterruption s event env).1.lastInterruptionTime ∧
      (ClientEffect.synthesisCancel ∈ (recognitionOnResult s event env).2 ↔
        ClientEffect.synthesisCancel ∈ (checkInterruption s event env).2) := by
  by_cases hempty : (trim event.finalTranscript).isEmpty = true
  · have heq : recognitionOnResult s event env = checkInterruption s event env := by
      simp only [recognitionOnResult, hempty, if_true]
    rw [heq]
    exact ⟨rfl, rfl, rfl, Iff.rfl⟩
  · have h1 : ∀ st code, (updateRecognitionLanguage st code).1.isAISpeaking = st.isAISpeaking :=
      fun st code => (updateRecognitionLanguage_frame st code).1
    have h2 : ∀ st code,
        (updateRecognitionLanguage st code).1.currentUtterance = st.currentUtterance :=
      fun st code => (updateRecognitionLanguage_frame st code).2.1
    have h3 : ∀ st code,
        (updateRecognitionLanguage st code).1.lastInterruptionTime = st.lastInterruptionTime :=
      fun st code => (updateRecognitionLanguage_frame st code).2.2.1
    have hnou : ∀ st code,
        ClientEffect.synthesisCancel ∉ (updateRecognitionLanguage st code).2 := by
      intro st code hmem
      obtain ⟨m, t, h⟩ := (updateRecognitionLanguage_frame st code).2.2.2 _ hmem
      exact absurd h (by simp)
    have hnofail : ∀ (st : ClientState) (m : JsString),
        ClientEffect.synthesisCancel ∉ (sendFailed st m).2 := by
      intro st m hmem
      rcases (sendFailed_frame st m).2 _ hmem with ⟨_, _, h⟩ | h
      · exact absurd h (by simp)
      · exact absurd h (by simp)
    have hfail : ∀ (st : ClientState) (m : JsString), (sendFailed st m).1 = st :=
      fun st m => (sendFailed_frame st m).1
    simp only [recognitionOnResult, hempty]
    split_ifs <;> simp [h1, h2, h3, hnou, hnofail, hfail]

theorem trim_nil : trim [] = [] := rfl

theorem finalTranscript_of_interim_only (event : ResultEvent)
    (h : ∀ r ∈ event.visited, r.isFinal = false) : event.finalTranscript = [] := by
  unfold ResultEvent.finalTranscript
  have : event.visited.filter (fun r => r.isFinal) = [] := by
    rw [List.filter_eq_nil_iff]
    intro r hr
    simp [h r hr]
  rw [this]
  rfl

theorem hasInterimResults_of_transcript (event : ResultEvent)
    (h : event.interimTranscript ≠ []) : event.hasInterimResults = true := by
  unfold ResultEvent.hasInterimResults
  unfold ResultEvent.interimTranscript at h
  cases hf : event.visited.filter (fun r => !r.isFinal) with
  | nil =>
    rw [hf] at h
    exact absurd rfl h
  | cons r rest =>
    have hr : r ∈ event.visited.filter (fun r => !r.isFinal) := by
      rw [hf]
      exact List.mem_cons_self _ _
    rw [List.mem_filter] at hr
    rw [List.any_eq_true]
    exact ⟨r, hr.1, hr.2⟩

theorem stopVoiceRecording_speaking (s : ClientState) :
    (stopVoiceRecording s).1.synthesis = s.synthesis ∧
      ((stopVoiceRecording s).1.isAISpeaking = true → s.isAISpeaking = true) := by
  simp only [stopVoiceRecording, stopAISpeech]
  split_ifs <;> simp

theorem startRecognitionSafely_speaking (s : ClientState) (outcome : StartOutcome) :
    (startRecognitionSafely s outcome).1.synthesis = s.synthesis ∧
      ((startRecognitionSafely s outcome).1.isAISpeaking = true → s.isAISpeaking = true) := by
  cases outcome <;>
    simp only [startRecognitionSafely, handleRecognitionFailure, stopVoiceRecording, stopAISpeech] <;>
    split_ifs <;> simp

theorem stopAISpeech_speaking (s : ClientState) :
    (stopAISpeech s).1.synthesis = s.synthesis ∧
      ((stopAISpeech s).1.isAISpeaking = true → s.isAISpeaking = true) := by
  simp only [stopAISpeech]
  split_ifs <;> simp

theorem checkInterruption_speaking (s : ClientState) (event : ResultEvent) (env : ResultEnv) :
    (checkInterruption s event env).1.synthesis = s.synthesis ∧
      ((checkInterruption s event env).1.isAISpeaking = true → s.isAISpeaking = true) := by
  have h := stopAISpeech_speaking { s with lastInterruptionTime := env.interruptedAt }
  simp only [checkInterruption]
  split_ifs
  · exact h
  · exact ⟨rfl, id⟩
  · exact ⟨rfl, id⟩

theorem updateRecognitionLanguage_synthesis (s : ClientState) (languageCode : JsString) :
    (updateRecognitionLanguage s languageCode).1.synthesis = s.synthesis := by
  simp only [updateRecognitionLanguage]
  split_ifs <;> simp

theorem recognitionOnResult_speaking (s : ClientState) (event : ResultEvent) (env : ResultEnv) :
    (recognitionOnResult s event env).1.synthesis = s.synthesis ∧
      ((recognitionOnResult s event env).1.isAISpeaking = true → s.isAISpeaking = true) := by
  have hc := checkInterruption_speaking s event env
  refine ⟨?_, ?_⟩
  · have hfail : ∀ (st : ClientState) (m : JsString), (sendFailed st m).1 = st :=
      fun st m => (sendFailed_frame st m).1
    rw [← hc.1]
    simp only [recognitionOnResult]
    split_ifs <;> simp [hfail, updateRecognitionLanguage_synthesis]
  · rw [(recognitionOnResult_after_check s event env).1]
    exact hc.2

theorem handleRecognitionFailure_speaking (s : ClientState) :
    (handleRecognitionFailure s).1.synthesis = s.synthesis ∧
      ((handleRecognitionFailure s).1.isAISpeaking = true → s.isAISpeaking = true) :=
  stopVoiceRecording_speaking s

theorem recognitionOnError_speaking (s : ClientState) (error : JsString) :
    (recognitionOnError s error).1.synthesis = s.synthesis ∧
      ((recognitionOnError s error).1.isAISpeaking = true → s.isAISpeaking = true) := by
  have hf := handleRecognitionFailure_speaking
  simp only [recognitionOnError]
  split_ifs <;>
    first
      | exact hf _
      | exact ⟨rfl, id⟩

/-- One event keeps the link between the speaking flag and the synthesizer: the flag is
set only where `synthesis` exists. -/
theorem clientStep_speaking (s : ClientState) (e : ClientEvent)
    (h : s.isAISpeaking = true → s.synthesis = true) :
    (clientStep s e).1.isAISpeaking = true → (clientStep s e).1.synthesis = true := by
  have hkeep : ∀ s2 : ClientState, s2.synthesis = s.synthesis ∧
      (s2.isAISpeaking = true → s.isAISpeaking = true) →
      s2.isAISpeaking = true → s2.synthesis = true := by
    intro s2 h2 h3
    rw [h2.1]
    exact h (h2.2 h3)
  cases e with
  | click online =>
    apply hkeep
    have hs := stopVoiceRecording_speaking s
    simp only [clientStep, voiceButtonClick]
    split_ifs
    · exact hs
    · exact ⟨rfl, id⟩
    · exact ⟨rfl, id⟩
    · exact ⟨rfl, id⟩
  | healthChecked healthy =>
    apply hkeep
    simp only [clientStep, afterHealthCheck]
    split_ifs <;> exact ⟨rfl, id⟩
  | chatSessionSettled outcome =>
    apply hkeep
    cases outcome <;> exact ⟨rfl, id⟩
  | microphoneGranted now outcome =>
    apply hkeep
    exact startRecognitionSafely_speaking
      { s with isRecording := true, continuousMode := true, retryCount := 0,
               networkRetryDelay := 1000, lastSpeechTime := now } outcome
  | microphoneDenied name message =>
    apply hkeep
    exact ⟨rfl, id⟩
  | result event env =>
    apply hkeep
    exact recognitionOnResult_speaking s event env
  | messageSettled outcome voices =>
    cases outcome with
    | error message =>
      apply hkeep
      exact ⟨rfl, id⟩
    | ok response =>
      simp only [clientStep, afterSendMessage]
      split_ifs with hsyn
      · intro _
        exact hsyn
      · exact h
      · exact h
  | utteranceStart =>
    apply hkeep
    exact ⟨rfl, id⟩
  | utteranceEnd =>
    apply hkeep
    simp [clientStep, utteranceOnEnd]
  | utteranceError =>
    apply hkeep
    simp [clientStep, utteranceOnError]
  | recognitionError error =>
    apply hkeep
    exact recognitionOnError_speaking s error
  | recognitionEnd now =>
    apply hkeep
    have hs := stopVoiceRecording_speaking s
    simp only [clientStep, recognitionOnEnd]
    split_ifs
    · exact hs
    · exact ⟨rfl, id⟩
    · exact ⟨rfl, id⟩
  | recognitionStart =>
    apply hkeep
    exact ⟨rfl, id⟩
  | timer callback outcome =>
    apply hkeep
    have hs := startRecognitionSafely_speaking s outcome
    have hs2 := startRecognitionSafely_speaking { s with isStartingRecognition := false } outcome
    cases callback with
    | restartIfActive =>
      simp only [clientStep, timerFired]
      split_ifs
      · exact hs
      · exact ⟨rfl, id⟩
    | restart => exact hs
    | retryStart =>
      simp only [clientStep, timerFired]
      split_ifs
      · exact hs2
      · exact ⟨rfl, id⟩

/-- In every state reachable from the initial one, a set speaking flag comes with an
existing synthesizer. -/
theorem clientRun_speaking (hasRecognition hasSynthesis : Bool) (events : List ClientEvent) :
    (clientRun (initialClientState hasRecognition hasSynthesis) events).isAISpeaking = true →
      (clientRun (initialClientState hasRecognition hasSynthesis) events).synthesis = true := by
  have hgen : ∀ (evs : List ClientEvent) (s : ClientState),
      (s.isAISpeaking = true → s.synthesis = true) →
      (clientRun s evs).isAISpeaking = true → (clientRun s evs).synthesis = true := by
    intro evs
    induction evs with
    | nil => exact fun s h => h
    | cons e rest ih =>
      intro s h
      simp only [clientRun, List.foldl_cons]
      exact ih _ (clientStep_speaking s e h)
  apply hgen
  intro h
  simp [initialClientState] at h

theorem recognitionOnError_network_retry (s : ClientState) (h : s.retryCount < 3) :
    recognitionOnError s (utf16 "network") =
      ({ s with retryCount := s.retryCount + 1,
                networkRetryDelay := min (s.networkRetryDelay * 2) 8000 },
        [ .logMessage (utf16 "🔄 Network error, retrying... (" ++
            utf16 (toString (s.retryCount + 1)) ++ utf16 "/" ++ utf16 (toString maxRetries) ++
            utf16 ")") (utf16 "info"),
          .setTimeout .restartIfActive s.networkRetryDelay ]) := by
  have hne : utf16 "network" ≠ utf16 "aborted" := by decide
  have hle : s.retryCount + 1 ≤ maxRetries := by
    unfold maxRetries
    omega
  simp only [recognitionOnError, hne, if_false, if_true, hle]

theorem stopVoiceRecording_recording (s : ClientState) (h : s.isRecording = true) :
    (stopVoiceRecording s).1.isRecording = false ∧
      (stopVoiceRecording s).1.continuousMode = false ∧
      (stopVoiceRecording s).1.retryCount = 0 ∧
      (stopVoiceRecording s).1.networkRetryDelay = 1000 ∧
      (∀ callback delay, ClientEffect.setTimeout callback delay ∉ (stopVoiceRecording s).2) ∧
      ClientEffect.recognitionStart ∉ (stopVoiceRecording s).2 := by
  simp only [stopVoiceRecording, stopAISpeech, h, if_true]
  split_ifs <;> simp

theorem recognitionOnError_network_stop (s : ClientState) (h : 3 ≤ s.retryCount)
    (hrec : s.isRecording = true) :
    (recognitionOnError s (utf16 "network")).1.isRecording = false ∧
      (recognitionOnError s (utf16 "network")).1.continuousMode = false ∧
      ClientEffect.logMessage (utf16 "❌ Speech recognition failed after multiple retries.")
        (utf16 "error") ∈ (recognitionOnError s (utf16 "network")).2 ∧
      (∀ callback delay,
        ClientEffect.setTimeout callback delay ∉ (recognitionOnError s (utf16 "network")).2) ∧
      ClientEffect.recognitionStart ∉ (recognitionOnError s (utf16 "network")).2 := by
  have hne : utf16 "network" ≠ utf16 "aborted" := by decide
  have hgt : ¬ s.retryCount + 1 ≤ maxRetries := by
    unfold maxRetries
    omega
  have hstop := stopVoiceRecording_recording { s with retryCount := s.retryCount + 1 } hrec
  simp only [recognitionOnError, hne, if_false, if_true, hgt, handleRecognitionFailure]
  refine ⟨hstop.1, hstop.2.1, by simp, ?_, ?_⟩
  · intro callback delay hmem
    simp only [List.mem_cons, List.mem_append, List.mem_singleton, List.mem_nil_iff, or_false]
      at hmem
    rcases hmem with hmem | hmem | hmem
    · exact absurd hmem (by simp)
    · exact hstop.2.2.2.2.1 callback delay hmem
    · exact absurd hmem (by simp)
  · intro hmem
    simp only [List.mem_cons, List.mem_append, List.mem_singleton, List.mem_nil_iff, or_false]
      at hmem
    rcases hmem with hmem | hmem | hmem
    · exact absurd hmem (by simp)
    · exact hstop.2.2.2.2.2 hmem
    · exact absurd hmem (by simp)

theorem startRecognitionSafely_idle (s : ClientState) (h : s.isRecording = false)
    (outcome : StartOutcome) : startRecognitionSafely s outcome = (s, []) := by
  simp [startRecognitionSafely, h]

theorem timerFired_idle (s : ClientState) (h : s.isRecording = false)
    (callback : TimerCallback) (outcome : StartOutcome) :
    (timerFired s callback outcome).2 = [] ∧
      (timerFired s callback outcome).1.isRecording = false := by
  cases callback with
  | restartIfActive => simp [timerFired, h]
  | restart => simp [timerFired, startRecognitionSafely_idle s h, h]
  | retryStart => simp [timerFired, h]

/-! ## Lemmas on the recording fields along events -/

theorem sessionKept_refl (s : ClientState) : sessionKept s s :=
  ⟨rfl, rfl, rfl, rfl, rfl, rfl⟩

theorem stopAISpeech_kept (s : ClientState) : sessionKept s (stopAISpeech s).1 := by
  simp only [stopAISpeech, sessionKept]
  split_ifs <;> simp

theorem stopVoiceRecording_session (s : ClientState) :
    sessionKept s (stopVoiceRecording s).1 ∨ sessionStopped s (stopVoiceRecording s).1 := by
  by_cases h : s.isRecording = true
  · refine Or.inr ?_
    simp only [stopVoiceRecording, stopAISpeech, sessionStopped, h, if_true]
    split_ifs <;> simp
  · refine Or.inl ?_
    simp only [stopVoiceRecording, h]
    exact sessionKept_refl s

theorem handleRecognitionFailure_session (s : ClientState) :
    sessionKept s (handleRecognitionFailure s).1 ∨
      sessionStopped s (handleRecognitionFailure s).1 :=
  stopVoiceRecording_session s

theorem startRecognitionSafely_session (s : ClientState) (outcome : StartOutcome) :
    sessionKept s (startRecognitionSafely s outcome).1 ∨
      sessionStopped s (startRecognitionSafely s outcome).1 := by
  by_cases hg : (s.isStartingRecognition || !s.recognition || !s.isRecording) = true
  · refine Or.inl ?_
    simp only [startRecognitionSafely, hg, if_true]
    exact sessionKept_refl s
  · cases outcome with
    | started =>
      refine Or.inl ?_
      simp only [startRecognitionSafely, hg]
      exact ⟨rfl, rfl, rfl, rfl, rfl, rfl⟩
    | invalidState =>
      refine Or.inl ?_
      simp only [startRecognitionSafely, hg]
      exact ⟨rfl, rfl, rfl, rfl, rfl, rfl⟩
    | failed =>
      have h := handleRecognitionFailure_session { s with isStartingRecognition := false }
      simp only [startRecognitionSafely, hg]
      exact h

theorem timerFired_session (s : ClientState) (callback : TimerCallback)
    (outcome : StartOutcome) :
    sessionKept s (timerFired s callback outcome).1 ∨
      sessionStopped s (timerFired s callback outcome).1 := by
  have hs := startRecognitionSafely_session s outcome
  have hs2 := startRecognitionSafely_session { s with isStartingRecognition := false } outcome
  cases callback with
  | restartIfActive =>
    simp only [timerFired]
    split_ifs
    · exact hs
    · exact Or.inl (sessionKept_refl s)
  | restart => exact hs
  | retryStart =>
    simp only [timerFired]
    split_ifs
    · exact hs2
    · exact Or.inl ⟨rfl, rfl, rfl, rfl, rfl, rfl⟩

theorem updateRecognitionLanguage_kept (s : ClientState) (languageCode : JsString) :
    sessionKept s (updateRecognitionLanguage s languageCode).1 := by
  simp only [updateRecognitionLanguage, sessionKept]
  split_ifs <;> simp

theorem checkInterruption_kept (s : ClientState) (event : ResultEvent) (env : ResultEnv) :
    sessionKept s (checkInterruption s event env).1 := by
  have h := stopAISpeech_kept { s with lastInterruptionTime := env.interruptedAt }
  simp only [checkInterruption]
  split_ifs
  · exact h
  · exact sessionKept_refl s
  · exact sessionKept_refl s

theorem recognitionOnResult_kept (s : ClientState) (event : ResultEvent) (env : ResultEnv) :
    sessionKept s (recognitionOnResult s event env).1 := by
  have hc := checkInterruption_kept s event env
  have hu := updateRecognitionLanguage_kept
    { (checkInterruption s event env).1 with lastSpeechTime := env.spokenAt }
    (detectLanguageFromText event.finalTranscript)
  have hboth : sessionKept s (updateRecognitionLanguage
      { (checkInterruption s event env).1 with lastSpeechTime := env.spokenAt }
      (detectLanguageFromText event.finalTranscript)).1 := by
    obtain ⟨a1, a2, a3, a4, a5, a6⟩ := hc
    obtain ⟨b1, b2, b3, b4, b5, b6⟩ := hu
    exact ⟨b1.trans a1, b2.trans a2, b3.trans a3, b4.trans a4, b5.trans a5, b6.trans a6⟩
  simp only [recognitionOnResult]
  split_ifs
  · exact hc
  · exact hboth
  · exact hboth
  · exact hboth

theorem afterSendMessage_kept (s : ClientState) (outcome : Except JsString JsString)
    (voices : List Voice) : sessionKept s (afterSendMessage s outcome voices).1 := by
  cases outcome with
  | error message => exact sessionKept_refl s
  | ok response =>
    simp only [afterSendMessage]
    split_ifs
    · exact ⟨rfl, rfl, rfl, rfl, rfl, rfl⟩
    · exact sessionKept_refl s
    · exact sessionKept_refl s

theorem recognitionOnEnd_session (s : ClientState) (now : Int) :
    sessionKept s (recognitionOnEnd s now).1 ∨ sessionStopped s (recognitionOnEnd s now).1 := by
  have h := stopVoiceRecording_session s
  simp only [recognitionOnEnd]
  split_ifs
  · exact h
  · exact Or.inl (sessionKept_refl s)
  · exact Or.inl (sessionKept_refl s)

theorem voiceButtonClick_session (s : ClientState) (online : Bool) :
    sessionKept s (voiceButtonClick s online).1 ∨
      sessionStopped s (voiceButtonClick s online).1 := by
  have h := stopVoiceRecording_session s
  simp only [voiceButtonClick]
  split_ifs
  · exact h
  · exact Or.inl (sessionKept_refl s)
  · exact Or.inl (sessionKept_refl s)
  · exact Or.inl (sessionKept_refl s)

theorem afterHealthCheck_kept (s : ClientState) (healthy : Bool) :
    sessionKept s (afterHealthCheck s healthy).1 := by
  simp only [afterHealthCheck]
  split_ifs <;> exact sessionKept_refl s

theorem afterStartChatSession_kept (s : ClientState) (outcome : Except JsString StartReply) :
    sessionKept s (afterStartChatSession s outcome).1 := by
  cases outcome with
  | error message => exact sessionKept_refl s
  | ok result => exact ⟨rfl, rfl, rfl, rfl, rfl, rfl⟩

/-- After the microphone is granted the retry counter and delay are at 0 and 1000,
whether or not the recognizer then starts. -/
theorem microphoneGranted_counters (s : ClientState) (now : Int) (outcome : StartOutcome) :
    (microphoneGranted s now outcome).1.recognition = s.recognition ∧
      (microphoneGranted s now outcome).1.synthesis = s.synthesis ∧
      (microphoneGranted s now outcome).1.retryCount = 0 ∧
      (microphoneGranted s now outcome).1.networkRetryDelay = 1000 := by
  have h := startRecognitionSafely_session
    { s with isRecording := true, continuousMode := true, retryCount := 0,
             networkRetryDelay := 1000, lastSpeechTime := now } outcome
  simp only [microphoneGranted]
  rcases h with ⟨h1, h2, _, _, h5, h6⟩ | ⟨h1, h2, _, _, _, h6, h7⟩
  · exact ⟨h1, h2, h5, h6⟩
  · exact ⟨h1, h2, h6, h7⟩

/-- The recognizer errors other than `network` keep the recording fields or stop the
recording. -/
theorem recognitionOnError_session (s : ClientState) (error : JsString)
    (hne : error ≠ utf16 "network") :
    sessionKept s (recognitionOnError s error).1 ∨
      sessionStopped s (recognitionOnError s error).1 := by
  have hf := handleRecognitionFailure_session s
  simp only [recognitionOnError, hne, if_false]
  split_ifs <;>
    first
      | exact hf
      | exact Or.inl (sessionKept_refl s)

/-- The recognizer error `network`: below the ceiling the counter is incremented and the
delay doubled up to 8000; at the ceiling the recording is stopped, or, when nothing is
recorded, only the counter grows. -/
theorem recognitionOnError_network_counters (s : ClientState) :
    (recognitionOnError s (utf16 "network")).1.recognition = s.recognition ∧
    (recognitionOnError s (utf16 "network")).1.synthesis = s.synthesis ∧
    ((s.retryCount < 3 ∧
        (recognitionOnError s (utf16 "network")).1.isRecording = s.isRecording ∧
        (recognitionOnError s (utf16 "network")).1.continuousMode = s.continuousMode ∧
        (recognitionOnError s (utf16 "network")).1.retryCount = s.retryCount + 1 ∧
        (recognitionOnError s (utf16 "network")).1.networkRetryDelay =
          min (s.networkRetryDelay * 2) 8000) ∨
      (3 ≤ s.retryCount ∧ s.isRecording = true ∧
        (recognitionOnError s (utf16 "network")).1.isRecording = false ∧
        (recognitionOnError s (utf16 "network")).1.continuousMode = false ∧
        (recognitionOnError s (utf16 "network")).1.retryCount = 0 ∧
        (recognitionOnError s (utf16 "network")).1.networkRetryDelay = 1000) ∨
      (3 ≤ s.retryCount ∧ s.isRecording = false ∧
        (recognitionOnError s (utf16 "network")).1.isRecording = false ∧
        (recognitionOnError s (utf16 "network")).1.continuousMode = s.continuousMode ∧
        (recognitionOnError s (utf16 "network")).1.retryCount = s.retryCount + 1 ∧
        (recognitionOnError s (utf16 "network")).1.networkRetryDelay = s.networkRetryDelay)) := by
  by_cases h : s.retryCount < 3
  · rw [recognitionOnError_network_retry s h]
    exact ⟨rfl, rfl, Or.inl ⟨h, rfl, rfl, rfl, rfl⟩⟩
  · have hne : utf16 "network" ≠ utf16 "aborted" := by decide
    have hgt : ¬ s.retryCount + 1 ≤ maxRetries := by
      unfold maxRetries
      omega
    have hf := handleRecognitionFailure_session { s with retryCount := s.retryCount + 1 }
    have heq : (recognitionOnError s (utf16 "network")).1 =
        (handleRecognitionFailure { s with retryCount := s.retryCount + 1 }).1 := by
      simp only [recognitionOnError, hne, if_false, if_true, hgt]
    rw [heq]
    rcases hf with ⟨h1, h2, h3, h4, h5, h6⟩ | ⟨h1, h2, h3, h4, h5, h6, h7⟩
    · by_cases hrec : s.isRecording = true
      · have hstop := stopVoiceRecording_recording { s with retryCount := s.retryCount + 1 } hrec
        exact ⟨h1, h2, Or.inr (Or.inl ⟨by omega, hrec, hstop.1, hstop.2.1, hstop.2.2.1,
          hstop.2.2.2.1⟩)⟩
      · have hrec2 : s.isRecording = false := by simpa using hrec
        exact ⟨h1, h2, Or.inr (Or.inr ⟨by omega, hrec2, h3.trans hrec2, h4, h5, h6⟩)⟩
    · exact ⟨h1, h2, Or.inr (Or.inl ⟨by omega, h3, h4, h5, h6, h7⟩)⟩

theorem clientStep_session (s : ClientState) (e : ClientEvent) :
    sessionKept s (clientStep s e).1 ∨ sessionStopped s (clientStep s e).1 ∨
      (∃ now outcome, e = .microphoneGranted now outcome) ∨
      e = .recognitionError (utf16 "network") := by
  cases e with
  | click online =>
    rcases voiceButtonClick_session s online with h | h
    · exact Or.inl h
    · exact Or.inr (Or.inl h)
  | healthChecked healthy => exact Or.inl (afterHealthCheck_kept s healthy)
  | chatSessionSettled outcome => exact Or.inl (afterStartChatSession_kept s outcome)
  | microphoneGranted now outcome => exact Or.inr (Or.inr (Or.inl ⟨now, outcome, rfl⟩))
  | microphoneDenied name message => exact Or.inl (sessionKept_refl s)
  | result event env => exact Or.inl (recognitionOnResult_kept s event env)
  | messageSettled outcome voices => exact Or.inl (afterSendMessage_kept s outcome voices)
  | utteranceStart => exact Or.inl (sessionKept_refl s)
  | utteranceEnd => exact Or.inl ⟨rfl, rfl, rfl, rfl, rfl, rfl⟩
  | utteranceError => exact Or.inl ⟨rfl, rfl, rfl, rfl, rfl, rfl⟩
  | recognitionError error =>
    by_cases hn : error = utf16 "network"
    · exact Or.inr (Or.inr (Or.inr (by rw [hn])))
    · rcases recognitionOnError_session s error hn with h | h
      · exact Or.inl h
      · exact Or.inr (Or.inl h)
  | recognitionEnd now =>
    rcases recognitionOnEnd_session s now with h | h
    · exact Or.inl h
    · exact Or.inr (Or.inl h)
  | recognitionStart => exact Or.inl ⟨rfl, rfl, rfl, rfl, rfl, rfl⟩
  | timer callback outcome =>
    rcases timerFired_session s callback outcome with h | h
    · exact Or.inl h
    · exact Or.inr (Or.inl h)

theorem delayOfCount_ge_three (n : Nat) (h : 3 ≤ n) : delayOfCount n = 8000 := by
  unfold delayOfCount
  have h8 : 2 ^ 3 ≤ 2 ^ n := Nat.pow_le_pow_right (by norm_num) h
  have : 8000 ≤ 1000 * 2 ^ n := by
    have h9 : (2 : Nat) ^ 3 = 8 := by norm_num
    omega
  exact Nat.min_eq_right this

theorem delayOfCount_mem (n : Nat) :
    delayOfCount n = 1000 ∨ delayOfCount n = 2000 ∨ delayOfCount n = 4000 ∨
      delayOfCount n = 8000 := by
  by_cases h : 3 ≤ n
  · exact Or.inr (Or.inr (Or.inr (delayOfCount_ge_three n h)))
  · have h2 : n = 0 ∨ n = 1 ∨ n = 2 := by omega
    rcases h2 with h2 | h2 | h2 <;> rw [h2] <;> simp [delayOfCount]

/-- One event keeps the stored delay the one that belongs to the retry count. -/
theorem clientStep_delay (s : ClientState) (e : ClientEvent)
    (h : s.networkRetryDelay = delayOfCount s.retryCount) :
    (clientStep s e).1.networkRetryDelay = delayOfCount (clientStep s e).1.retryCount := by
  rcases clientStep_session s e with hk | hs | ⟨now, outcome, he⟩ | he
  · obtain ⟨_, _, _, _, h5, h6⟩ := hk
    rw [h5, h6]
    exact h
  · obtain ⟨_, _, _, _, _, h6, h7⟩ := hs
    rw [h6, h7]
    rfl
  · rw [he]
    have hm := microphoneGranted_counters s now outcome
    simp only [clientStep]
    rw [hm.2.2.1, hm.2.2.2]
    rfl
  · rw [he]
    simp only [clientStep]
    rcases (recognitionOnError_network_counters s).2.2 with
      ⟨hlt, _, _, h4, h5⟩ | ⟨_, _, _, _, h5, h6⟩ | ⟨hge, _, _, _, h5, h6⟩
    · rw [h4, h5, h]
      have h2 : s.retryCount = 0 ∨ s.retryCount = 1 ∨ s.retryCount = 2 := by omega
      rcases h2 with h2 | h2 | h2 <;> rw [h2] <;> simp [delayOfCount]
    · rw [h5, h6]
      rfl
    · rw [h5, h6, h, delayOfCount_ge_three _ hge, delayOfCount_ge_three _ (by omega)]

/-- In every state reached from the initial one the stored delay is the one that
belongs to the retry count. -/
theorem clientRun_delay (hasRecognition hasSynthesis : Bool) (events : List ClientEvent) :
    (clientRun (initialClientState hasRecognition hasSynthesis) events).networkRetryDelay =
      delayOfCount (clientRun (initialClientState hasRecognition hasSynthesis) events).retryCount := by
  have hgen : ∀ (evs : List ClientEvent) (s : ClientState),
      s.networkRetryDelay = delayOfCount s.retryCount →
      (clientRun s evs).networkRetryDelay = delayOfCount (clientRun s evs).retryCount := by
    intro evs
    induction evs with
    | nil => exact fun s h => h
    | cons e rest ih =>
      intro s h
      simp only [clientRun, List.foldl_cons]
      exact ih _ (clientStep_delay s e h)
  exact hgen events _ rfl

/-- One event that can be delivered keeps the recognizer of a recording state. -/
theorem clientStep_recording (s : ClientState) (e : ClientEvent) (hen : e.enabled s = true)
    (h : s.isRecording = true → s.recognition = true) :
    (clientStep s e).1.isRecording = true → (clientStep s e).1.recognition = true := by
  rcases clientStep_session s e with hk | hs | ⟨now, outcome, he⟩ | he
  · obtain ⟨h1, _, h3, _, _, _⟩ := hk
    rw [h1, h3]
    exact h
  · obtain ⟨_, _, _, h4, _, _, _⟩ := hs
    intro hr
    rw [h4] at hr
    exact absurd hr (by simp)
  · rw [he] at hen ⊢
    intro _
    have hm := microphoneGranted_counters s now outcome
    simp only [clientStep]
    rw [hm.1]
    exact hen
  · rw [he] at hen ⊢
    intro _
    simp only [clientStep]
    rw [(recognitionOnError_network_counters s).1]
    exact hen

/-- In every state reached from the initial one by events that can be delivered, a
recording state has a recognizer. -/
theorem clientRun_recording (hasRecognition hasSynthesis : Bool) (events : List ClientEvent)
    (hadm : admissible (initialClientState hasRecognition hasSynthesis) events = true) :
    (clientRun (initialClientState hasRecognition hasSynthesis) events).isRecording = true →
      (clientRun (initialClientState hasRecognition hasSynthesis) events).recognition = true := by
  have hgen : ∀ (evs : List ClientEvent) (s : ClientState),
      (s.isRecording = true → s.recognition = true) → admissible s evs = true →
      (clientRun s evs).isRecording = true → (clientRun s evs).recognition = true := by
    intro evs
    induction evs with
    | nil => exact fun s h _ => h
    | cons e rest ih =>
      intro s h ha
      simp only [admissible, Bool.and_eq_true] at ha
      simp only [clientRun, List.foldl_cons]
      exact ih _ (clientStep_recording s e ha.1 h) ha.2
  apply hgen events _ _ hadm
  intro h
  simp [initialClientState] at h

/-! ## Lemmas on the speaking flag and the utterance handle -/

theorem speechKept_refl (s : ClientState) : speechKept s s := ⟨rfl, rfl⟩

theorem stopAISpeech_speech (s : ClientState) :
    speechKept s (stopAISpeech s).1 ∨ speechCleared (stopAISpeech s).1 := by
  simp only [stopAISpeech]
  split_ifs
  · exact Or.inr ⟨rfl, rfl⟩
  · exact Or.inl (speechKept_refl s)

theorem stopVoiceRecording_speech (s : ClientState) :
    speechKept s (stopVoiceRecording s).1 ∨ speechCleared (stopVoiceRecording s).1 := by
  by_cases h : s.isRecording = true
  · simp only [stopVoiceRecording, stopAISpeech, speechKept, speechCleared, h, if_true]
    split_ifs <;> simp
  · simp only [stopVoiceRecording, h]
    exact Or.inl (speechKept_refl s)

theorem startRecognitionSafely_speech (s : ClientState) (outcome : StartOutcome) :
    speechKept s (startRecognitionSafely s outcome).1 ∨
      speechCleared (startRecognitionSafely s outcome).1 := by
  by_cases hg : (s.isStartingRecognition || !s.recognition || !s.isRecording) = true
  · simp only [startRecognitionSafely, hg, if_true]
    exact Or.inl (speechKept_refl s)
  · cases outcome with
    | started =>
      simp only [startRecognitionSafely, hg]
      exact Or.inl ⟨rfl, rfl⟩
    | invalidState =>
      simp only [startRecognitionSafely, hg]
      exact Or.inl ⟨rfl, rfl⟩
    | failed =>
      have h := stopVoiceRecording_speech { s with isStartingRecognition := false }
      simp only [startRecognitionSafely, hg, handleRecognitionFailure]
      exact h

theorem timerFired_speech (s : ClientState) (callback : TimerCallback)
    (outcome : StartOutcome) :
    speechKept s (timerFired s callback outcome).1 ∨
      speechCleared (timerFired s callback outcome).1 := by
  have hs := startRecognitionSafely_speech s outcome
  have hs2 := startRecognitionSafely_speech { s with isStartingRecognition := false } outcome
  cases callback with
  | restartIfActive =>
    simp only [timerFired]
    split_ifs
    · exact hs
    · exact Or.inl (speechKept_refl s)
  | restart => exact hs
  | retryStart =>
    simp only [timerFired]
    split_ifs
    · exact hs2
    · exact Or.inl ⟨rfl, rfl⟩

theorem checkInterruption_speech (s : ClientState) (event : ResultEvent) (env : ResultEnv) :
    speechKept s (checkInterruption s event env).1 ∨
      speechCleared (checkInterruption s event env).1 := by
  have h := stopAISpeech_speech { s with lastInterruptionTime := env.interruptedAt }
  simp only [checkInterruption]
  split_ifs
  · exact h
  · exact Or.inl (speechKept_refl s)
  · exact Or.inl (speechKept_refl s)

theorem recognitionOnResult_speech (s : ClientState) (event : ResultEvent) (env : ResultEnv) :
    speechKept s (recognitionOnResult s event env).1 ∨
      speechCleared (recognitionOnResult s event env).1 := by
  have ha := recognitionOnResult_after_check s event env
  rcases checkInterruption_speech s event env with ⟨h1, h2⟩ | ⟨h1, h2⟩
  · exact Or.inl ⟨ha.1.trans h1, ha.2.1.trans h2⟩
  · exact Or.inr ⟨ha.1.trans h1, ha.2.1.trans h2⟩

theorem recognitionOnError_speech (s : ClientState) (error : JsString) :
    speechKept s (recognitionOnError s error).1 ∨
      speechCleared (recognitionOnError s error).1 := by
  have hf : ∀ st : ClientState, speechKept st (handleRecognitionFailure st).1 ∨
      speechCleared (handleRecognitionFailure st).1 := stopVoiceRecording_speech
  simp only [recognitionOnError]
  split_ifs <;>
    first
      | exact hf _
      | exact Or.inl ⟨rfl, rfl⟩

/-- One event keeps the utterance handle empty whenever the speaking flag is clear. -/
theorem clientStep_utterance (s : ClientState) (e : ClientEvent)
    (h : s.isAISpeaking = false → s.currentUtterance = none) :
    (clientStep s e).1.isAISpeaking = false → (clientStep s e).1.currentUtterance = none := by
  have hkeep : ∀ s2 : ClientState, speechKept s s2 ∨ speechCleared s2 →
      s2.isAISpeaking = false → s2.currentUtterance = none := by
    intro s2 h2 h3
    rcases h2 with ⟨h4, h5⟩ | ⟨_, h5⟩
    · rw [h5]
      exact h (h4 ▸ h3)
    · exact h5
  cases e with
  | click online =>
    apply hkeep
    have hs := stopVoiceRecording_speech s
    simp only [clientStep, voiceButtonClick]
    split_ifs
    · exact hs
    · exact Or.inl (speechKept_refl s)
    · exact Or.inl (speechKept_refl s)
    · exact Or.inl (speechKept_refl s)
  | healthChecked healthy =>
    apply hkeep
    simp only [clientStep, afterHealthCheck]
    split_ifs <;> exact Or.inl (speechKept_refl s)
  | chatSessionSettled outcome =>
    apply hkeep
    cases outcome <;> exact Or.inl ⟨rfl, rfl⟩
  | microphoneGranted now outcome =>
    apply hkeep
    exact startRecognitionSafely_speech
      { s with isRecording := true, continuousMode := true, retryCount := 0,
               networkRetryDelay := 1000, lastSpeechTime := now } outcome
  | microphoneDenied name message =>
    apply hkeep
    exact Or.inl (speechKept_refl s)
  | result event env =>
    apply hkeep
    exact recognitionOnResult_speech s event env
  | messageSettled outcome voices =>
    cases outcome with
    | error message =>
      apply hkeep
      exact Or.inl (speechKept_refl s)
    | ok response =>
      simp only [clientStep, afterSendMessage]
      split_ifs
      · intro hfalse
        simp at hfalse
      · exact h
      · exact h
  | utteranceStart =>
    apply hkeep
    exact Or.inl (speechKept_refl s)
  | utteranceEnd =>
    apply hkeep
    exact Or.inr ⟨rfl, rfl⟩
  | utteranceError =>
    apply hkeep
    exact Or.inr ⟨rfl, rfl⟩
  | recognitionError error =>
    apply hkeep
    exact recognitionOnError_speech s error
  | recognitionEnd now =>
    apply hkeep
    have hs := stopVoiceRecording_speech s
    simp only [clientStep, recognitionOnEnd]
    split_ifs
    · exact hs
    · exact Or.inl (speechKept_refl s)
    · exact Or.inl (speechKept_refl s)
  | recognitionStart =>
    apply hkeep
    exact Or.inl ⟨rfl, rfl⟩
  | timer callback outcome =>
    apply hkeep
    exact timerFired_speech s callback outcome

/-- In every state reached from the initial one, a clear speaking flag comes with an
empty utterance handle. -/
theorem clientRun_utterance (hasRecognition hasSynthesis : Bool) (events : List ClientEvent) :
    (clientRun (initialClientState hasRecognition hasSynthesis) events).isAISpeaking = false →
      (clientRun (initialClientState hasRecognition hasSynthesis) events).currentUtterance =
        none := by
  have hgen : ∀ (evs : List ClientEvent) (s : ClientState),
      (s.isAISpeaking = false → s.currentUtterance = none) →
      (clientRun s evs).isAISpeaking = false → (clientRun s evs).currentUtterance = none := by
    intro evs
    induction evs with
    | nil => exact fun s h => h
    | cons e rest ih =>
      intro s h
      simp only [clientRun, List.foldl_cons]
      exact ih _ (clientStep_utterance s e h)
  apply hgen
  intro _
  rfl

/-- A stop of a recording state in which a set speaking flag comes with a synthesizer and
a clear one with an empty utterance handle: nothing is spoken afterwards, the recognizer is
stopped where it exists, and a synthesis in progress is cancelled. -/
theorem stopVoiceRecording_clears (s : ClientState) (hrec : s.isRecording = true)
    (hsyn : s.isAISpeaking = true → s.synthesis = true)
    (hutt : s.isAISpeaking = false → s.currentUtterance = none) :
    (stopVoiceRecording s).1.isAISpeaking = false ∧
      (stopVoiceRecording s).1.currentUtterance = none ∧
      (s.recognition = true → ClientEffect.recognitionStop ∈ (stopVoiceRecording s).2) ∧
      (s.isAISpeaking = true → ClientEffect.synthesisCancel ∈ (stopVoiceRecording s).2) := by
  obtain ⟨sessionId, isConnected, recognition, recognitionLang, synthesis, isRecording,
    retryCount, isStartingRecognition, networkRetryDelay, continuousMode, lastSpeechTime,
    currentUtterance, isAISpeaking, lastInterruptionTime⟩ := s
  simp only at hrec hsyn hutt
  subst hrec
  cases isAISpeaking with
  | true =>
    have h2 : synthesis = true := hsyn rfl
    subst h2
    cases recognition <;> cases isStartingRecognition <;>
      simp [stopVoiceRecording, stopAISpeech]
  | false =>
    have h2 : currentUtterance = none := hutt rfl
    subst h2
    cases recognition <;> cases isStartingRecognition <;>
      simp [stopVoiceRecording, stopAISpeech]

/-- The failure path on a recording state, after any one log line: the recording is
stopped, the counters are back at 0 and 1000, nothing is scheduled and no recognition is
started. -/
theorem handleRecognitionFailure_recording (s : ClientState) (hrec : s.isRecording = true)
    (line : ClientEffect) (hline : ∃ message type, line = .logMessage message type) :
    (handleRecognitionFailure s).1.isRecording = false ∧
      (handleRecognitionFailure s).1.continuousMode = false ∧
      (handleRecognitionFailure s).1.retryCount = 0 ∧
      (handleRecognitionFailure s).1.networkRetryDelay = 1000 ∧
      (∀ callback delay,
        ClientEffect.setTimeout callback delay ∉ line :: (handleRecognitionFailure s).2) ∧
      ClientEffect.recognitionStart ∉ line :: (handleRecognitionFailure s).2 := by
  have hstop := stopVoiceRecording_recording s hrec
  obtain ⟨message, type, hl⟩ := hline
  subst hl
  simp only [handleRecognitionFailure]
  refine ⟨hstop.1, hstop.2.1, hstop.2.2.1, hstop.2.2.2.1, ?_, ?_⟩
  · intro callback delay hmem
    simp only [List.mem_cons, List.mem_append, List.mem_singleton, List.mem_nil_iff, or_false]
      at hmem
    rcases hmem with hmem | hmem | hmem
    · exact absurd hmem (by simp)
    · exact hstop.2.2.2.2.1 callback delay hmem
    · exact absurd hmem (by simp)
  · intro hmem
    simp only [List.mem_cons, List.mem_append, List.mem_singleton, List.mem_nil_iff, or_false]
      at hmem
    rcases hmem with hmem | hmem | hmem
    · exact absurd hmem (by simp)
    · exact hstop.2.2.2.2.2 hmem
    · exact absurd hmem (by simp)

/-- In every state reached from the initial one by events the browser can deliver, if the
controller records (it is listening or speaking), a tap yields
`isRecording = false`, `continuousMode = false`, `retryCount = 0`,
`networkRetryDelay = 1000`, `isAISpeaking = false` and `currentUtterance = null`; the
recognizer is stopped, no restart is scheduled, and `synthesis.cancel()` is called when
the speaking flag is set. -/
theorem voiceButtonClick_stops (hasRecognition hasSynthesis online : Bool)
    (events : List ClientEvent)
    (hadm : admissible (initialClientState hasRecognition hasSynthesis) events = true)
    (hrec : (clientRun (initialClientState hasRecognition hasSynthesis) events).isRecording =
      true) :
    (voiceButtonClick (clientRun (initialClientState hasRecognition hasSynthesis) events)
      online).1.isRecording = false ∧
    (voiceButtonClick (clientRun (initialClientState hasRecognition hasSynthesis) events)
      online).1.continuousMode = false ∧
    (voiceButtonClick (clientRun (initialClientState hasRecognition hasSynthesis) events)
      online).1.retryCount = 0 ∧
    (voiceButtonClick (clientRun (initialClientState hasRecognition hasSynthesis) events)
      online).1.networkRetryDelay = 1000 ∧
    (voiceButtonClick (clientRun (initialClientState hasRecognition hasSynthesis) events)
      online).1.isAISpeaking = false ∧
    (voiceButtonClick (clientRun (initialClientState hasRecognition hasSynthesis) events)
      online).1.currentUtterance = none ∧
    ClientEffect.recognitionStop ∈
      (voiceButtonClick (clientRun (initialClientState hasRecognition hasSynthesis) events)
        online).2 ∧
    ((clientRun (initialClientState hasRecognition hasSynthesis) events).isAISpeaking = true →
      ClientEffect.synthesisCancel ∈
        (voiceButtonClick (clientRun (initialClientState hasRecognition hasSynthesis) events)
          online).2) ∧
    ∀ callback delay, ClientEffect.setTimeout callback delay ∉
      (voiceButtonClick (clientRun (initialClientState hasRecognition hasSynthesis) events)
        online).2 := by
  have hrecog := clientRun_recording hasRecognition hasSynthesis events hadm hrec
  have hsyn := clientRun_speaking hasRecognition hasSynthesis events
  have hutt := clientRun_utterance hasRecognition hasSynthesis events
  generalize clientRun (initialClientState hasRecognition hasSynthesis) events = s at *
  have hclick : voiceButtonClick s online = stopVoiceRecording s := by
    simp [voiceButtonClick, hrec]
  have hstop := stopVoiceRecording_recording s hrec
  rw [hclick]
  have hclear := stopVoiceRecording_clears s hrec hsyn hutt
  exact ⟨hstop.1, hstop.2.1, hstop.2.2.1, hstop.2.2.2.1, hclear.1, hclear.2.1,
    hclear.2.2.1 hrecog, hclear.2.2.2, hstop.2.2.2.2.1⟩

/-! ## The claims -/

/-- C1, as stated, fails: a request whose `sessionId` is the empty string, which is
never a key of the store, is answered 400 by the missing-fields check, not 404. -/
theorem submitUtterance_empty_sessionId_answers_400 :
    utf16 "Hello" ≠ [] ∧ ([] : JsString) ∉ sampleStore.map Prod.fst ∧
      (submitUtterance samplePlatform sampleMessageEnv
        { sessionId := some [], message := some (utf16 "Hello"), messageType := none }
        sampleStore).response.status = 400 ∧
      (submitUtterance samplePlatform sampleMessageEnv
        { sessionId := some [], message := some (utf16 "Hello"), messageType := none }
        sampleStore).response.status ≠ 404 := by
  refine ⟨by decide, by decide, rfl, by decide⟩

/-- C1 (amended): a message request with a non-empty message and a non-empty
sessionId that is not a key of the session store is answered 404 `Session not found`,
the store is left exactly as it was, and the completion service is not called. -/
theorem submitUtterance_unknown_session (P : Platform) (env : MessageEnv) (store : Store)
    (sessionId message : JsString) (messageType : Option JsString)
    (hid : sessionId ≠ []) (hmsg : message ≠ [])
    (hkey : sessionId ∉ store.map Prod.fst) :
    submitUtterance P env
        { sessionId := some sessionId, message := some message, messageType := messageType }
        store =
      { store := store
        response :=
          { status := 404
            body := .failure (utf16 "Session not found")
              (some (utf16 "Chat session has expired or does not exist")) none none }
        calls := [] } := by
  have hget : Store.get store sessionId = none := (Store.get_eq_none_iff store sessionId).mpr hkey
  have h1 : truthy (some sessionId) = true := by
    cases sessionId with
    | nil => exact absurd rfl hid
    | cons a l => rfl
  have h2 : truthy (some message) = true := by
    cases message with
    | nil => exact absurd rfl hmsg
    | cons a l => rfl
  simp [submitUtterance, h1, h2, hget]

/-- Witness of C1 (amended): the unknown id `nope` on the sample store. -/
theorem submitUtterance_unknown_session_witness :
    submitUtterance samplePlatform sampleMessageEnv
        { sessionId := some (utf16 "nope"), message := some (utf16 "Hello"),
          messageType := none }
        sampleStore =
      { store := sampleStore
        response :=
          { status := 404
            body := .failure (utf16 "Session not found")
              (some (utf16 "Chat session has expired or does not exist")) none none }
        calls := [] } :=
  submitUtterance_unknown_session samplePlatform sampleMessageEnv sampleStore
    (utf16 "nope") (utf16 "Hello") none (by decide) (by decide) (by decide)

/-- C2, as stated, fails: when the detector answers `ita`, `detectLanguage`
returns `ita`, which is outside the supported set, and not `en`. -/
theorem detectLanguage_ita_not_supported :
    detectLanguage (fun _ => .ok (utf16 "ita")) (utf16 "Ciao, come stai?") = .ok (utf16 "ita") ∧
      utf16 "ita" ∉ languageSupport ∧ utf16 "ita" ≠ utf16 "en" := by
  refine ⟨rfl, by decide, by decide⟩

/-- C2 (amended): `detectLanguage` always returns a tag; it is `en` when the detector
throws or answers `und`, the mapped supported tag for the eight mapped codes, and any
other detected code unchanged; the `languageCode` the message handler derives from the
tag is always in the supported set. -/
theorem detectLanguage_result (franc : JsString → Except JsError JsString) (text : JsString) :
    ∃ tag, detectLanguage franc text = .ok tag ∧
      languageCodeOf tag ∈ languageSupport ∧
      (match franc text with
        | .error _ => tag = utf16 "en"
        | .ok detected =>
          match lookup languageMap detected with
          | some mapped => tag = mapped ∧ mapped ∈ languageSupport
          | none => tag = if detected = utf16 "und" then utf16 "en" else detected) := by
  cases h : franc text with
  | error e =>
    exact ⟨utf16 "en", by simp [detectLanguage, h, Except.tryCatch, bind, Except.bind, pure, Except.pure],
      languageCodeOf_mem _, rfl⟩
  | ok detected =>
    cases hl : lookup languageMap detected with
    | none =>
      by_cases hu : detected = utf16 "und"
      · refine ⟨utf16 "en", ?_, languageCodeOf_mem _, ?_⟩
        · simp only [detectLanguage, h, hl, Except.tryCatch, bind, Except.bind, pure, Except.pure,
            Option.getD_none]
          simp [hu]
        · show (match lookup languageMap detected with
            | some mapped => utf16 "en" = mapped ∧ mapped ∈ languageSupport
            | none => utf16 "en" = if detected = utf16 "und" then utf16 "en" else detected)
          rw [hl]
          simp only [hu, if_true]
      · refine ⟨detected, ?_, languageCodeOf_mem _, ?_⟩
        · simp only [detectLanguage, h, hl, Except.tryCatch, bind, Except.bind, pure, Except.pure,
            Option.getD_none]
          simp [hu]
        · show (match lookup languageMap detected with
            | some mapped => detected = mapped ∧ mapped ∈ languageSupport
            | none => detected = if detected = utf16 "und" then utf16 "en" else detected)
          rw [hl]
          simp only [hu, if_false]
    | some mapped =>
      have hv := languageMap_values detected mapped hl
      refine ⟨mapped, ?_, languageCodeOf_mem _, ?_⟩
      · simp only [detectLanguage, h, hl, Except.tryCatch, bind, Except.bind, pure, Except.pure,
          Option.getD_some]
        simp [hv.2]
      · show (match lookup languageMap detected with
          | some mapped' => mapped = mapped' ∧ mapped' ∈ languageSupport
          | none => mapped = if detected = utf16 "und" then utf16 "en" else detected)
        rw [hl]
        exact ⟨rfl, hv.1⟩

/-- C3: `detectLanguage` never throws, and it returns `en` whenever the detector throws
or answers the undetermined code `und`. -/
theorem detectLanguage_never_throws (franc : JsString → Except JsError JsString)
    (text : JsString) :
    (∃ tag, detectLanguage franc text = .ok tag) ∧
      ((∃ e, franc text = .error e) → detectLanguage franc text = .ok (utf16 "en")) ∧
      (franc text = .ok (utf16 "und") → detectLanguage franc text = .ok (utf16 "en")) := by
  refine ⟨detectLanguage_ok franc text, ?_, ?_⟩
  · rintro ⟨e, he⟩
    simp [detectLanguage, he, Except.tryCatch, bind, Except.bind, pure, Except.pure]
  · intro hu
    have hl : lookup languageMap (utf16 "und") = none := by decide
    simp [detectLanguage, hu, hl, Except.tryCatch, bind, Except.bind, pure, Except.pure]

/-- Witness of C3: a detector that throws, and a detector that answers `und`. -/
theorem detectLanguage_never_throws_witness :
    detectLanguage (fun _ => .error ⟨none, utf16 "boom", none⟩) (utf16 "Hello") = .ok (utf16 "en") ∧
      detectLanguage (fun _ => .ok (utf16 "und")) (utf16 "Hi") = .ok (utf16 "en") :=
  ⟨(detectLanguage_never_throws (fun _ => .error ⟨none, utf16 "boom", none⟩) (utf16 "Hello")).2.1
      ⟨_, rfl⟩,
    (detectLanguage_never_throws (fun _ => .ok (utf16 "und")) (utf16 "Hi")).2.2 rfl⟩

set_option maxRecDepth 8000 in
/-- C4, as stated, fails: on the session `s1` freshly created by a start request, two
message requests that both succeed, the second received while the first awaits its
completion call, are both answered 200 and leave a history of 2 + 2 * 2 entries whose
roles are user, model, user, user, model, model: not one user entry and one assistant
entry per turn, in that order. -/
theorem overlapping_turns_reorder_history :
    Store.get sampleStore (utf16 "s1") = some freshSession ∧
      deliverable 0 overlappingEvents = true ∧
      (sessionReplies samplePlatform freshSession overlappingEvents).map
          (fun r => r.status) = [200, 200] ∧
      (sessionRun samplePlatform freshSession overlappingEvents).chatSession.history.map
          Content.role =
        [Role.user, Role.model, Role.user, Role.user, Role.model, Role.model] ∧
      (sessionRun samplePlatform freshSession overlappingEvents).chatSession.history.map
          Content.role ≠
        [Role.user, Role.model] ++ (List.replicate 2 [Role.user, Role.model]).flatten := by
  refine ⟨rfl, rfl, rfl, rfl, by decide⟩

/-- C4 (amended): for every session freshly created by a start request and every N, after
N message requests on it that all succeed, under every order in which the requests are
received and their completion calls settle, the history has exactly 2 + 2N entries, N + 1
of them user entries and N + 1 assistant entries; and when the requests are handled one
after the other (each is answered before the next is received), each is answered 200 and
the history is the two seed entries followed, per turn and in order, by its user entry and
its assistant entry. -/
theorem history_after_successful_turns (cfg : Config) (P : Platform) (env : StartEnv)
    (bodySessionId : Option JsString) (store : Store) (turns : List Turn)
    (hstart : env.primaryFails = false ∨ env.fallbackFails = false) :
    ∃ fresh,
      Store.get (startTurn cfg env bodySessionId store).1 (startSessionId env bodySessionId) =
        some fresh ∧
      (∀ events : List SessionEvent,
        events.countP SessionEvent.isReceived = turns.length →
        events.countP SessionEvent.isReply = turns.length →
        (sessionRun P fresh events).chatSession.history.length = 2 + 2 * turns.length ∧
        countRole .user (sessionRun P fresh events).chatSession.history = turns.length + 1 ∧
        countRole .model (sessionRun P fresh events).chatSession.history = turns.length + 1) ∧
      serialized (turnEvents turns) = true ∧
      (turnEvents turns).countP SessionEvent.isReceived = turns.length ∧
      (turnEvents turns).countP SessionEvent.isReply = turns.length ∧
      (sessionRun P fresh (turnEvents turns)).chatSession.history =
        seedHistory env ++ turnEntries P 0 turns ∧
      (sessionRun P fresh (turnEvents turns)).chatSession.history.map Content.role =
        [Role.user, Role.model] ++ (List.replicate turns.length [Role.user, Role.model]).flatten ∧
      (sessionReplies P fresh (turnEvents turns)).length = turns.length ∧
      ∀ r ∈ sessionReplies P fresh (turnEvents turns), r.status = 200 := by
  obtain ⟨fresh, h1, h2, h3⟩ := startTurn_stores cfg env bodySessionId store hstart
  have hseed := balanced_seed env
  have hcount : ∀ (role : Role) (l : List Content),
      countRole role l = (l.map Content.role).countP (fun r => decide (r = role)) := by
    intro role l
    simp [countRole, List.countP_map, Function.comp_def]
  have hu : countRole .user fresh.chatSession.history = 1 := by
    rw [h2, hcount, (seedHistory_roles env).1]
    decide
  have hm : countRole .model fresh.chatSession.history = 1 := by
    rw [h2, hcount, (seedHistory_roles env).1]
    decide
  have hl : fresh.chatSession.history.length = 2 := by
    rw [h2, (seedHistory_roles env).2]
  have hturn := sessionRun_turnEvents P turns fresh
  have hcounts : (turnEvents turns).countP SessionEvent.isReceived = turns.length ∧
      (turnEvents turns).countP SessionEvent.isReply = turns.length := by
    clear hturn
    induction turns with
    | nil => exact ⟨rfl, rfl⟩
    | cons t ts ih =>
      simp only [turnEvents, List.countP_cons, SessionEvent.isReceived, SessionEvent.isReply,
        List.length_cons, ih.1, ih.2]
      simp
  rw [h3, h2] at hturn
  refine ⟨fresh, ?_, ?_, (serialized_turnEvents turns).1, hcounts.1, hcounts.2, hturn.1, ?_,
    hturn.2.1, hturn.2.2⟩
  · rw [h1]
    exact Store.get_set_self store _ fresh
  · intro events hr hs
    obtain ⟨c1, c2, c3⟩ := sessionRun_counts P events fresh
    rw [hu, hr] at c1
    rw [hm, hs] at c2
    rw [hl, hr, hs] at c3
    exact ⟨by omega, by omega, by omega⟩
  · rw [hturn.1, List.map_append, (seedHistory_roles env).1, turnEntries_roles]

set_option maxRecDepth 8000 in
/-- Witness of C4 (amended): on the session `s1` started on an empty store, two turns
handled one after the other, and the two overlapping requests of the worked example. -/
theorem history_after_successful_turns_witness :
    ∃ fresh,
      Store.get (startTurn (config none) sampleStartEnv (some (utf16 "s1")) []).1
        (startSessionId sampleStartEnv (some (utf16 "s1"))) = some fresh ∧
      (sessionRun samplePlatform fresh overlappingEvents).chatSession.history.length =
        2 + 2 * sampleTurns.length ∧
      (sessionRun samplePlatform fresh (turnEvents sampleTurns)).chatSession.history =
        seedHistory sampleStartEnv ++ turnEntries samplePlatform 0 sampleTurns ∧
      (sessionRun samplePlatform fresh (turnEvents sampleTurns)).chatSession.history.map
          Content.role =
        [Role.user, Role.model] ++
          (List.replicate sampleTurns.length [Role.user, Role.model]).flatten ∧
      (sessionReplies samplePlatform fresh (turnEvents sampleTurns)).length =
        sampleTurns.length :=
  have ⟨fresh, h1, h2, _, _, _, h6, h7, h8, _⟩ :=
    history_after_successful_turns (config none) samplePlatform sampleStartEnv
      (some (utf16 "s1")) [] sampleTurns (Or.inl rfl)
  ⟨fresh, h1, (h2 overlappingEvents rfl rfl).1, h6, h7, h8⟩

set_option maxRecDepth 8000 in
/-- C5, as stated, fails: on the freshly created session `s1`, a request whose completion
call fails followed by a request whose call replies leaves the roles user, model, user,
user, model, with two adjacent user entries; and two requests that overlap and both
succeed leave the roles user, model, user, user, model, model, with two adjacent user
entries and two adjacent model entries. -/
theorem history_adjacent_user_entries_after_failure :
    Store.get sampleStore (utf16 "s1") = some freshSession ∧
      serialized failThenReplyEvents = true ∧
      (sessionRun samplePlatform freshSession failThenReplyEvents).chatSession.history.map
          Content.role =
        [Role.user, Role.model, Role.user, Role.user, Role.model] ∧
      ¬ alternates
        (sessionRun samplePlatform freshSession failThenReplyEvents).chatSession.history ∧
      deliverable 0 overlappingEvents = true ∧
      (sessionRun samplePlatform freshSession overlappingEvents).chatSession.history.map
          Content.role =
        [Role.user, Role.model, Role.user, Role.user, Role.model, Role.model] ∧
      ¬ alternates
        (sessionRun samplePlatform freshSession overlappingEvents).chatSession.history ∧
      ¬ noAdjacentModel
        (sessionRun samplePlatform freshSession overlappingEvents).chatSession.history := by
  have hroles1 : (sessionRun samplePlatform freshSession
      failThenReplyEvents).chatSession.history.map Content.role =
      [Role.user, Role.model, Role.user, Role.user, Role.model] := rfl
  have hroles2 : (sessionRun samplePlatform freshSession
      overlappingEvents).chatSession.history.map Content.role =
      [Role.user, Role.model, Role.user, Role.user, Role.model, Role.model] := rfl
  refine ⟨rfl, rfl, hroles1, ?_, rfl, hroles2, ?_, ?_⟩
  · intro halt
    have hmap : List.Chain' (fun a b : Role => a ≠ b)
        ((sessionRun samplePlatform freshSession
          failThenReplyEvents).chatSession.history.map Content.role) := by
      rw [List.chain'_map]
      exact halt
    rw [hroles1] at hmap
    simp at hmap
  · intro halt
    have hmap : List.Chain' (fun a b : Role => a ≠ b)
        ((sessionRun samplePlatform freshSession
          overlappingEvents).chatSession.history.map Content.role) := by
      rw [List.chain'_map]
      exact halt
    rw [hroles2] at hmap
    simp at hmap
  · intro hno
    have hmap : List.Chain' (fun a b : Role => ¬ (a = Role.model ∧ b = Role.model))
        ((sessionRun samplePlatform freshSession
          overlappingEvents).chatSession.history.map Content.role) := by
      rw [List.chain'_map]
      exact hno
    rw [hroles2] at hmap
    simp at hmap

/-- C5 (amended): on every session freshly created by a start request, under every order
in which message requests are received and their completion calls settle (replying or
failing), the history starts with a user entry and none of its initial segments has more
assistant entries than user entries. When the requests are handled one after the other, no
two adjacent entries are both assistant entries; when, in addition, every completion call
replied, the history strictly alternates roles. -/
theorem history_roles_reachable (P : Platform) (env : StartEnv) (session : Session)
    (events : List SessionEvent)
    (hfresh : session.chatSession.history = seedHistory env)
    (hdel : deliverable 0 events = true) :
    startsWithUser (sessionRun P session events).chatSession.history ∧
      (∀ k, countRole .model ((sessionRun P session events).chatSession.history.take k) ≤
        countRole .user ((sessionRun P session events).chatSession.history.take k)) ∧
      (serialized events = true →
        noAdjacentModel (sessionRun P session events).chatSession.history) ∧
      (serialized events = true → (∀ e ∈ events, e.completionReplies) →
        alternates (sessionRun P session events).chatSession.history) := by
  have hb : balanced 0 session.chatSession.history := by
    rw [hfresh]
    exact balanced_seed env
  obtain ⟨p, hp⟩ := sessionRun_balanced P events session 0 hdel hb
  refine ⟨hp.1, hp.2.1, ?_, ?_⟩
  · intro hser
    exact (sessionRun_serialized P false events.length events session (Nat.le_refl _) hser
      (by rw [hfresh]; exact historyShape_seed false env) (by simp)).2.1
  · intro hser hall
    exact (sessionRun_serialized P true events.length events session (Nat.le_refl _) hser
      (by rw [hfresh]; exact historyShape_seed true env) (fun _ => hall)).2.2 rfl

set_option maxRecDepth 8000 in
/-- Witness of C5 (amended): the two overlapping requests of the worked example on the
freshly created session `s1`. -/
theorem history_roles_reachable_witness :
    freshSession.chatSession.history = seedHistory sampleStartEnv ∧
      deliverable 0 overlappingEvents = true ∧
      startsWithUser
        (sessionRun samplePlatform freshSession overlappingEvents).chatSession.history ∧
      ∀ k, countRole .model
          ((sessionRun samplePlatform freshSession overlappingEvents).chatSession.history.take k) ≤
        countRole .user
          ((sessionRun samplePlatform freshSession overlappingEvents).chatSession.history.take k) :=
  have h := history_roles_reachable samplePlatform sampleStartEnv freshSession
    overlappingEvents rfl rfl
  ⟨rfl, rfl, h.1, h.2.1⟩

set_option maxRecDepth 8000 in
/-- C6, as stated, fails: a reply of 201 code units is answered with its first 200
code units followed by `...`, a response text of length 203. -/
theorem submitUtterance_response_longer_than_200 :
    (submitUtterance samplePlatform
        { now := 1700000001000, completion := .ok (List.replicate 201 97),
          respondedAt := 1700000001500 }
        { sessionId := some (utf16 "s1"), message := some (utf16 "Hello"), messageType := none }
        sampleStore).response =
      { status := 200
        body := .reply (List.replicate 200 97 ++ utf16 "...") (utf16 "voice")
          (utf16 "gemini-1.5-flash") false 500 } ∧
      (List.replicate 200 97 ++ utf16 "...").length = 203 ∧
      ¬ (List.replicate 200 97 ++ utf16 "...").length ≤ 200 := by
  refine ⟨rfl, rfl, ?_⟩
  have h : (List.replicate 200 97 ++ utf16 "...").length = 203 := rfl
  omega

/-- C6 (amended): whenever a message request is answered with a reply body, its
response text is the completion text itself when that has at most 200 code units, and
otherwise the first 200 code units of the completion text followed by the three-character
marker `...`; so its length is at most 203, and at most 200 before the marker. -/
theorem submitUtterance_response_length (P : Platform) (env : MessageEnv) (body : MessageBody)
    (store : Store) (response messageType model : JsString) (isFallback : Bool)
    (responseTime : Int)
    (hreply : (submitUtterance P env body store).response.body =
      .reply response messageType model isFallback responseTime) :
    ∃ text, env.completion = .ok text ∧
      response.length ≤ 203 ∧
      (text.length ≤ 200 → response = text) ∧
      (200 < text.length → response = text.take 200 ++ utf16 "..." ∧
        (text.take 200).length = 200 ∧ response.length = 203) := by
  rcases submitUtterance_cases P env body store with ⟨_, _, e, d, hb⟩ | ⟨sid, msg, session, hbody, hid, hmsg, hget⟩
  · rw [hb] at hreply
    exact absurd hreply (by simp)
  · rw [hbody] at hreply
    cases hc : env.completion with
    | error error =>
      rw [submitUtterance_failed P env store sid msg _ session error hid hmsg hget hc] at hreply
      obtain ⟨e, d, r, u, hf⟩ := completionFailure_body error
      simp only [hf] at hreply
      exact absurd hreply (by simp)
    | ok text =>
      rw [submitUtterance_ok P env store sid msg _ session text hid hmsg hget hc] at hreply
      simp only [Body.reply.injEq] at hreply
      refine ⟨text, rfl, ?_, ?_, ?_⟩
      · rw [← hreply.1]
        exact finalResponse_length_le text
      · intro hle
        rw [← hreply.1]
        have : ¬ text.length > 200 := by omega
        simp [finalResponse, this]
      · intro hgt
        have h3 : (utf16 "...").length = 3 := rfl
        have htake : (text.take 200).length = 200 := by
          rw [List.length_take]
          omega
        have hr : response = text.take 200 ++ utf16 "..." := by
          rw [← hreply.1]
          simp [finalResponse, hgt]
        refine ⟨hr, htake, ?_⟩
        rw [hr, List.length_append, htake, h3]

set_option maxRecDepth 8000 in
/-- Witness of C6 (amended): the reply of 201 code units on the sample store. -/
theorem submitUtterance_response_length_witness :
    ∃ text, (Except.ok (List.replicate 201 97) : Except JsError JsString) = .ok text ∧
      (List.replicate 200 97 ++ utf16 "...").length ≤ 203 ∧
      (text.length ≤ 200 → List.replicate 200 97 ++ utf16 "..." = text) ∧
      (200 < text.length → List.replicate 200 97 ++ utf16 "..." = text.take 200 ++ utf16 "..." ∧
        (text.take 200).length = 200 ∧ (List.replicate 200 97 ++ utf16 "...").length = 203) :=
  submitUtterance_response_length samplePlatform
    { now := 1700000001000, completion := .ok (List.replicate 201 97),
      respondedAt := 1700000001500 }
    { sessionId := some (utf16 "s1"), message := some (utf16 "Hello"), messageType := none }
    sampleStore (List.replicate 200 97 ++ utf16 "...") (utf16 "voice")
    (utf16 "gemini-1.5-flash") false 500 rfl

/-- C7: when the completion service replies with `text`, of any length, a message request
on a stored session appends to that session's history the shaped user entry and then an
assistant entry holding `text` itself, untruncated, while the response returned to the
client is the truncated `finalResponse text`. -/
theorem submitUtterance_history_untruncated (P : Platform) (env : MessageEnv) (store : Store)
    (sessionId message : JsString) (messageType : Option JsString) (session : Session)
    (text : JsString) (hid : sessionId ≠ []) (hmsg : message ≠ [])
    (hget : Store.get store sessionId = some session) (hc : env.completion = .ok text) :
    ∃ after,
      Store.get (submitUtterance P env
        { sessionId := some sessionId, message := some message, messageType := messageType }
        store).store sessionId = some after ∧
      after.chatSession.history = session.chatSession.history ++
        [userEntry P (session.messageCount + 1) message, { role := .model, text := text }] ∧
      after.chatSession.history.getLast? = some { role := .model, text := text } ∧
      (submitUtterance P env
        { sessionId := some sessionId, message := some message, messageType := messageType }
        store).response =
        { status := 200
          body := .reply (finalResponse text) (messageType.getD (utf16 "voice"))
            session.modelUsed session.isFallback (env.respondedAt - env.now) } := by
  rw [submitUtterance_ok P env store sessionId message messageType session text hid hmsg hget hc]
  refine ⟨_, Store.get_set_self _ _ _, rfl, ?_, rfl⟩
  simp

set_option maxRecDepth 8000 in
/-- Witness of C7: a reply of 201 code units is stored whole on the sample store. -/
theorem submitUtterance_history_untruncated_witness :
    ∃ after,
      Store.get (submitUtterance samplePlatform
        { now := 1700000001000, completion := .ok (List.replicate 201 97),
          respondedAt := 1700000001500 }
        { sessionId := some (utf16 "s1"), message := some (utf16 "Hello"), messageType := none }
        sampleStore).store (utf16 "s1") = some after ∧
      after.chatSession.history = primaryHistory ++
        [userEntry samplePlatform 1 (utf16 "Hello"),
          { role := .model, text := List.replicate 201 97 }] ∧
      after.chatSession.history.getLast? =
        some { role := .model, text := List.replicate 201 97 } ∧
      (submitUtterance samplePlatform
        { now := 1700000001000, completion := .ok (List.replicate 201 97),
          respondedAt := 1700000001500 }
        { sessionId := some (utf16 "s1"), message := some (utf16 "Hello"), messageType := none }
        sampleStore).response =
        { status := 200
          body := .reply (finalResponse (List.replicate 201 97)) (utf16 "voice")
            (utf16 "gemini-1.5-flash") false 500 } :=
  submitUtterance_history_untruncated samplePlatform
    { now := 1700000001000, completion := .ok (List.replicate 201 97),
      respondedAt := 1700000001500 }
    sampleStore (utf16 "s1") (utf16 "Hello") none
    { chatSession := { model := utf16 "gemini-2.0-flash-001", history := primaryHistory }
      modelUsed := utf16 "gemini-1.5-flash"
      isFallback := false
      createdAt := 1700000000000
      lastActivity := 1700000000000
      messageCount := 0 }
    (List.replicate 201 97) (by decide) (by decide) rfl rfl

/-- C8: on every store (a `Map`, so with distinct keys) and at every sweep time `now`,
the sweep removes a stored session if and only if `now - lastActivity > 3600000`: a
session with `now - lastActivity ≤ 3600000` is still stored afterwards, unmodified, a
session with `now - lastActivity > 3600000` is gone, and no session is added. -/
theorem sweepExpired_removes_iff (now : Int) (store : Store) (hwf : Store.WF store)
    (sessionId : JsString) :
    (∀ session, Store.get store sessionId = some session →
      ((Store.get (sweepExpired now store) sessionId = none ↔
          now - session.lastActivity > 3600000) ∧
        (now - session.lastActivity ≤ 3600000 →
          Store.get (sweepExpired now store) sessionId = some session) ∧
        (now - session.lastActivity > 3600000 →
          Store.get (sweepExpired now store) sessionId = none))) ∧
      (Store.get store sessionId = none →
        Store.get (sweepExpired now store) sessionId = none) := by
  have hget : Store.get (sweepExpired now store) sessionId =
      (Store.get store sessionId).bind
        (fun v => if (!decide (v.lastActivity < now - 3600000)) = true then some v else none) := by
    rw [sweepExpired_eq_filter now store hwf]
    exact lookup_filter store _ hwf sessionId
  constructor
  · intro session hs
    rw [hget, hs]
    by_cases hexp : session.lastActivity < now - 3600000
    · have h1 : now - session.lastActivity > 3600000 := by omega
      have h2 : ¬ now - session.lastActivity ≤ 3600000 := by omega
      simp [hexp, h1, h2]
      omega
    · have h1 : ¬ now - session.lastActivity > 3600000 := by omega
      have h2 : now - session.lastActivity ≤ 3600000 := by omega
      simp [hexp, h1, h2]
      omega
  · intro hnone
    rw [hget, hnone]
    rfl

set_option maxRecDepth 8000 in
/-- Witness of C8: swept at 3600001 ms, the session last active at 0 ms is removed and
the session last active at 1 ms, exactly one hour before, is kept unmodified. -/
theorem sweepExpired_removes_iff_witness :
    Store.get (sweepExpired 3600001 twoSessionStore) (utf16 "fresh") = some (sampleSession 1) ∧
      Store.get (sweepExpired 3600001 twoSessionStore) (utf16 "old") = none :=
  ⟨((sweepExpired_removes_iff 3600001 twoSessionStore (by decide) (utf16 "fresh")).1
      (sampleSession 1) rfl).2.1 (by decide),
    ((sweepExpired_removes_iff 3600001 twoSessionStore (by decide) (utf16 "old")).1
      (sampleSession 0) rfl).2.2 (by decide)⟩

/-- C9: the sweep is idempotent: for every store and every time `now`, sweeping twice in
succession at `now` yields the same store as sweeping once. -/
theorem sweepExpired_idempotent (now : Int) (store : Store) :
    sweepExpired now (sweepExpired now store) = sweepExpired now store := by
  rw [sweepExpired_eq_filter_keys now (sweepExpired now store)]
  rw [List.filter_eq_self]
  intro x _
  rw [List.all_eq_true]
  intro e he
  rw [sweepExpired_eq_filter_keys, List.mem_filter, List.all_eq_true] at he
  have hself := he.2 e he.1
  by_cases hexp : e.2.lastActivity < now - 3600000
  · simp [hexp] at hself
  · simp [hexp]

set_option maxRecDepth 8000 in
/-- C10 fails on the code: with the production configuration and a primary session
that is built without failure, the start reply and the echo of a later message reply name
the model `gemini-1.5-flash`, while the session stores, and the completion service is
called with, the configured primary model `gemini-2.0-flash-001`. -/
theorem startTurn_reports_other_model_than_configured :
    (config none).primaryModel = utf16 "gemini-2.0-flash-001" ∧
      (startTurn (config none) sampleStartEnv (some (utf16 "s1")) []).2 =
        { status := 200
          body := .started (utf16 "s1") (utf16 "gemini-1.5-flash") false
            (utf16 "Chat session started successfully") } ∧
      (Store.get sampleStore (utf16 "s1")).map (fun s => s.chatSession.model) =
        some (utf16 "gemini-2.0-flash-001") ∧
      (submitUtterance samplePlatform sampleMessageEnv
        { sessionId := some (utf16 "s1"), message := some (utf16 "Hello"), messageType := none }
        sampleStore).response =
        { status := 200
          body := .reply (utf16 "Hi, I am Rev.") (utf16 "voice") (utf16 "gemini-1.5-flash")
            false 500 } ∧
      (submitUtterance samplePlatform sampleMessageEnv
        { sessionId := some (utf16 "s1"), message := some (utf16 "Hello"), messageType := none }
        sampleStore).calls.map (fun c => c.model) = [utf16 "gemini-2.0-flash-001"] ∧
      utf16 "gemini-1.5-flash" ≠ utf16 "gemini-2.0-flash-001" := by
  refine ⟨rfl, rfl, rfl, rfl, rfl, by decide⟩

set_option maxRecDepth 8000 in
/-- C11, as stated, fails: a start request that supplies the id `s1` of a stored session
with four history entries and message count 1 leaves under `s1` a session with the two
seed entries and message count 0. -/
theorem startTurn_existing_id_resets_session :
    (Store.get storeAfterHello (utf16 "s1")).map
        (fun s => (s.chatSession.history.length, s.messageCount)) = some (4, 1) ∧
      (Store.get (startTurn (config none) sampleStartEnv (some (utf16 "s1")) storeAfterHello).1
        (utf16 "s1")).map (fun s => (s.chatSession.history, s.messageCount)) =
        some (primaryHistory, 0) ∧
      primaryHistory.length = 2 := by
  refine ⟨rfl, rfl, rfl⟩

/-- C11 (amended): a start request with a supplied sessionId that already names a stored
session, and whose session construction does not fail twice, keeps the id and the keys of
the store but replaces the stored session: afterwards the id holds the fresh seed history
and a zero message count, the reply names the same id, and every other session is
unchanged. -/
theorem startTurn_existing_id_replaces (cfg : Config) (env : StartEnv) (store : Store)
    (sessionId : JsString) (old : Session) (hid : sessionId ≠ [])
    (hget : Store.get store sessionId = some old)
    (hok : env.primaryFails = false ∨ env.fallbackFails = false) :
    (∃ fresh,
      Store.get (startTurn cfg env (some sessionId) store).1 sessionId = some fresh ∧
      fresh.chatSession.history = seedHistory env ∧ fresh.messageCount = 0) ∧
    (∃ model isFallback message,
      (startTurn cfg env (some sessionId) store).2 =
        { status := 200, body := .started sessionId model isFallback message }) ∧
    (startTurn cfg env (some sessionId) store).1.map Prod.fst = store.map Prod.fst ∧
    ∀ other, other ≠ sessionId →
      Store.get (startTurn cfg env (some sessionId) store).1 other = Store.get store other := by
  obtain ⟨fresh, h1, h2, h3⟩ := startTurn_stores cfg env (some sessionId) store hok
  have hsid := startSessionId_some env sessionId hid
  rw [hsid] at h1
  have hhas : Store.has store sessionId = true := by simp [Store.has, hget]
  refine ⟨⟨fresh, ?_, h2, h3⟩, ?_, ?_, ?_⟩
  · rw [h1]
    exact Store.get_set_self store sessionId fresh
  · by_cases hp : env.primaryFails = false
    · refine ⟨utf16 "gemini-1.5-flash", false, utf16 "Chat session started successfully", ?_⟩
      simp [startTurn, hp, hsid]
    · have hp2 : env.primaryFails = true := by simpa using hp
      have hf : env.fallbackFails = false := by
        rcases hok with h | h
        · exact absurd h hp
        · exact h
      refine ⟨cfg.fallbackModel, true, utf16 "Chat session started successfully", ?_⟩
      simp [startTurn, hp2, hf, hsid]
  · rw [h1]
    exact Store.keys_set_existing store sessionId fresh hhas
  · intro other hne
    rw [h1]
    exact Store.get_set_ne store sessionId other fresh hne

set_option maxRecDepth 8000 in
/-- Witness of C11 (amended): the start request with id `s1` on the store in which `s1`
has had one exchange. -/
theorem startTurn_existing_id_replaces_witness :
    (∃ fresh,
      Store.get (startTurn (config none) sampleStartEnv (some (utf16 "s1")) storeAfterHello).1
        (utf16 "s1") = some fresh ∧
      fresh.chatSession.history = seedHistory sampleStartEnv ∧ fresh.messageCount = 0) ∧
    (∃ model isFallback message,
      (startTurn (config none) sampleStartEnv (some (utf16 "s1")) storeAfterHello).2 =
        { status := 200, body := .started (utf16 "s1") model isFallback message }) ∧
    (startTurn (config none) sampleStartEnv (some (utf16 "s1")) storeAfterHello).1.map Prod.fst =
      storeAfterHello.map Prod.fst ∧
    ∀ other, other ≠ utf16 "s1" →
      Store.get (startTurn (config none) sampleStartEnv (some (utf16 "s1")) storeAfterHello).1
        other = Store.get storeAfterHello other :=
  startTurn_existing_id_replaces (config none) sampleStartEnv storeAfterHello (utf16 "s1")
    { chatSession :=
        { model := utf16 "gemini-2.0-flash-001"
          history := primaryHistory ++
            [userEntry samplePlatform 1 (utf16 "Hello"),
              { role := .model, text := utf16 "Hi, I am Rev." }] }
      modelUsed := utf16 "gemini-1.5-flash"
      isFallback := false
      createdAt := 1700000000000
      lastActivity := 1700000001000
      messageCount := 1 }
    (by decide) rfl (Or.inl rfl)

/-- C12: a delete request is answered 200 if and only if its id is a key of the store.
After a successful delete the id is absent, every other session is unchanged, and a
following message request with that id (a route parameter, so non-empty) and a non-empty
message is answered 404 without touching the store or calling the completion service.
A delete of an absent id is answered 404 and leaves the store unchanged. -/
theorem endTurn_spec (store : Store) (sessionId : JsString) :
    ((endTurn sessionId store).2.status = 200 ↔ sessionId ∈ store.map Prod.fst) ∧
    (sessionId ∈ store.map Prod.fst →
      (endTurn sessionId store).2 =
        { status := 200, body := .ended (utf16 "Session ended successfully") } ∧
      sessionId ∉ (endTurn sessionId store).1.map Prod.fst ∧
      (∀ other, other ≠ sessionId →
        Store.get (endTurn sessionId store).1 other = Store.get store other) ∧
      ∀ (P : Platform) (env : MessageEnv) (message : JsString) (messageType : Option JsString),
        sessionId ≠ [] → message ≠ [] →
        submitUtterance P env
            { sessionId := some sessionId, message := some message, messageType := messageType }
            (endTurn sessionId store).1 =
          { store := (endTurn sessionId store).1
            response :=
              { status := 404
                body := .failure (utf16 "Session not found")
                  (some (utf16 "Chat session has expired or does not exist")) none none }
            calls := [] }) ∧
    (sessionId ∉ store.map Prod.fst →
      endTurn sessionId store =
        (store, { status := 404, body := .failure (utf16 "Session not found") none none none })) := by
  have hhas : Store.has store sessionId = true ↔ sessionId ∈ store.map Prod.fst := by
    unfold Store.has
    rw [Option.isSome_iff_ne_none, ne_eq, Store.get_eq_none_iff, not_not]
  by_cases hin : sessionId ∈ store.map Prod.fst
  · have hh := hhas.mpr hin
    have hend : endTurn sessionId store =
        (Store.delete store sessionId,
          { status := 200, body := .ended (utf16 "Session ended successfully") }) := by
      simp [endTurn, hh]
    have habsent : sessionId ∉ (Store.delete store sessionId).map Prod.fst :=
      (Store.get_eq_none_iff _ _).mp (Store.get_delete_self store sessionId)
    rw [hend]
    refine ⟨⟨fun _ => hin, fun _ => rfl⟩, fun _ => ⟨rfl, habsent, ?_, ?_⟩, fun h => absurd hin h⟩
    · intro other hne
      exact Store.get_delete_ne store sessionId other hne
    · intro P env message messageType hid hmsg
      have hnone := Store.get_delete_self store sessionId
      simp [submitUtterance, truthy_some_of_ne_nil _ hid, truthy_some_of_ne_nil _ hmsg, hnone]
  · have hh : Store.has store sessionId = false := by
      cases h : Store.has store sessionId with
      | false => rfl
      | true => exact absurd (hhas.mp h) hin
    have hend : endTurn sessionId store =
        (store, { status := 404, body := .failure (utf16 "Session not found") none none none }) := by
      simp [endTurn, hh]
    rw [hend]
    refine ⟨⟨fun h => ?_, fun h => absurd h hin⟩, fun h => absurd h hin, fun _ => rfl⟩
    simp at h

set_option maxRecDepth 8000 in
/-- Witness of C12: deleting `s1` from the sample store, then a message on `s1`; and
deleting the absent id `nope`. -/
theorem endTurn_spec_witness :
    (endTurn (utf16 "s1") sampleStore).2 =
        { status := 200, body := .ended (utf16 "Session ended successfully") } ∧
      utf16 "s1" ∉ (endTurn (utf16 "s1") sampleStore).1.map Prod.fst ∧
      submitUtterance samplePlatform sampleMessageEnv
          { sessionId := some (utf16 "s1"), message := some (utf16 "Hello"), messageType := none }
          (endTurn (utf16 "s1") sampleStore).1 =
        { store := (endTurn (utf16 "s1") sampleStore).1
          response :=
            { status := 404
              body := .failure (utf16 "Session not found")
                (some (utf16 "Chat session has expired or does not exist")) none none }
          calls := [] } ∧
      endTurn (utf16 "nope") sampleStore =
        (sampleStore,
          { status := 404, body := .failure (utf16 "Session not found") none none none }) :=
  have h := (endTurn_spec sampleStore (utf16 "s1")).2.1 (by decide)
  ⟨h.1, h.2.1,
    h.2.2.2 samplePlatform sampleMessageEnv (utf16 "Hello") none (by decide) (by decide),
    (endTurn_spec sampleStore (utf16 "nope")).2.2 (by decide)⟩

/-- C13: when the completion call of a message request on a stored session fails, the
reply is 429 exactly when the error has status 429 or its message contains `quota` or
`Quota`, and 500 otherwise; the completion service was called once for the request and is
not called again. -/
theorem submitUtterance_failure_classification (P : Platform) (env : MessageEnv)
    (store : Store) (sessionId message : JsString) (messageType : Option JsString)
    (session : Session) (error : JsError) (hid : sessionId ≠ []) (hmsg : message ≠ [])
    (hget : Store.get store sessionId = some session) (hc : env.completion = .error error) :
    ((submitUtterance P env
        { sessionId := some sessionId, message := some message, messageType := messageType }
        store).response.status = 429 ↔
      (error.status = some 429 ∨ includes error.message (utf16 "quota") = true ∨
        includes error.message (utf16 "Quota") = true)) ∧
    ((submitUtterance P env
        { sessionId := some sessionId, message := some message, messageType := messageType }
        store).response.status = 500 ↔
      ¬ (error.status = some 429 ∨ includes error.message (utf16 "quota") = true ∨
        includes error.message (utf16 "Quota") = true)) ∧
    (submitUtterance P env
        { sessionId := some sessionId, message := some message, messageType := messageType }
        store).calls.length = 1 := by
  rw [submitUtterance_failed P env store sessionId message messageType session error hid hmsg
    hget hc]
  simp only [List.length_singleton, and_true]
  unfold completionFailure
  by_cases h1 : error.status = some 429
  · simp [h1]
  · by_cases h2 : includes error.message (utf16 "quota") = true
    · simp [h1, h2]
    · by_cases h3 : includes error.message (utf16 "Quota") = true
      · simp [h1, h3]
      · simp [h1, h2, h3]

set_option maxRecDepth 8000 in
/-- Witness of C13: an upstream 429 on the sample store is answered 429, and an upstream
503 without quota wording is answered 500. -/
theorem submitUtterance_failure_classification_witness :
    (submitUtterance samplePlatform rateLimitedMessageEnv
        { sessionId := some (utf16 "s1"), message := some (utf16 "Hello"), messageType := none }
        sampleStore).response.status = 429 ∧
      (submitUtterance samplePlatform failingMessageEnv
        { sessionId := some (utf16 "s1"), message := some (utf16 "Hello"), messageType := none }
        sampleStore).response.status = 500 ∧
      (submitUtterance samplePlatform failingMessageEnv
        { sessionId := some (utf16 "s1"), message := some (utf16 "Hello"), messageType := none }
        sampleStore).calls.length = 1 :=
  have h1 := submitUtterance_failure_classification samplePlatform rateLimitedMessageEnv
    sampleStore (utf16 "s1") (utf16 "Hello") none { sampleSession 1700000000000 with createdAt := 1700000000000 }
    { status := some 429, message := utf16 "Too Many Requests", errorDetails := none }
    (by decide) (by decide) rfl rfl
  have h2 := submitUtterance_failure_classification samplePlatform failingMessageEnv
    sampleStore (utf16 "s1") (utf16 "Hello") none { sampleSession 1700000000000 with createdAt := 1700000000000 }
    { status := some 503, message := utf16 "unavailable", errorDetails := none }
    (by decide) (by decide) rfl rfl
  ⟨h1.1.mpr (Or.inl rfl), h2.2.1.mpr (by decide), h2.2.2⟩

/-- C14: a message request that lacks a sessionId or a message (absent, or the empty
string) is answered 400 `Missing required fields`, with the store unchanged and no
completion call, whatever the store holds: the check comes before the session lookup. -/
theorem submitUtterance_missing_fields (P : Platform) (env : MessageEnv) (body : MessageBody)
    (store : Store)
    (h : body.sessionId = none ∨ body.sessionId = some [] ∨
      body.message = none ∨ body.message = some []) :
    submitUtterance P env body store =
      { store := store
        response :=
          { status := 400
            body := .failure (utf16 "Missing required fields")
              (some (utf16 "sessionId and message are required")) none none }
        calls := [] } := by
  have ht : (!truthy body.sessionId || !truthy body.message) = true := by
    rcases h with h | h | h | h <;> simp [h, truthy]
  simp [submitUtterance, ht]

/-- Witness of C14: an empty message on the stored session `s1`, and an absent message
on an id that is not stored, are both answered 400. -/
theorem submitUtterance_missing_fields_witness :
    submitUtterance samplePlatform sampleMessageEnv
        { sessionId := some (utf16 "s1"), message := some [], messageType := none }
        sampleStore =
      { store := sampleStore
        response :=
          { status := 400
            body := .failure (utf16 "Missing required fields")
              (some (utf16 "sessionId and message are required")) none none }
        calls := [] } ∧
    submitUtterance samplePlatform sampleMessageEnv
        { sessionId := some (utf16 "nope"), message := none, messageType := none }
        sampleStore =
      { store := sampleStore
        response :=
          { status := 400
            body := .failure (utf16 "Missing required fields")
              (some (utf16 "sessionId and message are required")) none none }
        calls := [] } :=
  ⟨submitUtterance_missing_fields samplePlatform sampleMessageEnv
      { sessionId := some (utf16 "s1"), message := some [], messageType := none }
      sampleStore (Or.inr (Or.inr (Or.inr rfl))),
    submitUtterance_missing_fields samplePlatform sampleMessageEnv
      { sessionId := some (utf16 "nope"), message := none, messageType := none }
      sampleStore (Or.inr (Or.inr (Or.inl rfl)))⟩

/-- C15: for every message and message count, the branch the handler takes equals the
reference classification (first-message when the count after the increment is 1; else
gratitude on a gratitude keyword; else farewell on a farewell keyword; else other), and
the prompt built is the one of that class. The keywords are matched in the lower-cased
message, so two messages with the same lower-casing are classified alike, `THANK YOU` and
`Thank you for the information!` are gratitude, and a gratitude keyword wins over any
farewell keyword. -/
theorem classifyUtterance_matches_reference (toLowerCase : JsString → JsString)
    (messageCount : Nat) (message : JsString) :
    classifyUtterance toLowerCase messageCount message =
        referenceClassification toLowerCase messageCount message ∧
      optimizePrompt toLowerCase messageCount message =
        promptFor (referenceClassification toLowerCase messageCount message) message ∧
      (messageCount = 1 → classifyUtterance toLowerCase messageCount message = .firstMessage) ∧
      (∀ other, toLowerCase other = toLowerCase message →
        classifyUtterance toLowerCase messageCount other =
          classifyUtterance toLowerCase messageCount message) ∧
      (messageCount ≠ 1 →
        (∃ w ∈ referenceGratitudeWords, includes (toLowerCase message) w = true) →
        classifyUtterance toLowerCase messageCount message = .gratitude) ∧
      (messageCount ≠ 1 → toLowerCase (utf16 "THANK YOU") = utf16 "thank you" →
        classifyUtterance toLowerCase messageCount (utf16 "THANK YOU") = .gratitude) ∧
      (messageCount ≠ 1 →
        toLowerCase (utf16 "Thank you for the information!") =
          utf16 "thank you for the information!" →
        classifyUtterance toLowerCase messageCount (utf16 "Thank you for the information!") =
          .gratitude) := by
  have hgrat : ∀ m : JsString, messageCount ≠ 1 →
      (∃ w ∈ referenceGratitudeWords, includes (toLowerCase m) w = true) →
      classifyUtterance toLowerCase messageCount m = .gratitude := by
    intro m hc hw
    unfold classifyUtterance
    rw [if_neg hc, if_pos ((gratitudeWords_any _).mpr hw)]
  refine ⟨classifyUtterance_eq_reference _ _ _, ?_, ?_, ?_, hgrat message, ?_, ?_⟩
  · rw [← classifyUtterance_eq_reference]
    exact optimizePrompt_eq_promptFor _ _ _
  · intro h1
    simp [classifyUtterance, h1]
  · intro other ho
    simp only [classifyUtterance, ho]
  · intro hc hl
    apply hgrat _ hc
    rw [hl]
    exact ⟨utf16 "thank", by simp [referenceGratitudeWords], rfl⟩
  · intro hc hl
    apply hgrat _ hc
    rw [hl]
    exact ⟨utf16 "thank", by simp [referenceGratitudeWords], rfl⟩

/-- Witness of C15: with a `toLowerCase` that lowers A-Z, as the third message of a
session `THANK YOU` and `Thank you for the information!` are gratitude, and so is a
message with both a gratitude and a farewell keyword. -/
theorem classifyUtterance_matches_reference_witness :
    classifyUtterance samplePlatform.toLowerCase 3 (utf16 "THANK YOU") = .gratitude ∧
      classifyUtterance samplePlatform.toLowerCase 3 (utf16 "Thank you for the information!") =
        .gratitude ∧
      classifyUtterance samplePlatform.toLowerCase 3 (utf16 "thanks, bye") = .gratitude ∧
      classifyUtterance samplePlatform.toLowerCase 1 (utf16 "thanks, bye") = .firstMessage :=
  ⟨(classifyUtterance_matches_reference samplePlatform.toLowerCase 3 (utf16 "x")).2.2.2.2.2.1
      (by decide) rfl,
    (classifyUtterance_matches_reference samplePlatform.toLowerCase 3 (utf16 "x")).2.2.2.2.2.2
      (by decide) rfl,
    (classifyUtterance_matches_reference samplePlatform.toLowerCase 3
      (utf16 "thanks, bye")).2.2.2.2.1 (by decide)
      ⟨utf16 "thank", by simp [referenceGratitudeWords], rfl⟩,
    (classifyUtterance_matches_reference samplePlatform.toLowerCase 1
      (utf16 "thanks, bye")).2.2.1 rfl⟩

set_option maxRecDepth 8000 in
/-- C16, as stated, fails: the second message `What is an EV?` of session `s1` is
classified other, yet the user entry appended to the history (and sent to the completion
service) is the system prompt, the language line, the utterance and the closing
instruction, not the utterance alone. -/
theorem submitUtterance_other_entry_is_wrapped :
    classifyUtterance samplePlatform.toLowerCase 2 (utf16 "What is an EV?") = .other ∧
      (Store.get (submitUtterance samplePlatform sampleMessageEnv
        { sessionId := some (utf16 "s1"), message := some (utf16 "What is an EV?"),
          messageType := none }
        storeAfterHello).store (utf16 "s1")).map
        (fun s => (s.chatSession.history.drop 4).map Content.text) =
        some [withLanguageContext (utf16 "en") (utf16 "What is an EV?"),
          utf16 "Hi, I am Rev."] ∧
      (withLanguageContext (utf16 "en") (utf16 "What is an EV?")).take 8 = utf16 "You are " ∧
      withLanguageContext (utf16 "en") (utf16 "What is an EV?") ≠ utf16 "What is an EV?" := by
  refine ⟨rfl, rfl, rfl, ?_⟩
  intro h
  have h2 := congrArg (fun l => l.take 1) h
  have h3 : (withLanguageContext (utf16 "en") (utf16 "What is an EV?")).take 1 = [89] := rfl
  have h4 : (utf16 "What is an EV?").take 1 = [87] := rfl
  simp only [h3, h4] at h2
  exact absurd h2 (by decide)

/-- C16 (amended): for every utterance classified as other (not the first message, no
gratitude or farewell keyword) the keyword shaping leaves the utterance unchanged, and
the user turn appended to the session history is that utterance inside the language
context of line 247: the system prompt of the language code, the line
`User message (code): `, the utterance, and the instruction to respond in the same
language. -/
theorem submitUtterance_other_entry (P : Platform) (env : MessageEnv) (store : Store)
    (sessionId message : JsString) (messageType : Option JsString) (session : Session)
    (hid : sessionId ≠ []) (hmsg : message ≠ [])
    (hget : Store.get store sessionId = some session)
    (hother : classifyUtterance P.toLowerCase (session.messageCount + 1) message = .other) :
    optimizePrompt P.toLowerCase (session.messageCount + 1) message = message ∧
    ∃ after rest,
      Store.get (submitUtterance P env
        { sessionId := some sessionId, message := some message, messageType := messageType }
        store).store sessionId = some after ∧
      after.chatSession.history = session.chatSession.history ++
        ({ role := .user
           text := (lookup languagePrompts (languageCodeOf (detectedLanguageOf P message))).getD [] ++
             utf16 "\n\nUser message (" ++ languageCodeOf (detectedLanguageOf P message) ++
             utf16 "): " ++ message ++
             utf16 "\n\nRespond in the same language as the user's message." } : Content) :: rest ∧
      (∀ r ∈ rest, r.role = Role.model) ∧ rest.length ≤ 1 := by
  have hopt : optimizePrompt P.toLowerCase (session.messageCount + 1) message = message := by
    rw [optimizePrompt_eq_promptFor, hother]
    rfl
  refine ⟨hopt, ?_⟩
  have hentry : userEntry P (session.messageCount + 1) message =
      { role := .user
        text := (lookup languagePrompts (languageCodeOf (detectedLanguageOf P message))).getD [] ++
          utf16 "\n\nUser message (" ++ languageCodeOf (detectedLanguageOf P message) ++
          utf16 "): " ++ message ++
          utf16 "\n\nRespond in the same language as the user's message." } := by
    simp only [userEntry, hopt, withLanguageContext]
  cases hc : env.completion with
  | ok text =>
    rw [submitUtterance_ok P env store sessionId message messageType session text hid hmsg hget hc]
    refine ⟨_, [{ role := .model, text := text }], Store.get_set_self _ _ _, ?_, ?_, ?_⟩
    · simp only [hentry]
    · intro r hr
      simp only [List.mem_singleton] at hr
      rw [hr]
    · simp
  | error error =>
    rw [submitUtterance_failed P env store sessionId message messageType session error hid hmsg
      hget hc]
    refine ⟨_, [], Store.get_set_self _ _ _, ?_, ?_, ?_⟩
    · simp only [hentry]
    · intro r hr
      simp at hr
    · simp

set_option maxRecDepth 8000 in
/-- Witness of C16 (amended): the second message `What is an EV?` of session `s1`. -/
theorem submitUtterance_other_entry_witness :
    optimizePrompt samplePlatform.toLowerCase (1 + 1) (utf16 "What is an EV?") =
      utf16 "What is an EV?" ∧
    ∃ after rest,
      Store.get (submitUtterance samplePlatform sampleMessageEnv
        { sessionId := some (utf16 "s1"), message := some (utf16 "What is an EV?"),
          messageType := none }
        storeAfterHello).store (utf16 "s1") = some after ∧
      after.chatSession.history =
        (primaryHistory ++
          [userEntry samplePlatform 1 (utf16 "Hello"),
            { role := .model, text := utf16 "Hi, I am Rev." }]) ++
        ({ role := .user
           text := (lookup languagePrompts
               (languageCodeOf (detectedLanguageOf samplePlatform (utf16 "What is an EV?")))).getD [] ++
             utf16 "\n\nUser message (" ++
             languageCodeOf (detectedLanguageOf samplePlatform (utf16 "What is an EV?")) ++
             utf16 "): " ++ utf16 "What is an EV?" ++
             utf16 "\n\nRespond in the same language as the user's message." } : Content) :: rest ∧
      (∀ r ∈ rest, r.role = Role.model) ∧ rest.length ≤ 1 :=
  submitUtterance_other_entry samplePlatform sampleMessageEnv storeAfterHello (utf16 "s1")
    (utf16 "What is an EV?") none
    { chatSession :=
        { model := utf16 "gemini-2.0-flash-001"
          history := primaryHistory ++
            [userEntry samplePlatform 1 (utf16 "Hello"),
              { role := .model, text := utf16 "Hi, I am Rev." }] }
      modelUsed := utf16 "gemini-1.5-flash"
      isFallback := false
      createdAt := 1700000000000
      lastActivity := 1700000001000
      messageCount := 1 }
    (by decide) (by decide) rfl rfl

/-- C17: for every controller state and every result event handled at a time `checkedAt`
with `checkedAt - lastInterruptionTime ≤ 1000`, no interruption is triggered: synthesis is
not cancelled, and `isAISpeaking`, `currentUtterance` and `lastInterruptionTime` are
unchanged. -/
theorem recognitionOnResult_within_cooldown (s : ClientState) (event : ResultEvent)
    (env : ResultEnv) (h : env.checkedAt - s.lastInterruptionTime ≤ 1000) :
    ClientEffect.synthesisCancel ∉ (recognitionOnResult s event env).2 ∧
      (recognitionOnResult s event env).1.isAISpeaking = s.isAISpeaking ∧
      (recognitionOnResult s event env).1.currentUtterance = s.currentUtterance ∧
      (recognitionOnResult s event env).1.lastInterruptionTime = s.lastInterruptionTime := by
  have hc := checkInterruption_within_cooldown s event env h
  have ha := recognitionOnResult_after_check s event env
  rw [hc] at ha
  refine ⟨?_, ha.1, ha.2.1, ha.2.2.1⟩
  rw [ha.2.2.2]
  simp

set_option maxRecDepth 8000 in
/-- Witness of C17: while the reply is spoken, the interim transcript `hello` arrives
exactly 1000 ms after the last interruption and interrupts nothing. -/
theorem recognitionOnResult_within_cooldown_witness :
    speakingState.isAISpeaking = true ∧
      ClientEffect.synthesisCancel ∉ (recognitionOnResult speakingState interimHello withinCooldown).2 ∧
      (recognitionOnResult speakingState interimHello withinCooldown).1.isAISpeaking =
        speakingState.isAISpeaking ∧
      (recognitionOnResult speakingState interimHello withinCooldown).1.currentUtterance =
        speakingState.currentUtterance ∧
      (recognitionOnResult speakingState interimHello withinCooldown).1.lastInterruptionTime =
        speakingState.lastInterruptionTime :=
  ⟨rfl, recognitionOnResult_within_cooldown speakingState interimHello withinCooldown (by decide)⟩

/-- C18: in every state reachable from the initial one in which `isAISpeaking` is set,
a result event whose interim transcript has trimmed length greater than 2 and which is
handled more than 1000 ms after `lastInterruptionTime` cancels synthesis and leaves
`isAISpeaking = false`, `currentUtterance = null` and `lastInterruptionTime` at the clock
value read when the interruption is recorded. -/
theorem recognitionOnResult_interrupts (hasRecognition hasSynthesis : Bool)
    (events : List ClientEvent) (event : ResultEvent) (env : ResultEnv)
    (hspeaking :
      (clientRun (initialClientState hasRecognition hasSynthesis) events).isAISpeaking = true)
    (hlen : (trim event.interimTranscript).length > 2)
    (helapsed : env.checkedAt -
      (clientRun (initialClientState hasRecognition hasSynthesis) events).lastInterruptionTime >
        1000) :
    ClientEffect.synthesisCancel ∈
        (recognitionOnResult (clientRun (initialClientState hasRecognition hasSynthesis) events)
          event env).2 ∧
      (recognitionOnResult (clientRun (initialClientState hasRecognition hasSynthesis) events)
        event env).1.isAISpeaking = false ∧
      (recognitionOnResult (clientRun (initialClientState hasRecognition hasSynthesis) events)
        event env).1.currentUtterance = none ∧
      (recognitionOnResult (clientRun (initialClientState hasRecognition hasSynthesis) events)
        event env).1.lastInterruptionTime = env.interruptedAt := by
  have hsyn := clientRun_speaking hasRecognition hasSynthesis events hspeaking
  have hne : event.interimTranscript ≠ [] := by
    intro h0
    rw [h0, trim_nil] at hlen
    simp at hlen
  have hinterim := hasInterimResults_of_transcript event hne
  have hc := checkInterruption_triggered _ event env hinterim hspeaking hsyn hlen helapsed
  have ha := recognitionOnResult_after_check
    (clientRun (initialClientState hasRecognition hasSynthesis) events) event env
  rw [hc] at ha
  refine ⟨?_, ha.1, ha.2.1, ha.2.2.1⟩
  rw [ha.2.2.2]
  simp

set_option maxRecDepth 8000 in
/-- Witness of C18: while the reply is spoken, the 5-character interim transcript
`hello` arrives 1050 ms after the last interruption, 50 ms after the cooldown expired. -/
theorem recognitionOnResult_interrupts_witness :
    ClientEffect.synthesisCancel ∈
        (recognitionOnResult (clientRun (initialClientState true true) speakingEvents)
          interimHello afterCooldown).2 ∧
      (recognitionOnResult (clientRun (initialClientState true true) speakingEvents)
        interimHello afterCooldown).1.isAISpeaking = false ∧
      (recognitionOnResult (clientRun (initialClientState true true) speakingEvents)
        interimHello afterCooldown).1.currentUtterance = none ∧
      (recognitionOnResult (clientRun (initialClientState true true) speakingEvents)
        interimHello afterCooldown).1.lastInterruptionTime = afterCooldown.interruptedAt :=
  recognitionOnResult_interrupts true true speakingEvents interimHello afterCooldown rfl
    (by decide) (by decide)

/-- C19: handling a result event with interim results only, whether or not it triggers
an interruption, leaves `isRecording`, `continuousMode`, `retryCount`,
`networkRetryDelay` and `lastSpeechTime` unchanged and does not stop the recognizer: an
interruption cancels synthesis only. -/
theorem recognitionOnResult_interim_only (s : ClientState) (event : ResultEvent)
    (env : ResultEnv) (honly : ∀ r ∈ event.visited, r.isFinal = false) :
    (recognitionOnResult s event env).1.isRecording = s.isRecording ∧
      (recognitionOnResult s event env).1.continuousMode = s.continuousMode ∧
      (recognitionOnResult s event env).1.retryCount = s.retryCount ∧
      (recognitionOnResult s event env).1.networkRetryDelay = s.networkRetryDelay ∧
      (recognitionOnResult s event env).1.lastSpeechTime = s.lastSpeechTime ∧
      ClientEffect.recognitionStop ∉ (recognitionOnResult s event env).2 := by
  have hfinal := finalTranscript_of_interim_only event honly
  have heq : recognitionOnResult s event env = checkInterruption s event env := by
    simp only [recognitionOnResult, hfinal, trim_nil, List.isEmpty_nil, if_true]
  rw [heq]
  have h := checkInterruption_frame s event env
  exact ⟨h.1, h.2.1, h.2.2.1, h.2.2.2.1, h.2.2.2.2.1, h.2.2.2.2.2.2⟩

set_option maxRecDepth 8000 in
/-- Witness of C19: the interim transcript `hello` that interrupts the spoken reply
cancels synthesis and leaves the recording state and the recognizer alone. -/
theorem recognitionOnResult_interim_only_witness :
    ClientEffect.synthesisCancel ∈ (recognitionOnResult speakingState interimHello afterCooldown).2 ∧
      (recognitionOnResult speakingState interimHello afterCooldown).1.isRecording =
        speakingState.isRecording ∧
      (recognitionOnResult speakingState interimHello afterCooldown).1.continuousMode =
        speakingState.continuousMode ∧
      (recognitionOnResult speakingState interimHello afterCooldown).1.retryCount =
        speakingState.retryCount ∧
      (recognitionOnResult speakingState interimHello afterCooldown).1.networkRetryDelay =
        speakingState.networkRetryDelay ∧
      (recognitionOnResult speakingState interimHello afterCooldown).1.lastSpeechTime =
        speakingState.lastSpeechTime ∧
      ClientEffect.recognitionStop ∉ (recognitionOnResult speakingState interimHello afterCooldown).2 :=
  ⟨by decide,
    recognitionOnResult_interim_only speakingState interimHello afterCooldown (by decide)⟩

set_option maxRecDepth 8000 in
/-- C20, as stated, fails: from the listening state (recording, continuous mode,
`retryCount = 0`) three `network` errors in a row leave the controller recording, and the
third error schedules a restart after 4000 ms. -/
theorem three_network_errors_keep_recording :
    listeningState.isRecording = true ∧ listeningState.continuousMode = true ∧
      listeningState.retryCount = 0 ∧
      (clientRun listeningState (networkErrors 3)).isRecording = true ∧
      (clientRun listeningState (networkErrors 3)).retryCount = 3 ∧
      (clientTrace listeningState (networkErrors 3)).getLast? =
        some [ .logMessage (utf16 "🔄 Network error, retrying... (3/3)") (utf16 "info"),
               .setTimeout .restartIfActive 4000 ] := by
  refine ⟨rfl, rfl, rfl, rfl, rfl, rfl⟩

/-- C20 (amended): starting from a recording, continuous-mode state with `retryCount = 0`,
each of the first three `network` errors in a row schedules one restart and the controller
keeps recording (`retryCount = 3` after them); the fourth `network` error in a row stops
the controller (`isRecording = false`, `continuousMode = false`, the terminal error is
logged), schedules no restart and starts no recognition, and after it no timer that fires
starts the recognizer: a fourth restart is never attempted. -/
theorem network_errors_stop_on_fourth (s : ClientState) (hrec : s.isRecording = true)
    (hcont : s.continuousMode = true) (hcount : s.retryCount = 0) :
    ((clientRun s (networkErrors 3)).isRecording = true ∧
      (clientRun s (networkErrors 3)).continuousMode = true ∧
      (clientRun s (networkErrors 3)).retryCount = 3) ∧
    (∀ effects ∈ clientTrace s (networkErrors 3), ∃ message delay,
      effects = [ ClientEffect.logMessage message (utf16 "info"),
                  ClientEffect.setTimeout .restartIfActive delay ]) ∧
    ((clientRun s (networkErrors 4)).isRecording = false ∧
      (clientRun s (networkErrors 4)).continuousMode = false) ∧
    (∃ effects, (clientTrace s (networkErrors 4)).getLast? = some effects ∧
      ClientEffect.logMessage (utf16 "❌ Speech recognition failed after multiple retries.")
        (utf16 "error") ∈ effects ∧
      (∀ callback delay, ClientEffect.setTimeout callback delay ∉ effects) ∧
      ClientEffect.recognitionStart ∉ effects) ∧
    ∀ callback outcome,
      (timerFired (clientRun s (networkErrors 4)) callback outcome).2 = [] := by
  have h1 := recognitionOnError_network_retry s (by omega)
  have h2 := recognitionOnError_network_retry (recognitionOnError s (utf16 "network")).1
    (by rw [h1]; simp [hcount])
  have h3 := recognitionOnError_network_retry
    (recognitionOnError (recognitionOnError s (utf16 "network")).1 (utf16 "network")).1
    (by rw [h2, h1]; simp [hcount])
  have hrun3 : clientRun s (networkErrors 3) =
      (recognitionOnError
        (recognitionOnError (recognitionOnError s (utf16 "network")).1 (utf16 "network")).1
        (utf16 "network")).1 := rfl
  have hrun4 : clientRun s (networkErrors 4) =
      (recognitionOnError (clientRun s (networkErrors 3)) (utf16 "network")).1 := rfl
  have htrace3 : clientTrace s (networkErrors 3) =
      [ (recognitionOnError s (utf16 "network")).2,
        (recognitionOnError (recognitionOnError s (utf16 "network")).1 (utf16 "network")).2,
        (recognitionOnError
          (recognitionOnError (recognitionOnError s (utf16 "network")).1 (utf16 "network")).1
          (utf16 "network")).2 ] := rfl
  have htrace4 : (clientTrace s (networkErrors 4)).getLast? =
      some (recognitionOnError (clientRun s (networkErrors 3)) (utf16 "network")).2 := rfl
  have hstate3 : (clientRun s (networkErrors 3)).isRecording = true ∧
      (clientRun s (networkErrors 3)).continuousMode = true ∧
      (clientRun s (networkErrors 3)).retryCount = 3 := by
    rw [hrun3, h3, h2, h1]
    simp [hrec, hcont, hcount]
  have hstop := recognitionOnError_network_stop (clientRun s (networkErrors 3))
    (by rw [hstate3.2.2]) hstate3.1
  refine ⟨hstate3, ?_, ?_, ?_, ?_⟩
  · intro effects hmem
    rw [htrace3] at hmem
    simp only [List.mem_cons, List.mem_singleton, List.mem_nil_iff, or_false] at hmem
    rcases hmem with hmem | hmem | hmem
    · rw [hmem, h1]
      exact ⟨_, _, rfl⟩
    · rw [hmem, h2]
      exact ⟨_, _, rfl⟩
    · rw [hmem, h3]
      exact ⟨_, _, rfl⟩
  · rw [hrun4]
    exact ⟨hstop.1, hstop.2.1⟩
  · exact ⟨_, htrace4, hstop.2.2.1, hstop.2.2.2.1, hstop.2.2.2.2⟩
  · intro callback outcome
    rw [hrun4]
    exact (timerFired_idle _ hstop.1 callback outcome).1

set_option maxRecDepth 8000 in
/-- Witness of C20 (amended): four `network` errors in a row from the listening state. -/
theorem network_errors_stop_on_fourth_witness :
    ((clientRun listeningState (networkErrors 3)).isRecording = true ∧
      (clientRun listeningState (networkErrors 3)).continuousMode = true ∧
      (clientRun listeningState (networkErrors 3)).retryCount = 3) ∧
    (∀ effects ∈ clientTrace listeningState (networkErrors 3), ∃ message delay,
      effects = [ ClientEffect.logMessage message (utf16 "info"),
                  ClientEffect.setTimeout .restartIfActive delay ]) ∧
    ((clientRun listeningState (networkErrors 4)).isRecording = false ∧
      (clientRun listeningState (networkErrors 4)).continuousMode = false) ∧
    (∃ effects, (clientTrace listeningState (networkErrors 4)).getLast? = some effects ∧
      ClientEffect.logMessage (utf16 "❌ Speech recognition failed after multiple retries.")
        (utf16 "error") ∈ effects ∧
      (∀ callback delay, ClientEffect.setTimeout callback delay ∉ effects) ∧
      ClientEffect.recognitionStart ∉ effects) ∧
    ∀ callback outcome,
      (timerFired (clientRun listeningState (networkErrors 4)) callback outcome).2 = [] :=
  network_errors_stop_on_fourth listeningState rfl rfl rfl


set_option maxRecDepth 8000 in
/-- C21, as stated, fails: after a `network` error from the listening state one retry is
counted (`retryCount = 1`, `networkRetryDelay = 2000`); the recognizer is restarted and its
start event arrives, and both values are what they were before it. -/
theorem recognitionOnStart_keeps_retry_counters :
    retriedOnceState.isRecording = true ∧ retriedOnceState.retryCount = 1 ∧
      retriedOnceState.networkRetryDelay = 2000 ∧
      (clientTrace (initialClientState true true) retriedOnceEvents).getLast? =
        some [.recognitionStart] ∧
      (clientStep retriedOnceState .recognitionStart).1.retryCount = 1 ∧
      (clientStep retriedOnceState .recognitionStart).1.networkRetryDelay = 2000 := by
  refine ⟨rfl, rfl, rfl, rfl, rfl, rfl⟩

/-- C21 (amended): `retryCount` is reset to 0 and `networkRetryDelay` to 1000 whenever
recording is stopped, that is by every event that takes a recording state to one that does
not record, and by `stopVoiceRecording` itself; and whenever a voice interaction starts,
that is when the microphone is granted, before the recognizer is started. The start event
of the recognizer changes neither value. -/
theorem retry_counters_reset (s : ClientState) (e : ClientEvent)
    (hrec : s.isRecording = true) (hstop : (clientStep s e).1.isRecording = false) :
    ((clientStep s e).1.retryCount = 0 ∧ (clientStep s e).1.networkRetryDelay = 1000) ∧
    ((stopVoiceRecording s).1.isRecording = false ∧ (stopVoiceRecording s).1.retryCount = 0 ∧
      (stopVoiceRecording s).1.networkRetryDelay = 1000) ∧
    (∀ (s0 : ClientState) (now : Int) (outcome : StartOutcome),
      (microphoneGranted s0 now outcome).1.retryCount = 0 ∧
        (microphoneGranted s0 now outcome).1.networkRetryDelay = 1000) ∧
    ∀ s0 : ClientState, (recognitionOnStart s0).1.retryCount = s0.retryCount ∧
      (recognitionOnStart s0).1.networkRetryDelay = s0.networkRetryDelay := by
  have hsr := stopVoiceRecording_recording s hrec
  refine ⟨?_, ⟨hsr.1, hsr.2.2.1, hsr.2.2.2.1⟩, ?_, fun s0 => ⟨rfl, rfl⟩⟩
  · rcases clientStep_session s e with hk | hs | ⟨now, outcome, he⟩ | he
    · have h3 := hk.2.2.1
      rw [hrec, hstop] at h3
      exact absurd h3 (by decide)
    · exact ⟨hs.2.2.2.2.2.1, hs.2.2.2.2.2.2⟩
    · subst he
      have hm := microphoneGranted_counters s now outcome
      exact ⟨hm.2.2.1, hm.2.2.2⟩
    · subst he
      have hn := (recognitionOnError_network_counters s).2.2
      rcases hn with ⟨_, h1, _⟩ | ⟨_, _, _, _, h5, h6⟩ | ⟨_, h2, _⟩
      · have hstop2 : (recognitionOnError s (utf16 "network")).1.isRecording = false := hstop
        rw [h1, hrec] at hstop2
        exact absurd hstop2 (by decide)
      · exact ⟨h5, h6⟩
      · rw [hrec] at h2
        exact absurd h2 (by decide)
  · intro s0 now outcome
    have hm := microphoneGranted_counters s0 now outcome
    exact ⟨hm.2.2.1, hm.2.2.2⟩

set_option maxRecDepth 8000 in
/-- Witness of C21 (amended): with one retry counted, a tap stops the recording and both
values are back at 0 and 1000. -/
theorem retry_counters_reset_witness :
    retriedOnceState.isRecording = true ∧ retriedOnceState.retryCount = 1 ∧
      retriedOnceState.networkRetryDelay = 2000 ∧
      (clientStep retriedOnceState (.click true)).1.isRecording = false ∧
      (clientStep retriedOnceState (.click true)).1.retryCount = 0 ∧
      (clientStep retriedOnceState (.click true)).1.networkRetryDelay = 1000 :=
  ⟨rfl, rfl, rfl, rfl, (retry_counters_reset retriedOnceState (.click true) rfl rfl).1⟩

set_option maxRecDepth 8000 in
/-- C22, as stated, fails: after three `network` errors from the listening state the
stored delay is 8000; the fourth error in a row stops the recording and stores 1000, not
`min (2 * 8000) 8000 = 8000`. -/
theorem fourth_network_error_resets_delay :
    (clientRun listeningState (networkErrors 3)).isRecording = true ∧
      (clientRun listeningState (networkErrors 3)).retryCount = 3 ∧
      (clientRun listeningState (networkErrors 3)).networkRetryDelay = 8000 ∧
      (clientStep (clientRun listeningState (networkErrors 3))
        (.recognitionError (utf16 "network"))).1.networkRetryDelay = 1000 ∧
      (clientStep (clientRun listeningState (networkErrors 3))
        (.recognitionError (utf16 "network"))).1.networkRetryDelay ≠
        min (2 * (clientRun listeningState (networkErrors 3)).networkRetryDelay) 8000 := by
  refine ⟨rfl, rfl, rfl, rfl, by decide⟩

/-- C22 (amended): in every state reached from the initial one, where `retryCount` counts
the `network` errors since the counters were last reset, for k = 1, 2, 3 the k-th `network`
error schedules the restart after exactly `1000 * 2 ^ (k - 1)` ms and stores
`min (2 * previous) 8000`; a `network` error past the ceiling of three stores 1000 when it
stops a recording and leaves the stored delay as it is otherwise. In every reachable state
the stored delay is 1000, 2000, 4000 or 8000. -/
theorem network_error_backoff (hasRecognition hasSynthesis : Bool)
    (events : List ClientEvent) (s : ClientState) (k : Nat)
    (hs : s = clientRun (initialClientState hasRecognition hasSynthesis) events)
    (hk : s.retryCount + 1 = k) :
    (k ≤ 3 →
      (∃ message, (recognitionOnError s (utf16 "network")).2 =
        [ .logMessage message (utf16 "info"),
          .setTimeout .restartIfActive (1000 * 2 ^ (k - 1)) ]) ∧
      (recognitionOnError s (utf16 "network")).1.retryCount = k ∧
      (recognitionOnError s (utf16 "network")).1.networkRetryDelay =
        min (2 * s.networkRetryDelay) 8000) ∧
    (3 < k → s.isRecording = true →
      (recognitionOnError s (utf16 "network")).1.networkRetryDelay = 1000 ∧
      (recognitionOnError s (utf16 "network")).1.retryCount = 0 ∧
      ∀ callback delay,
        ClientEffect.setTimeout callback delay ∉ (recognitionOnError s (utf16 "network")).2) ∧
    (3 < k → s.isRecording = false →
      (recognitionOnError s (utf16 "network")).1.networkRetryDelay = s.networkRetryDelay) ∧
    (s.networkRetryDelay = 1000 ∨ s.networkRetryDelay = 2000 ∨ s.networkRetryDelay = 4000 ∨
      s.networkRetryDelay = 8000) := by
  have hdelay : s.networkRetryDelay = delayOfCount s.retryCount := by
    rw [hs]
    exact clientRun_delay hasRecognition hasSynthesis events
  have hcount : s.retryCount = k - 1 := by omega
  refine ⟨?_, ?_, ?_, ?_⟩
  · intro hle
    have hlt : s.retryCount < 3 := by omega
    have hsmall : 1000 * 2 ^ s.retryCount ≤ 8000 := by
      have h1 : s.retryCount = 0 ∨ s.retryCount = 1 ∨ s.retryCount = 2 := by omega
      rcases h1 with h1 | h1 | h1 <;> rw [h1] <;> decide
    have hd : s.networkRetryDelay = 1000 * 2 ^ (k - 1) := by
      rw [hdelay, delayOfCount, hcount] at *
      exact Nat.min_eq_left hsmall
    rw [recognitionOnError_network_retry s hlt]
    refine ⟨⟨utf16 "🔄 Network error, retrying... (" ++ utf16 (toString (s.retryCount + 1)) ++
      utf16 "/" ++ utf16 (toString maxRetries) ++ utf16 ")", ?_⟩, hk, ?_⟩
    · show [ClientEffect.logMessage _ _, ClientEffect.setTimeout .restartIfActive s.networkRetryDelay] = _
      rw [hd]
    · show min (s.networkRetryDelay * 2) 8000 = min (2 * s.networkRetryDelay) 8000
      rw [Nat.mul_comm]
  · intro hgt hrec
    have hstop := recognitionOnError_network_stop s (by omega) hrec
    rcases (recognitionOnError_network_counters s).2.2 with ⟨h1, _⟩ | ⟨_, _, _, _, h5, h6⟩ |
        ⟨_, h2, _⟩
    · omega
    · exact ⟨h6, h5, hstop.2.2.2.1⟩
    · rw [hrec] at h2
      exact absurd h2 (by decide)
  · intro hgt hrec
    rcases (recognitionOnError_network_counters s).2.2 with ⟨h1, _⟩ | ⟨_, h2, _⟩ |
        ⟨_, _, _, _, _, h6⟩
    · omega
    · rw [hrec] at h2
      exact absurd h2 (by decide)
    · exact h6
  · rw [hdelay]
    exact delayOfCount_mem s.retryCount

set_option maxRecDepth 8000 in
/-- Witness of C22 (amended): the third `network` error from the listening state is
scheduled after 4000 ms and stores 8000. -/
theorem network_error_backoff_witness :
    (clientRun listeningState (networkErrors 2)).retryCount + 1 = 3 ∧
      (∃ message,
        (recognitionOnError (clientRun listeningState (networkErrors 2)) (utf16 "network")).2 =
          [ .logMessage message (utf16 "info"), .setTimeout .restartIfActive (1000 * 2 ^ (3 - 1)) ]) ∧
      (recognitionOnError (clientRun listeningState (networkErrors 2))
        (utf16 "network")).1.retryCount = 3 ∧
      (recognitionOnError (clientRun listeningState (networkErrors 2))
        (utf16 "network")).1.networkRetryDelay =
        min (2 * (clientRun listeningState (networkErrors 2)).networkRetryDelay) 8000 :=
  ⟨rfl, (network_error_backoff true true (listeningEvents ++ networkErrors 2)
    (clientRun listeningState (networkErrors 2)) 3 rfl rfl).1 (by decide)⟩


set_option maxRecDepth 8000 in
/-- C23, as stated, fails: from the listening state the final transcript `Hello` is sent,
the user taps the button while the request is in flight (the recording stops and nothing
is being spoken), and the reply that arrives afterwards is spoken: `synthesis.speak` is
called and `isAISpeaking` becomes true. -/
theorem late_reply_is_spoken :
    (clientTrace (initialClientState true true) inFlightEvents).getLast? =
        some [ .logMessage (utf16 "🎤 You: Hello") (utf16 "user"), .recognitionStop,
               .sendMessage (utf16 "Hello") (utf16 "voice") ] ∧
      stoppedInFlightState = (clientStep inFlightState (.click true)).1 ∧
      stoppedInFlightState.isRecording = false ∧
      stoppedInFlightState.continuousMode = false ∧
      stoppedInFlightState.isAISpeaking = false ∧
      (clientStep stoppedInFlightState
        (.messageSettled (.ok (utf16 "Hi, I am Rev.")) sampleVoices)).1.isAISpeaking = true ∧
      (clientStep stoppedInFlightState
        (.messageSettled (.ok (utf16 "Hi, I am Rev.")) sampleVoices)).2 =
        [ .logMessage (utf16 "⚡ Rev: Hi, I am Rev.") (utf16 "ai"),
          .logMessage (utf16 "🔊 Using voice: Samantha (en-US)") (utf16 "info"),
          .synthesisSpeak
            { text := utf16 "Hi, I am Rev.",
              voice := some { name := utf16 "Samantha", lang := utf16 "en-US",
                              isDefault := true, localService := true } } ] := by
  refine ⟨rfl, rfl, rfl, rfl, rfl, rfl, rfl⟩

/-- C23 (amended): when the recording has been stopped while a completion request is in
flight, the reply that later arrives is logged and, where a synthesizer exists, spoken
(`isAISpeaking` becomes true); it does not resume the session: `isRecording` stays false,
`continuousMode` is unchanged, its arrival schedules no restart and starts no recognition,
and neither does the end or the error of its utterance. -/
theorem late_reply_does_not_resume (s : ClientState) (response : JsString)
    (voices : List Voice) (hidle : s.isRecording = false) :
    (afterSendMessage s (.ok response) voices).1.isRecording = false ∧
    (afterSendMessage s (.ok response) voices).1.continuousMode = s.continuousMode ∧
    ClientEffect.logMessage (utf16 "⚡ Rev: " ++ response) (utf16 "ai") ∈
      (afterSendMessage s (.ok response) voices).2 ∧
    (∀ callback delay,
      ClientEffect.setTimeout callback delay ∉ (afterSendMessage s (.ok response) voices).2) ∧
    ClientEffect.recognitionStart ∉ (afterSendMessage s (.ok response) voices).2 ∧
    (s.synthesis = true →
      (afterSendMessage s (.ok response) voices).1.isAISpeaking = true ∧
      ClientEffect.synthesisSpeak
          { text := response
            voice := getVoiceForLanguage voices (detectLanguageFromText response) } ∈
        (afterSendMessage s (.ok response) voices).2) ∧
    (s.synthesis = false → (afterSendMessage s (.ok response) voices).1 = s) ∧
    (∀ callback delay, ClientEffect.setTimeout callback delay ∉
      (utteranceOnEnd (afterSendMessage s (.ok response) voices).1).2) ∧
    (utteranceOnError (afterSendMessage s (.ok response) voices).1).2 = [] := by
  by_cases hsyn : s.synthesis = true
  · simp only [afterSendMessage, utteranceOnEnd, utteranceOnError, hsyn, hidle, if_true]
    cases getVoiceForLanguage voices (detectLanguageFromText response) <;> simp
  · have hsyn2 : s.synthesis = false := by simpa using hsyn
    simp [afterSendMessage, utteranceOnEnd, utteranceOnError, hsyn2, hidle]

set_option maxRecDepth 8000 in
/-- Witness of C23 (amended): the reply that arrives after the tap of the worked example
leaves the recording stopped and schedules nothing. -/
theorem late_reply_does_not_resume_witness :
    stoppedInFlightState.isRecording = false ∧
      (afterSendMessage stoppedInFlightState (.ok (utf16 "Hi, I am Rev.")) sampleVoices).1.isRecording =
        false ∧
      (∀ callback delay, ClientEffect.setTimeout callback delay ∉
        (afterSendMessage stoppedInFlightState (.ok (utf16 "Hi, I am Rev.")) sampleVoices).2) :=
  ⟨rfl,
    (late_reply_does_not_resume stoppedInFlightState (utf16 "Hi, I am Rev.") sampleVoices rfl).1,
    (late_reply_does_not_resume stoppedInFlightState (utf16 "Hi, I am Rev.") sampleVoices
      rfl).2.2.2.1⟩

/-- C24: the stop of the recording, `stopVoiceRecording`, is idempotent: on every state a
second call returns the state of the first and makes no call to the outside (no
`recognition.stop()`, no `synthesis.cancel()`, no log line); on a state that does not
record the function changes nothing and makes no call; and a tap on a recording state is
this stop. The function is total: an error of `recognition.stop()` is caught inside it, so
neither call throws. -/
theorem stopVoiceRecording_idempotent (s : ClientState) :
    stopVoiceRecording (stopVoiceRecording s).1 = ((stopVoiceRecording s).1, []) ∧
    (s.isRecording = false → stopVoiceRecording s = (s, [])) ∧
    (s.isRecording = true → ∀ online, voiceButtonClick s online = stopVoiceRecording s) := by
  have hidle : ∀ t : ClientState, t.isRecording = false → stopVoiceRecording t = (t, []) := by
    intro t ht
    simp [stopVoiceRecording, ht]
  refine ⟨?_, hidle s, ?_⟩
  · apply hidle
    by_cases hrec : s.isRecording = true
    · exact (stopVoiceRecording_recording s hrec).1
    · have hrec2 : s.isRecording = false := by simpa using hrec
      rw [hidle s hrec2]
      exact hrec2
  · intro hrec online
    simp [voiceButtonClick, hrec]

set_option maxRecDepth 8000 in
/-- Witness of C24: a second stop of the speaking state changes nothing; the initial state
does not record and a stop leaves it as it is; a tap on the speaking state is the stop. -/
theorem stopVoiceRecording_idempotent_witness :
    stopVoiceRecording (stopVoiceRecording speakingState).1 =
        ((stopVoiceRecording speakingState).1, []) ∧
      (initialClientState true true).isRecording = false ∧
      stopVoiceRecording (initialClientState true true) = (initialClientState true true, []) ∧
      speakingState.isRecording = true ∧
      voiceButtonClick speakingState true = stopVoiceRecording speakingState :=
  ⟨(stopVoiceRecording_idempotent speakingState).1, rfl,
    (stopVoiceRecording_idempotent (initialClientState true true)).2.1 rfl, rfl,
    (stopVoiceRecording_idempotent speakingState).2.2 rfl true⟩


set_option maxRecDepth 8000 in
/-- C25 fails on the code: in a state reached by events the browser can deliver, the
controller records, two replies were passed to `synthesis.speak`, the first utterance has
ended, which cleared `isAISpeaking`, and the second is in the queue of the synthesizer. A
tap there stops the recognizer and clears the recording fields, but `synthesis.cancel()`
is not called and the second reply stays in the queue. -/
theorem tap_leaves_queued_reply_playing :
    admissible (initialClientState true true) queuedReplyEvents = true ∧
      queuedReplyState.isRecording = true ∧ queuedReplyState.isAISpeaking = false ∧
      synthesisQueue (initialClientState true true) [] queuedReplyEvents =
        [{ text := utf16 "You are welcome."
           voice := some { name := utf16 "Samantha", lang := utf16 "en-US",
                           isDefault := true, localService := true } }] ∧
      (voiceButtonClick queuedReplyState true).1.isRecording = false ∧
      (voiceButtonClick queuedReplyState true).1.continuousMode = false ∧
      (voiceButtonClick queuedReplyState true).2 =
        [.recognitionStop, .logMessage (utf16 "🔇 Voice input stopped.") (utf16 "info")] ∧
      ClientEffect.synthesisCancel ∉ (voiceButtonClick queuedReplyState true).2 ∧
      synthesisQueue (initialClientState true true) [] (queuedReplyEvents ++ [.click true]) =
        [{ text := utf16 "You are welcome."
           voice := some { name := utf16 "Samantha", lang := utf16 "en-US",
                           isDefault := true, localService := true } }] := by
  refine ⟨rfl, rfl, rfl, rfl, rfl, rfl, rfl, by decide, rfl⟩

set_option maxRecDepth 8000 in
/-- C26, as stated, fails: while recording with a request in flight, the server answers
500 and `sendMessage` throws `HTTP error! status: 500`; the controller logs the error,
stays as it was (`isRecording` and `continuousMode` are still true) and schedules a restart
of the recognizer after 1000 ms. -/
theorem server_error_keeps_recording :
    inFlightState.isRecording = true ∧ inFlightState.continuousMode = true ∧
      clientStep inFlightState
          (.messageSettled (.error (utf16 "HTTP error! status: 500")) sampleVoices) =
        (inFlightState,
          [ .logMessage (utf16 "❌ Error: HTTP error! status: 500") (utf16 "error"),
            .setTimeout .restart 1000 ]) := by
  refine ⟨rfl, rfl, rfl⟩

/-- C26 (amended): when the message submission fails with the error message `message`
(for a reply that is not 2xx, `HTTP error! status: ` and the status), the controller logs
an error line that carries the message and leaves its state as it is: `isRecording` and
`continuousMode` are unchanged; a restart of the recognizer is scheduled after 1000 ms
exactly when both are true, nothing else is scheduled, and the recognizer is neither
started nor stopped by the handler. -/
theorem message_failure_keeps_session (s : ClientState) (message : JsString)
    (voices : List Voice) :
    (afterSendMessage s (.error message) voices).1 = s ∧
    (ClientEffect.logMessage (utf16 "❌ Error: " ++ message) (utf16 "error") ∈
        (afterSendMessage s (.error message) voices).2 ∨
      ClientEffect.logMessage (utf16 "⚠️ API limit reached: " ++ message) (utf16 "error") ∈
        (afterSendMessage s (.error message) voices).2) ∧
    (ClientEffect.setTimeout .restart 1000 ∈ (afterSendMessage s (.error message) voices).2 ↔
      (s.continuousMode = true ∧ s.isRecording = true)) ∧
    (∀ callback delay,
      ClientEffect.setTimeout callback delay ∈ (afterSendMessage s (.error message) voices).2 →
        callback = .restart ∧ delay = 1000) ∧
    ClientEffect.recognitionStart ∉ (afterSendMessage s (.error message) voices).2 ∧
    ClientEffect.recognitionStop ∉ (afterSendMessage s (.error message) voices).2 := by
  simp only [afterSendMessage, sendFailed]
  split_ifs <;> simp_all

/-- C27: when the recognizer ends while the controller records in continuous mode: if
more than 30000 ms have passed since `lastSpeechTime`, the session is stopped
(`isRecording = false`, `continuousMode = false`), no restart is scheduled and no
recognition is started; otherwise the state is unchanged, so the session stays active, and
exactly one timer is set, after 100 ms, whose callback restarts the recognizer while the
session is still active. -/
theorem recognitionOnEnd_idle_timeout (s : ClientState) (now : Int)
    (hrec : s.isRecording = true) (hcont : s.continuousMode = true) :
    (now - s.lastSpeechTime > 30000 →
      (recognitionOnEnd s now).1.isRecording = false ∧
      (recognitionOnEnd s now).1.continuousMode = false ∧
      (∀ callback delay,
        ClientEffect.setTimeout callback delay ∉ (recognitionOnEnd s now).2) ∧
      ClientEffect.recognitionStart ∉ (recognitionOnEnd s now).2) ∧
    (now - s.lastSpeechTime ≤ 30000 →
      recognitionOnEnd s now = (s, [.setTimeout .restartIfActive 100]) ∧
      ∀ outcome, timerFired s .restartIfActive outcome = startRecognitionSafely s outcome) := by
  have hstop := stopVoiceRecording_recording s hrec
  constructor
  · intro hgt
    simp only [recognitionOnEnd, hrec, hcont, Bool.and_self, if_true, hgt]
    refine ⟨hstop.1, hstop.2.1, ?_, ?_⟩
    · intro callback delay hmem
      simp only [List.mem_cons] at hmem
      rcases hmem with hmem | hmem
      · exact absurd hmem (by simp)
      · exact hstop.2.2.2.2.1 callback delay hmem
    · intro hmem
      simp only [List.mem_cons] at hmem
      rcases hmem with hmem | hmem
      · exact absurd hmem (by simp)
      · exact hstop.2.2.2.2.2 hmem
  · intro hle
    have hng : ¬ now - s.lastSpeechTime > 30000 := by omega
    constructor
    · simp only [recognitionOnEnd, hrec, hcont, Bool.and_self, if_true, hng, if_false]
    · intro outcome
      simp only [timerFired, hrec, hcont, Bool.and_self, if_true]

set_option maxRecDepth 8000 in
/-- Witness of C27: the listening state last heard speech at 1000 ms; an end event at
31001 ms stops the session, one at 31000 ms sets the timer of 100 ms. -/
theorem recognitionOnEnd_idle_timeout_witness :
    listeningState.isRecording = true ∧ listeningState.continuousMode = true ∧
      listeningState.lastSpeechTime = 1000 ∧
      ((recognitionOnEnd listeningState 31001).1.isRecording = false ∧
        (recognitionOnEnd listeningState 31001).1.continuousMode = false ∧
        (∀ callback delay,
          ClientEffect.setTimeout callback delay ∉ (recognitionOnEnd listeningState 31001).2) ∧
        ClientEffect.recognitionStart ∉ (recognitionOnEnd listeningState 31001).2) ∧
      recognitionOnEnd listeningState 31000 =
        (listeningState, [.setTimeout .restartIfActive 100]) :=
  ⟨rfl, rfl, rfl, (recognitionOnEnd_idle_timeout listeningState 31001 rfl rfl).1 (by decide),
    ((recognitionOnEnd_idle_timeout listeningState 31000 rfl rfl).2 (by decide)).1⟩


/-- C28: for a recognizer error other than `network` while the controller records in
continuous mode, the handler is this table: `aborted` changes nothing and schedules
nothing; `no-speech` leaves the state as it is and schedules a restart after 100 ms;
`audio-capture`, `not-allowed` and `service-not-allowed` stop the session
(`isRecording = false`, `continuousMode = false`), schedule nothing and start no
recognition; any other code leaves the state as it is, logs the error and schedules a
restart after 1000 ms. No row counts a retry: `retryCount` and `networkRetryDelay` are
unchanged, or they are 0 and 1000 after the stop of a terminal row. -/
theorem recognitionOnError_table (s : ClientState) (error : JsString)
    (hrec : s.isRecording = true) (hcont : s.continuousMode = true)
    (hne : error ≠ utf16 "network") :
    (error = utf16 "aborted" → recognitionOnError s error = (s, [])) ∧
    (error = utf16 "no-speech" →
      recognitionOnError s error = (s, [.setTimeout .restart 100])) ∧
    (error = utf16 "audio-capture" ∨ error = utf16 "not-allowed" ∨
        error = utf16 "service-not-allowed" →
      (recognitionOnError s error).1.isRecording = false ∧
      (recognitionOnError s error).1.continuousMode = false ∧
      (recognitionOnError s error).1.retryCount = 0 ∧
      (recognitionOnError s error).1.networkRetryDelay = 1000 ∧
      (∀ callback delay,
        ClientEffect.setTimeout callback delay ∉ (recognitionOnError s error).2) ∧
      ClientEffect.recognitionStart ∉ (recognitionOnError s error).2) ∧
    (error ≠ utf16 "aborted" → error ≠ utf16 "no-speech" → error ≠ utf16 "audio-capture" →
        error ≠ utf16 "not-allowed" → error ≠ utf16 "service-not-allowed" →
      recognitionOnError s error =
        (s, [ .logMessage (utf16 "❌ Speech recognition error: " ++ error) (utf16 "error"),
              .setTimeout .restart 1000 ])) ∧
    (((recognitionOnError s error).1.retryCount = s.retryCount ∧
        (recognitionOnError s error).1.networkRetryDelay = s.networkRetryDelay) ∨
      ((recognitionOnError s error).1.isRecording = false ∧
        (recognitionOnError s error).1.retryCount = 0 ∧
        (recognitionOnError s error).1.networkRetryDelay = 1000)) := by
  have hboth : (s.continuousMode && s.isRecording) = true := by rw [hrec, hcont]; rfl
  refine ⟨?_, ?_, ?_, ?_, ?_⟩
  · intro he
    subst he
    simp only [recognitionOnError, if_true]
  · intro he
    subst he
    simp only [recognitionOnError]
    rw [if_neg (by decide), if_neg (by decide), if_pos trivial, if_pos hboth]
  · intro he
    rcases he with he | he | he
    · subst he
      simp only [recognitionOnError]
      rw [if_neg (by decide), if_neg (by decide), if_neg (by decide), if_pos trivial]
      exact handleRecognitionFailure_recording s hrec _ ⟨_, _, rfl⟩
    · subst he
      simp only [recognitionOnError]
      rw [if_neg (by decide), if_neg (by decide), if_neg (by decide), if_neg (by decide),
        if_pos trivial]
      exact handleRecognitionFailure_recording s hrec _ ⟨_, _, rfl⟩
    · subst he
      simp only [recognitionOnError]
      rw [if_neg (by decide), if_neg (by decide), if_neg (by decide), if_neg (by decide),
        if_neg (by decide), if_pos trivial]
      exact handleRecognitionFailure_recording s hrec _ ⟨_, _, rfl⟩
  · intro h1 h2 h3 h4 h5
    simp only [recognitionOnError]
    rw [if_neg h1, if_neg hne, if_neg h2, if_neg h3, if_neg h4, if_neg h5, if_pos hboth]
  · rcases recognitionOnError_session s error hne with hk | hst
    · exact Or.inl ⟨hk.2.2.2.2.1, hk.2.2.2.2.2⟩
    · exact Or.inr ⟨hst.2.2.2.1, hst.2.2.2.2.2.1, hst.2.2.2.2.2.2⟩

set_option maxRecDepth 8000 in
/-- Witness of C28: in the listening state `no-speech` schedules the restart after 100 ms,
`not-allowed` stops the session, and the code `bad-grammar` schedules the restart after
1000 ms. -/
theorem recognitionOnError_table_witness :
    listeningState.isRecording = true ∧ listeningState.continuousMode = true ∧
      recognitionOnError listeningState (utf16 "no-speech") =
        (listeningState, [.setTimeout .restart 100]) ∧
      (recognitionOnError listeningState (utf16 "not-allowed")).1.isRecording = false ∧
      recognitionOnError listeningState (utf16 "bad-grammar") =
        (listeningState,
          [ .logMessage (utf16 "❌ Speech recognition error: " ++ utf16 "bad-grammar")
              (utf16 "error"),
            .setTimeout .restart 1000 ]) :=
  ⟨rfl, rfl,
    (recognitionOnError_table listeningState (utf16 "no-speech") rfl rfl (by decide)).2.1 rfl,
    ((recognitionOnError_table listeningState (utf16 "not-allowed") rfl rfl
      (by decide)).2.2.1 (Or.inr (Or.inl rfl))).1,
    (recognitionOnError_table listeningState (utf16 "bad-grammar") rfl rfl
      (by decide)).2.2.2.1 (by decide) (by decide) (by decide) (by decide) (by decide)⟩

/-- C29, as stated, fails: for the tag `es` and the voices `es-ES` (not default) and
`es-MX` (default), a default voice whose language matches the tag exists, and the function
returns the first voice, which is not the default one. -/
theorem getVoiceForLanguage_skips_default :
    spanishVoices.find? (fun v => v.isDefault && (utf16 "es").isPrefixOf v.lang) =
        some { name := utf16 "Paulina", lang := utf16 "es-MX", isDefault := true,
               localService := true } ∧
      getVoiceForLanguage spanishVoices (utf16 "es") =
        some { name := utf16 "Monica", lang := utf16 "es-ES", isDefault := false,
               localService := true } ∧
      (getVoiceForLanguage spanishVoices (utf16 "es")).map (fun v => v.isDefault) =
        some false := by
  refine ⟨rfl, rfl, rfl⟩

/-- C29 (amended): for every language tag and every list of voices, `getVoiceForLanguage`
returns, in this order of preference: for the tag `en`, a default voice whose language
starts with `en` if one exists; otherwise the first voice whose language starts with the
tag; otherwise the first English voice; otherwise the first voice. It returns no voice
exactly when the list is empty. -/
theorem getVoiceForLanguage_preference (voices : List Voice) (languageCode : JsString) :
    getVoiceForLanguage voices languageCode = voicePreference voices languageCode ∧
      (getVoiceForLanguage voices languageCode = none ↔ voices = []) := by
  have hspec : getVoiceForLanguage voices languageCode = voicePreference voices languageCode := by
    unfold getVoiceForLanguage voicePreference
    by_cases hen : languageCode = utf16 "en"
    · subst hen
      simp only [if_true]
      cases h1 : voices.find? (fun v => v.isDefault && (utf16 "en").isPrefixOf v.lang) <;>
        cases h2 : voices.find? (fun v => (utf16 "en").isPrefixOf v.lang) <;>
        cases h3 : voices.head? <;> rfl
    · simp only [hen, if_false]
      cases h1 : voices.find? (fun v => languageCode.isPrefixOf v.lang) <;>
        cases h2 : voices.find? (fun v => (utf16 "en").isPrefixOf v.lang) <;>
        cases h3 : voices.head? <;> rfl
  refine ⟨hspec, ?_⟩
  constructor
  · intro hnone
    cases voices with
    | nil => rfl
    | cons v rest =>
      exfalso
      rw [hspec] at hnone
      unfold voicePreference at hnone
      cases h0 : (if languageCode = utf16 "en" then
          (v :: rest).find? (fun v => v.isDefault && (utf16 "en").isPrefixOf v.lang)
        else none) <;>
        cases h1 : (v :: rest).find? (fun v => languageCode.isPrefixOf v.lang) <;>
        cases h2 : (v :: rest).find? (fun v => (utf16 "en").isPrefixOf v.lang) <;>
        rw [h0, h1, h2] at hnone <;> simp at hnone
  · intro hnil
    subst hnil
    unfold getVoiceForLanguage
    split_ifs <;> rfl

/-- C30 fails on the code: the Spanish phrase of the language test, which holds `ó` and
`á` and no Devanagari, CJK, kana or Hangul character, is resolved to `fr`; and no text at
all is resolved to `es`, because every character of the Spanish class is in the French
class, which is tested first. -/
theorem detectLanguageFromText_never_spanish :
    hasUnitOf holaComoEstas (utf16 "ñáéíóúü") = true ∧
      hasUnitIn holaComoEstas 0x0900 0x097F = false ∧
      hasUnitIn holaComoEstas 0x4E00 0x9FFF = false ∧
      hasUnitIn holaComoEstas 0x3040 0x309F = false ∧
      hasUnitIn holaComoEstas 0x30A0 0x30FF = false ∧
      hasUnitIn holaComoEstas 0xAC00 0xD7AF = false ∧
      detectLanguageFromText holaComoEstas = utf16 "fr" ∧
      ∀ text : JsString, detectLanguageFromText text ≠ utf16 "es" := by
  refine ⟨by decide, by decide, by decide, by decide, by decide, by decide, by decide, ?_⟩
  intro text
  have hsub : ∀ u : Nat, (utf16 "ñáéíóúü").contains u = true →
      (utf16 "àáâãäåæçèéêëìíîïðñòóôõöøùúûüýþÿ").contains u = true := by
    intro u hu
    have hmem : u ∈ utf16 "ñáéíóúü" := by simpa using hu
    have hcases : u = 241 ∨ u = 225 ∨ u = 233 ∨ u = 237 ∨ u = 243 ∨ u = 250 ∨ u = 252 := by
      have hlist : utf16 "ñáéíóúü" = [241, 225, 233, 237, 243, 250, 252] := by decide
      rw [hlist] at hmem
      simpa using hmem
    rcases hcases with h | h | h | h | h | h | h <;> subst h <;> decide
  have hfr : hasUnitOf text (utf16 "ñáéíóúü") = true →
      hasUnitOf text (utf16 "àáâãäåæçèéêëìíîïðñòóôõöøùúûüýþÿ") = true := by
    intro h
    simp only [hasUnitOf, List.any_eq_true] at h ⊢
    obtain ⟨u, hu, hc⟩ := h
    exact ⟨u, hu, hsub u hc⟩
  unfold detectLanguageFromText
  split_ifs with h1 h2 h3 h4 h5 h6 h7
  · decide
  · decide
  · decide
  · decide
  · decide
  · decide
  · exact absurd (hfr h7) h5
  · decide

end VoiceChatBot
